import Mathlib

/-! # AGROMEX backend (`src/backend/server.js`): relational store, guards and routes

A shallow embedding of the Express server.  The PostgreSQL database is a record
of tables (lists of rows, in insertion order) together with the `SERIAL`
counters; every SQL statement of the source is a function on that record which
enforces the constraints declared in `setupQuery` (primary keys, `UNIQUE`,
`REFERENCES`).  A middleware either answers or hands over to the next stage.

Conventions of the embedding:
* identifiers in the path are integers already parsed, of any size; the `userId`
  of a verified token is the `id` of a `usuarios` row, as login signed it;
* a body field is `none` when it is `undefined` or `null`; a text is any string,
  a number any integer, a date any day number, and the store refuses, when the
  statement is bound, a value that the type of its column does not hold;
* the text literals are those of the stored file, character by character: where
  the file holds U+FFFD the literal holds U+FFFD;
* `DATE` is a day number, `TIMESTAMPTZ` and JavaScript `Date` are milliseconds
  since the epoch (server clock in UTC), `DECIMAL(p, 2)` is in hundredths;
* the identity store (`jwt.verify`, `bcrypt`), the clock and the date renderer
  are parameters, gathered in `Entorno`;
* statements reach the database, except where `Entorno.fallaRol` says that the
  role grant of "create establishment" is refused by the store;
* `POST /api/auth/login` reads `usuarios` and writes nothing; it is left out.
-/

namespace Agromex

/-! ## Rows of the tables created by `setupQuery` -/

/-- Row of `usuarios`. -/
structure Usuario where
  id : Int
  email : String
  password_hash : String
  nombre_completo : Option String
  fecha_creacion : Int
deriving DecidableEq

/-- Row of `establecimientos`. -/
structure Establecimiento where
  id : Int
  nombre : String
  numero_oficial : Option String
  propietario_id : Int
  fecha_creacion : Int
deriving DecidableEq

/-- Row of `usuario_establecimiento_roles`, keyed by `(usuario_id, establecimiento_id)`. -/
structure UsuarioEstablecimientoRol where
  usuario_id : Int
  establecimiento_id : Int
  rol : String
deriving DecidableEq

/-- Row of `rodeos`. -/
structure Rodeo where
  id : Int
  establecimiento_id : Int
  nombre : String
  descripcion : Option String
  fecha_creacion : Int
deriving DecidableEq

/-- Row of `vacas`. -/
structure Vaca where
  id : Int
  establecimiento_id : Int
  caravana_senasa : Option String
  caravana_interna : Option String
  nombre : Option String
  raza : Option String
  fecha_nacimiento : Option Int
  estado_actual : Option String
  estado_reproductivo : Option String
  rodeo_id : Option Int
  madre_id : Option Int
  padre_nombre : Option String
  fecha_ingreso : Option Int
  activa : Option Bool
deriving DecidableEq

/-- Row of `historial_movimientos`. -/
structure Movimiento where
  id : Int
  establecimiento_id : Int
  vaca_id : Int
  rodeo_origen_id : Option Int
  rodeo_destino_id : Int
  fecha_movimiento : Int
  motivo : Option String
deriving DecidableEq

/-- Row of `registros_produccion`. -/
structure RegistroProduccion where
  id : Int
  vaca_id : Int
  establecimiento_id : Int
  fecha_registro : Int
  litros_dia : Int
  calidad_grasa : Option Int
  calidad_proteina : Option Int
deriving DecidableEq

/-- Row of `registros_salud`. -/
structure RegistroSalud where
  id : Int
  vaca_id : Int
  establecimiento_id : Int
  fecha_evento : Int
  tipo_evento : String
  descripcion : String
  costo : Option Int
  observaciones : Option String
deriving DecidableEq

/-- Row of `registros_reproduccion`. -/
structure RegistroReproduccion where
  id : Int
  vaca_id : Int
  establecimiento_id : Int
  fecha_evento : Int
  fecha_es_aproximada : Option Bool
  tipo_evento : String
  detalle : Option String
  inseminador : Option String
  cria_id_oficial : Option String
deriving DecidableEq

/-- Row of `fotos_vacas`. -/
structure FotoVaca where
  id : Int
  vaca_id : Int
  establecimiento_id : Int
  url_foto : String
  descripcion : Option String
  fecha_subida : Int
deriving DecidableEq

/-- The rows of every table: this is the stored data. -/
structure Store where
  usuarios : List Usuario
  establecimientos : List Establecimiento
  usuario_establecimiento_roles : List UsuarioEstablecimientoRol
  rodeos : List Rodeo
  vacas : List Vaca
  historial_movimientos : List Movimiento
  registros_produccion : List RegistroProduccion
  registros_salud : List RegistroSalud
  registros_reproduccion : List RegistroReproduccion
  fotos_vacas : List FotoVaca
deriving DecidableEq

/-- Next value of the sequence behind each `SERIAL PRIMARY KEY`. -/
structure Secuencias where
  usuarios : Int
  establecimientos : Int
  rodeos : Int
  vacas : Int
  historial_movimientos : Int
  registros_produccion : Int
  registros_salud : Int
  registros_reproduccion : Int
  fotos_vacas : Int
deriving DecidableEq

/-- The database: the stored rows and the sequences. -/
structure Db where
  store : Store
  seq : Secuencias
deriving DecidableEq

/-- The database right after `setupQuery`: empty tables, sequences at 1. -/
def Db.inicial : Db :=
  { store := ⟨[], [], [], [], [], [], [], [], [], []⟩
    seq := ⟨1, 1, 1, 1, 1, 1, 1, 1, 1⟩ }

/-- PostgreSQL errors: the constraints of `setupQuery`, a lost connection, and the
class 22 (`dataException`) of a parameter that the type of its column refuses
(22001, 22003, 22008, 22021) or of a sequence at its limit (2200H). -/
inductive SqlError
  | uniqueViolation
  | foreignKeyViolation
  | connectionFailure
  | dataException
deriving DecidableEq

/-- The `error.code` that the handlers compare with `'23505'`. -/
def SqlError.code : SqlError → String
  | .uniqueViolation => "23505"
  | .foreignKeyViolation => "23503"
  | .connectionFailure => "08006"
  | .dataException => "22000"

/-! ## Requests, environment and responses -/

/-- The payload signed into a token by the login route: `{ userId, email }`. -/
structure Payload where
  userId : Int
  email : String
deriving DecidableEq

/-- What the server takes from outside the repository. -/
structure Entorno where
  /-- The call `jwt.verify(token, jwtSecret)`: the payload, or `none` on error. -/
  verify : String → Option Payload
  /-- The clock: `new Date()` and `NOW()`, in milliseconds. -/
  ahora : Int
  /-- The call `bcrypt.hash(password, salt)` with the salt drawn for this request. -/
  hash : String → String
  /-- The call `getDate()` of a JavaScript `Date`: its day of the month. -/
  getDate : Int → Int
  /-- The call `toLocaleDateString` with locale es-AR. -/
  toLocaleDateString : Int → String
  /-- The store refuses the role grant issued by "create establishment". -/
  fallaRol : Bool

/-- Milliseconds in a day. -/
def msPorDia : Int := 86400000

/-- The value of `CURRENT_DATE`. -/
def Entorno.hoy (env : Entorno) : Int := env.ahora / msPorDia

/-- The fields a handler may destructure from `req.body`. -/
structure Cuerpo where
  email : Option String
  password : Option String
  nombre_completo : Option String
  nombre : Option String
  numero_oficial : Option String
  descripcion : Option String
  caravana_senasa : Option String
  caravana_interna : Option String
  raza : Option String
  fecha_nacimiento : Option Int
  estado_actual : Option String
  estado_reproductivo : Option String
  rodeo_id : Option Int
  madre_id : Option Int
  padre_nombre : Option String
  activa : Option Bool
  fecha_evento : Option Int
  tipo_evento : Option String
  costo : Option Int
  observaciones : Option String
  fecha_es_aproximada : Option Bool
  detalle : Option String
  inseminador : Option String
  cria_id_oficial : Option String
  fecha_registro : Option Int
  litros_dia : Option Int
  calidad_grasa : Option Int
  calidad_proteina : Option Int
  /-- No handler destructures this field; a client may send it all the same. -/
  establecimiento_id : Option Int
deriving DecidableEq

/-- The body `{}`. -/
def Cuerpo.vacio : Cuerpo :=
  { email := none, password := none, nombre_completo := none, nombre := none
    numero_oficial := none, descripcion := none, caravana_senasa := none
    caravana_interna := none, raza := none, fecha_nacimiento := none
    estado_actual := none, estado_reproductivo := none, rodeo_id := none
    madre_id := none, padre_nombre := none, activa := none, fecha_evento := none
    tipo_evento := none, costo := none, observaciones := none
    fecha_es_aproximada := none, detalle := none, inseminador := none
    cria_id_oficial := none, fecha_registro := none, litros_dia := none
    calidad_grasa := none, calidad_proteina := none, establecimiento_id := none }

/-- A request: the authorization header, the path parameters, the body and the
file name chosen by the upload middleware (when a file was sent). -/
structure Req where
  authorization : Option String
  establecimientoId : Int
  vacaId : Int
  body : Cuerpo
  file : Option String
deriving DecidableEq

/-- JavaScript `!x` for a text field: `undefined`, `null` and `''` are falsy. -/
def faltaTexto : Option String → Bool
  | none => true
  | some s => decide (s = "")

/-- JavaScript `!x` for a numeric field: `undefined`, `null` and `0` are falsy. -/
def faltaNumero : Option Int → Bool
  | none => true
  | some n => decide (n = 0)

/-- One alert of the alerts route. -/
structure Alerta where
  tipo : String
  mensaje : String
  vaca_id : Int
  fecha_alerta : Int
deriving DecidableEq

/-- One row of the administrator listing. -/
structure FilaAdmin where
  id : Int
  nombre : String
  numero_oficial : Option String
  propietario_email : String
deriving DecidableEq

/-- The data a response carries next to its message. -/
inductive Datos
  | ninguno
  | usuario (id : Int) (email : String) (nombre_completo : Option String) (fecha_creacion : Int)
  | establecimiento (id : Int) (nombre : String) (numero_oficial : Option String)
      (fecha_creacion : Int)
  | rodeo (r : Rodeo)
  | rodeos (rs : List Rodeo)
  | vaca (v : Vaca)
  | vacas (vs : List Vaca)
  | salud (r : RegistroSalud)
  | saludes (rs : List RegistroSalud)
  | reproduccion (r : RegistroReproduccion)
  | reproducciones (rs : List RegistroReproduccion)
  | produccion (r : RegistroProduccion)
  | producciones (rs : List RegistroProduccion)
  | foto (f : FotoVaca)
  | fotos (fs : List FotoVaca)
  | alertas (al : List Alerta)
  | adminEstablecimientos (fs : List FilaAdmin)
deriving DecidableEq

/-- The call `res.status(status).json(...)`. -/
structure Respuesta where
  status : Nat
  message : Option String
  datos : Datos
deriving DecidableEq

/-- A response that is only `{ message }`. -/
def soloMensaje (status : Nat) (m : String) : Respuesta :=
  { status := status, message := some m, datos := .ninguno }

/-- The answer of most `catch` blocks. -/
def errorInterno : Respuesta := soloMensaje 500 "Error interno del servidor."

/-! ## Column types

A parameter is converted to the type of its column when the statement is bound,
before any row is read or written; a failed conversion fails the statement. -/

/-- The values of `INTEGER`. -/
def enInteger (x : Int) : Bool := decide (-2147483648 ≤ x) && decide (x ≤ 2147483647)

/-- The values of `DATE` as day numbers: from 4713 BC to 5874897 AD. -/
def enDate (d : Int) : Bool := decide (-2440588 ≤ d) && decide (d ≤ 2145042905)

/-- The values of `DECIMAL(p, 2)` in hundredths: fewer than `p` digits. -/
def enDecimal (p : Nat) (x : Int) : Bool :=
  decide (-(10 : Int) ^ p < x) && decide (x < (10 : Int) ^ p)

/-- A text the store can hold: it has no character of code 0. -/
def sinNul (s : String) : Bool := !s.data.contains (Char.ofNat 0)

/-- A text that can be assigned to `VARCHAR(n)`: at most `n` characters, or more when
every character past the `n`-th is a blank. -/
def cabeVarchar (n : Nat) (s : String) : Bool :=
  sinNul s && (s.data.drop n).all (fun c => decide (c = ' '))

/-- The value assigned to `VARCHAR(n)`: the text, cut after `n` characters (the
blanks past the `n`-th are dropped). -/
def aVarchar (n : Nat) (s : String) : String := String.mk (s.data.take n)

/-! ## Middleware -/

/-- The call `split(' ')` on the characters of a string. -/
def splitEspacio : List Char → List (List Char)
  | [] => [[]]
  | c :: cs =>
    match splitEspacio cs with
    | [] => [[c]]
    | p :: ps => if c = ' ' then [] :: p :: ps else (c :: p) :: ps

/-- The expression `authHeader && authHeader.split(' ')[1]`, with `none` for
`undefined`: an empty header is falsy and is itself the value. -/
def tokenDe (authHeader : Option String) : Option String :=
  match authHeader with
  | none => none
  | some h => if h = "" then some "" else ((splitEspacio h.data)[1]?).map String.mk

/-- The 401 of `authenticateToken`. -/
def sinToken : Respuesta := soloMensaje 401 "No se proporcion\uFFFD token de acceso."

/-- The 403 of `authenticateToken`. -/
def tokenInvalido : Respuesta := soloMensaje 403 "Token no v\uFFFDlido o expirado."

/-- The middleware `authenticateToken`: `.error r` answers `r` and stops, `.ok user`
sets `req.user` and calls `next()`. -/
def authenticateToken (env : Entorno) (req : Req) : Except Respuesta Payload :=
  match tokenDe req.authorization with
  | none => .error sinToken
  | some token =>
    match env.verify token with
    | none => .error tokenInvalido
    | some user => .ok user

/-- The 403 of `authorizeEstablecimiento`. -/
def accesoDenegado : Respuesta := soloMensaje 403 "Acceso denegado a este establecimiento."

/-- The query `checkAccessQuery`. -/
def checkAccessQuery (db : Db) (userId establecimientoId : Int) : List UsuarioEstablecimientoRol :=
  db.store.usuario_establecimiento_roles.filter
    (fun r => decide (r.usuario_id = userId) && decide (r.establecimiento_id = establecimientoId))

/-- The middleware `authorizeEstablecimiento`: when the store refuses the path
parameter the query throws and the `catch` answers 500. -/
def authorizeEstablecimiento (db : Db) (user : Payload) (req : Req) : Except Respuesta Unit :=
  if enInteger req.establecimientoId then
    if (checkAccessQuery db user.userId req.establecimientoId).length = 0 then
      .error accesoDenegado
    else .ok ()
  else .error errorInterno

/-- The 404 of `authorizeAdmin`. -/
def usuarioNoEncontrado : Respuesta := soloMensaje 404 "Usuario no encontrado."

/-- The 403 of `authorizeAdmin`. -/
def requiereAdmin : Respuesta :=
  soloMensaje 403 "Acceso denegado. Se requieren privilegios de administrador."

/-- The query `userQuery` of `authorizeAdmin`: `SELECT email FROM usuarios WHERE id = $1`. -/
def userQuery (db : Db) (userId : Int) : List Usuario :=
  db.store.usuarios.filter (fun u => decide (u.id = userId))

/-- The middleware `authorizeAdmin`. -/
def authorizeAdmin (db : Db) (user : Payload) : Except Respuesta Unit :=
  match userQuery db user.userId with
  | [] => .error usuarioNoEncontrado
  | fila :: _ =>
    if fila.email ≠ "admin@agromex.com" then .error requiereAdmin else .ok ()

/-! ## SQL statements

A statement is bound first: every parameter must be a value of the type of its
column (`vincula...`), and an `INSERT` needs its sequence below its limit;
otherwise the statement fails and nothing changes.  A bound statement is then
executed (`...Ejecutar`) with the converted values: an `INSERT` draws its `SERIAL`
value (a sequence is not rolled back when the statement fails), checks the
`UNIQUE` constraints against the rows already stored, then the `REFERENCES`
constraints once the row is in place. -/

/-- The constraint `REFERENCES t(id)` on a nullable column. -/
def referenciaOk (ids : List Int) : Option Int → Bool
  | none => true
  | some x => decide (x ∈ ids)

/-- The statement `newUserQuery`, executed. -/
def insertUsuarioEjecutar (env : Entorno) (db : Db) (email password_hash : String)
    (nombre_completo : Option String) : Db × Except SqlError Usuario :=
  let fila : Usuario := ⟨db.seq.usuarios, email, password_hash, nombre_completo, env.ahora⟩
  let db1 : Db := { db with seq := { db.seq with usuarios := db.seq.usuarios + 1 } }
  if db.store.usuarios.any (fun u => decide (u.email = email)) then (db1, .error .uniqueViolation)
  else ({ db1 with store := { db.store with usuarios := db.store.usuarios ++ [fila] } }, .ok fila)

/-- The statement `newEstablecimientoQuery`, executed. -/
def insertEstablecimientoEjecutar (env : Entorno) (db : Db) (nombre : String)
    (numero_oficial : Option String) (propietarioId : Int) :
    Db × Except SqlError Establecimiento :=
  let fila : Establecimiento :=
    ⟨db.seq.establecimientos, nombre, numero_oficial, propietarioId, env.ahora⟩
  let db1 : Db := { db with seq := { db.seq with establecimientos := db.seq.establecimientos + 1 } }
  if decide (propietarioId ∈ db.store.usuarios.map (·.id)) then
    ({ db1 with store := { db.store with establecimientos := db.store.establecimientos ++ [fila] } },
      .ok fila)
  else (db1, .error .foreignKeyViolation)

/-- The statement `newRodeoQuery`, executed. -/
def insertRodeoEjecutar (env : Entorno) (db : Db) (establecimientoId : Int) (nombre : String)
    (descripcion : Option String) : Db × Except SqlError Rodeo :=
  let fila : Rodeo := ⟨db.seq.rodeos, establecimientoId, nombre, descripcion, env.ahora⟩
  let db1 : Db := { db with seq := { db.seq with rodeos := db.seq.rodeos + 1 } }
  if decide (establecimientoId ∈ db.store.establecimientos.map (·.id)) then
    ({ db1 with store := { db.store with rodeos := db.store.rodeos ++ [fila] } }, .ok fila)
  else (db1, .error .foreignKeyViolation)

/-- A stored row `w` holds the pair `(establecimiento_id, caravana)` of a new row
version: the two `UNIQUE` constraints of `vacas`; a `NULL` tag never collides. -/
def chocaCaravana (est : Int) (senasa interna : Option String) (w : Vaca) : Bool :=
  decide (w.establecimiento_id = est) &&
    ((senasa.isSome && decide (w.caravana_senasa = senasa)) ||
      (interna.isSome && decide (w.caravana_interna = interna)))

/-- The row that `newVacaQuery` inserts; `fecha_ingreso` and `activa` take their
defaults. -/
def filaVaca (env : Entorno) (db : Db) (establecimientoId : Int) (b : Cuerpo) : Vaca :=
  { id := db.seq.vacas, establecimiento_id := establecimientoId
    caravana_senasa := b.caravana_senasa, caravana_interna := b.caravana_interna
    nombre := b.nombre, raza := b.raza, fecha_nacimiento := b.fecha_nacimiento
    estado_actual := b.estado_actual, estado_reproductivo := b.estado_reproductivo
    rodeo_id := b.rodeo_id, madre_id := b.madre_id, padre_nombre := b.padre_nombre
    fecha_ingreso := some env.hoy, activa := some true }

/-- The statement `newVacaQuery`, executed. -/
def insertVacaEjecutar (env : Entorno) (db : Db) (establecimientoId : Int) (b : Cuerpo) :
    Db × Except SqlError Vaca :=
  let fila : Vaca := filaVaca env db establecimientoId b
  let db1 : Db := { db with seq := { db.seq with vacas := db.seq.vacas + 1 } }
  if db.store.vacas.any (chocaCaravana establecimientoId b.caravana_senasa b.caravana_interna) then
    (db1, .error .uniqueViolation)
  else if decide (establecimientoId ∈ db.store.establecimientos.map (·.id)) &&
      referenciaOk (db.store.rodeos.map (·.id)) b.rodeo_id &&
      referenciaOk ((db.store.vacas ++ [fila]).map (·.id)) b.madre_id then
    ({ db1 with store := { db.store with vacas := db.store.vacas ++ [fila] } }, .ok fila)
  else (db1, .error .foreignKeyViolation)

/-- The `WHERE id = $12 AND establecimiento_id = $13` of the two `UPDATE vacas`. -/
def esLaVaca (vacaId establecimientoId : Int) (v : Vaca) : Bool :=
  decide (v.id = vacaId) && decide (v.establecimiento_id = establecimientoId)

/-- The `SET` list of `updateVacaQuery`. -/
def setVaca (b : Cuerpo) (v : Vaca) : Vaca :=
  { v with
    caravana_senasa := b.caravana_senasa, caravana_interna := b.caravana_interna
    nombre := b.nombre, raza := b.raza, fecha_nacimiento := b.fecha_nacimiento
    estado_actual := b.estado_actual, estado_reproductivo := b.estado_reproductivo
    rodeo_id := b.rodeo_id, madre_id := b.madre_id, padre_nombre := b.padre_nombre
    activa := b.activa }

/-- The statement `updateVacaQuery`, executed: the rows of `RETURNING *`, or the error.  When
no row matches nothing is checked; otherwise the new row version must not hold
the tags of a row it leaves alone, and its references must exist. -/
def updateVacaEjecutar (db : Db) (vacaId establecimientoId : Int) (b : Cuerpo) :
    Except SqlError (Db × List Vaca) :=
  let vs := db.store.vacas
  if (vs.filter (esLaVaca vacaId establecimientoId)).length = 0 then .ok (db, [])
  else if (vs.filter (fun w => !esLaVaca vacaId establecimientoId w)).any
      (chocaCaravana establecimientoId b.caravana_senasa b.caravana_interna) then
    .error .uniqueViolation
  else if referenciaOk (db.store.rodeos.map (·.id)) b.rodeo_id &&
      referenciaOk (vs.map (·.id)) b.madre_id then
    .ok ({ db with store := { db.store with
            vacas := vs.map (fun v => if esLaVaca vacaId establecimientoId v then setVaca b v else v) } },
         (vs.filter (esLaVaca vacaId establecimientoId)).map (setVaca b))
  else .error .foreignKeyViolation

/-- The statement `deleteVacaQuery`, executed: `UPDATE vacas SET activa = FALSE ... RETURNING *`. -/
def deleteVacaQueryEjecutar (db : Db) (vacaId establecimientoId : Int) : Db × List Vaca :=
  let vs := db.store.vacas
  ({ db with store := { db.store with
      vacas := vs.map (fun v =>
        if esLaVaca vacaId establecimientoId v then { v with activa := some false } else v) } },
   (vs.filter (esLaVaca vacaId establecimientoId)).map (fun v => { v with activa := some false }))

/-- The two `REFERENCES` of a history row: the animal and the establishment. -/
def referenciasRegistro (db : Db) (vacaId establecimientoId : Int) : Bool :=
  decide (vacaId ∈ db.store.vacas.map (·.id)) &&
    decide (establecimientoId ∈ db.store.establecimientos.map (·.id))

/-- The statement `insertSaludQuery`, executed. -/
def insertSaludEjecutar (db : Db) (vacaId establecimientoId : Int) (fecha_evento : Int)
    (tipo_evento descripcion : String) (costo : Option Int) (observaciones : Option String) :
    Db × Except SqlError RegistroSalud :=
  let fila : RegistroSalud :=
    ⟨db.seq.registros_salud, vacaId, establecimientoId, fecha_evento, tipo_evento, descripcion,
      costo, observaciones⟩
  let db1 : Db := { db with seq := { db.seq with registros_salud := db.seq.registros_salud + 1 } }
  if referenciasRegistro db vacaId establecimientoId then
    ({ db1 with store := { db.store with registros_salud := db.store.registros_salud ++ [fila] } },
      .ok fila)
  else (db1, .error .foreignKeyViolation)

/-- The statement `insertReproduccionQuery`, executed. -/
def insertReproduccionEjecutar (db : Db) (vacaId establecimientoId : Int) (fecha_evento : Int)
    (tipo_evento : String) (b : Cuerpo) : Db × Except SqlError RegistroReproduccion :=
  let fila : RegistroReproduccion :=
    ⟨db.seq.registros_reproduccion, vacaId, establecimientoId, fecha_evento,
      b.fecha_es_aproximada, tipo_evento, b.detalle, b.inseminador, b.cria_id_oficial⟩
  let db1 : Db :=
    { db with seq := { db.seq with registros_reproduccion := db.seq.registros_reproduccion + 1 } }
  if referenciasRegistro db vacaId establecimientoId then
    ({ db1 with store := { db.store with
        registros_reproduccion := db.store.registros_reproduccion ++ [fila] } }, .ok fila)
  else (db1, .error .foreignKeyViolation)

/-- The statement `insertProduccionQuery`, executed, with `UNIQUE (vaca_id, fecha_registro)`. -/
def insertProduccionEjecutar (db : Db) (vacaId establecimientoId : Int) (fecha_registro litros_dia : Int)
    (calidad_grasa calidad_proteina : Option Int) : Db × Except SqlError RegistroProduccion :=
  let fila : RegistroProduccion :=
    ⟨db.seq.registros_produccion, vacaId, establecimientoId, fecha_registro, litros_dia,
      calidad_grasa, calidad_proteina⟩
  let db1 : Db :=
    { db with seq := { db.seq with registros_produccion := db.seq.registros_produccion + 1 } }
  if db.store.registros_produccion.any
      (fun r => decide (r.vaca_id = vacaId) && decide (r.fecha_registro = fecha_registro)) then
    (db1, .error .uniqueViolation)
  else if referenciasRegistro db vacaId establecimientoId then
    ({ db1 with store := { db.store with
        registros_produccion := db.store.registros_produccion ++ [fila] } }, .ok fila)
  else (db1, .error .foreignKeyViolation)

/-- The statement `insertPhotoQuery`, executed. -/
def insertFotoEjecutar (env : Entorno) (db : Db) (vacaId establecimientoId : Int) (url_foto : String)
    (descripcion : Option String) : Db × Except SqlError FotoVaca :=
  let fila : FotoVaca :=
    ⟨db.seq.fotos_vacas, vacaId, establecimientoId, url_foto, descripcion, env.ahora⟩
  let db1 : Db := { db with seq := { db.seq with fotos_vacas := db.seq.fotos_vacas + 1 } }
  if referenciasRegistro db vacaId establecimientoId then
    ({ db1 with store := { db.store with fotos_vacas := db.store.fotos_vacas ++ [fila] } }, .ok fila)
  else (db1, .error .foreignKeyViolation)

/-! ### Binding -/

/-- The parameters of `newUserQuery` bind. -/
def vinculaUsuario (db : Db) (email password_hash : String) (nombre_completo : Option String) :
    Bool :=
  cabeVarchar 255 email && cabeVarchar 255 password_hash &&
    nombre_completo.all (cabeVarchar 150) && enInteger db.seq.usuarios

/-- The statement `newUserQuery`. -/
def insertUsuario (env : Entorno) (db : Db) (email password_hash : String)
    (nombre_completo : Option String) : Db × Except SqlError Usuario :=
  if vinculaUsuario db email password_hash nombre_completo then
    insertUsuarioEjecutar env db (aVarchar 255 email) (aVarchar 255 password_hash)
      (nombre_completo.map (aVarchar 150))
  else (db, .error .dataException)

/-- The parameters of `newEstablecimientoQuery` bind. -/
def vinculaEstablecimiento (db : Db) (nombre : String) (numero_oficial : Option String) : Bool :=
  cabeVarchar 150 nombre && numero_oficial.all (cabeVarchar 50) &&
    enInteger db.seq.establecimientos

/-- The statement `newEstablecimientoQuery`. -/
def insertEstablecimiento (env : Entorno) (db : Db) (nombre : String)
    (numero_oficial : Option String) (propietarioId : Int) :
    Db × Except SqlError Establecimiento :=
  if vinculaEstablecimiento db nombre numero_oficial then
    insertEstablecimientoEjecutar env db (aVarchar 150 nombre)
      (numero_oficial.map (aVarchar 50)) propietarioId
  else (db, .error .dataException)

/-- The parameters of `newRodeoQuery` bind. -/
def vinculaRodeo (db : Db) (establecimientoId : Int) (nombre : String)
    (descripcion : Option String) : Bool :=
  enInteger establecimientoId && cabeVarchar 100 nombre && descripcion.all sinNul &&
    enInteger db.seq.rodeos

/-- The statement `newRodeoQuery`. -/
def insertRodeo (env : Entorno) (db : Db) (establecimientoId : Int) (nombre : String)
    (descripcion : Option String) : Db × Except SqlError Rodeo :=
  if vinculaRodeo db establecimientoId nombre descripcion then
    insertRodeoEjecutar env db establecimientoId (aVarchar 100 nombre) descripcion
  else (db, .error .dataException)

/-- The body fields written to `vacas` are values of their columns. -/
def vinculaCuerpoVaca (b : Cuerpo) : Bool :=
  b.caravana_senasa.all (cabeVarchar 50) && b.caravana_interna.all (cabeVarchar 50) &&
    b.nombre.all (cabeVarchar 100) && b.raza.all (cabeVarchar 50) &&
    b.fecha_nacimiento.all enDate && b.estado_actual.all (cabeVarchar 50) &&
    b.estado_reproductivo.all (cabeVarchar 50) && b.rodeo_id.all enInteger &&
    b.madre_id.all enInteger && b.padre_nombre.all (cabeVarchar 100)

/-- The body fields written to `vacas`, converted to their columns. -/
def valoresVaca (b : Cuerpo) : Cuerpo :=
  { b with
    caravana_senasa := b.caravana_senasa.map (aVarchar 50)
    caravana_interna := b.caravana_interna.map (aVarchar 50)
    nombre := b.nombre.map (aVarchar 100), raza := b.raza.map (aVarchar 50)
    estado_actual := b.estado_actual.map (aVarchar 50)
    estado_reproductivo := b.estado_reproductivo.map (aVarchar 50)
    padre_nombre := b.padre_nombre.map (aVarchar 100) }

/-- The parameters of `newVacaQuery` bind. -/
def vinculaVaca (db : Db) (establecimientoId : Int) (b : Cuerpo) : Bool :=
  enInteger establecimientoId && vinculaCuerpoVaca b && enInteger db.seq.vacas

/-- The statement `newVacaQuery`. -/
def insertVaca (env : Entorno) (db : Db) (establecimientoId : Int) (b : Cuerpo) :
    Db × Except SqlError Vaca :=
  if vinculaVaca db establecimientoId b then
    insertVacaEjecutar env db establecimientoId (valoresVaca b)
  else (db, .error .dataException)

/-- The parameters of `updateVacaQuery` bind. -/
def vinculaUpdateVaca (vacaId establecimientoId : Int) (b : Cuerpo) : Bool :=
  enInteger vacaId && enInteger establecimientoId && vinculaCuerpoVaca b

/-- The statement `updateVacaQuery`. -/
def updateVaca (db : Db) (vacaId establecimientoId : Int) (b : Cuerpo) :
    Except SqlError (Db × List Vaca) :=
  if vinculaUpdateVaca vacaId establecimientoId b then
    updateVacaEjecutar db vacaId establecimientoId (valoresVaca b)
  else .error .dataException

/-- The statement `deleteVacaQuery`. -/
def deleteVacaQuery (db : Db) (vacaId establecimientoId : Int) :
    Except SqlError (Db × List Vaca) :=
  if enInteger vacaId && enInteger establecimientoId then
    .ok (deleteVacaQueryEjecutar db vacaId establecimientoId)
  else .error .dataException

/-- The parameters of `insertSaludQuery` bind. -/
def vinculaSalud (db : Db) (vacaId establecimientoId : Int) (fecha_evento : Int)
    (tipo_evento descripcion : String) (costo : Option Int) (observaciones : Option String) :
    Bool :=
  enInteger vacaId && enInteger establecimientoId && enDate fecha_evento &&
    cabeVarchar 50 tipo_evento && sinNul descripcion && costo.all (enDecimal 10) &&
    observaciones.all sinNul && enInteger db.seq.registros_salud

/-- The statement `insertSaludQuery`. -/
def insertSalud (db : Db) (vacaId establecimientoId : Int) (fecha_evento : Int)
    (tipo_evento descripcion : String) (costo : Option Int) (observaciones : Option String) :
    Db × Except SqlError RegistroSalud :=
  if vinculaSalud db vacaId establecimientoId fecha_evento tipo_evento descripcion costo
      observaciones then
    insertSaludEjecutar db vacaId establecimientoId fecha_evento (aVarchar 50 tipo_evento)
      descripcion costo observaciones
  else (db, .error .dataException)

/-- The body fields of a reproduction record, converted to their columns. -/
def valoresReproduccion (b : Cuerpo) : Cuerpo :=
  { b with
    inseminador := b.inseminador.map (aVarchar 100)
    cria_id_oficial := b.cria_id_oficial.map (aVarchar 50) }

/-- The parameters of `insertReproduccionQuery` bind. -/
def vinculaReproduccion (db : Db) (vacaId establecimientoId : Int) (fecha_evento : Int)
    (tipo_evento : String) (b : Cuerpo) : Bool :=
  enInteger vacaId && enInteger establecimientoId && enDate fecha_evento &&
    cabeVarchar 50 tipo_evento && b.detalle.all sinNul && b.inseminador.all (cabeVarchar 100) &&
    b.cria_id_oficial.all (cabeVarchar 50) && enInteger db.seq.registros_reproduccion

/-- The statement `insertReproduccionQuery`. -/
def insertReproduccion (db : Db) (vacaId establecimientoId : Int) (fecha_evento : Int)
    (tipo_evento : String) (b : Cuerpo) : Db × Except SqlError RegistroReproduccion :=
  if vinculaReproduccion db vacaId establecimientoId fecha_evento tipo_evento b then
    insertReproduccionEjecutar db vacaId establecimientoId fecha_evento (aVarchar 50 tipo_evento)
      (valoresReproduccion b)
  else (db, .error .dataException)

/-- The parameters of `insertProduccionQuery` bind. -/
def vinculaProduccion (db : Db) (vacaId establecimientoId : Int) (fecha_registro litros_dia : Int)
    (calidad_grasa calidad_proteina : Option Int) : Bool :=
  enInteger vacaId && enInteger establecimientoId && enDate fecha_registro &&
    enDecimal 5 litros_dia && calidad_grasa.all (enDecimal 4) &&
    calidad_proteina.all (enDecimal 4) && enInteger db.seq.registros_produccion

/-- The statement `insertProduccionQuery`. -/
def insertProduccion (db : Db) (vacaId establecimientoId : Int) (fecha_registro litros_dia : Int)
    (calidad_grasa calidad_proteina : Option Int) : Db × Except SqlError RegistroProduccion :=
  if vinculaProduccion db vacaId establecimientoId fecha_registro litros_dia calidad_grasa
      calidad_proteina then
    insertProduccionEjecutar db vacaId establecimientoId fecha_registro litros_dia calidad_grasa
      calidad_proteina
  else (db, .error .dataException)

/-- The parameters of `insertPhotoQuery` bind. -/
def vinculaFoto (db : Db) (vacaId establecimientoId : Int) (url_foto : String)
    (descripcion : Option String) : Bool :=
  enInteger vacaId && enInteger establecimientoId && cabeVarchar 255 url_foto &&
    descripcion.all sinNul && enInteger db.seq.fotos_vacas

/-- The statement `insertPhotoQuery`. -/
def insertFoto (env : Entorno) (db : Db) (vacaId establecimientoId : Int) (url_foto : String)
    (descripcion : Option String) : Db × Except SqlError FotoVaca :=
  if vinculaFoto db vacaId establecimientoId url_foto descripcion then
    insertFotoEjecutar env db vacaId establecimientoId (aVarchar 255 url_foto) descripcion
  else (db, .error .dataException)

/-! ## The transaction of "create establishment" -/

/-- The open transaction of the connection `client`: the role rows it has written
and not yet committed.  A statement sent through `pool.query` runs on another
connection and is committed on its own, so it never appears here. -/
structure Transaccion where
  roles : List UsuarioEstablecimientoRol
deriving DecidableEq

/-- The statement `client.query('BEGIN')`. -/
def Transaccion.begin : Transaccion := ⟨[]⟩

/-- The statement `assignRoleQuery` sent through `client`: checked against the
committed rows and the rows of the transaction itself. -/
def assignRoleQuery (env : Entorno) (db : Db) (tx : Transaccion) (usuarioId establecimientoId : Int) :
    Except SqlError Transaccion :=
  if env.fallaRol then .error .connectionFailure
  else if (db.store.usuario_establecimiento_roles ++ tx.roles).any
      (fun r => decide (r.usuario_id = usuarioId) && decide (r.establecimiento_id = establecimientoId))
  then .error .uniqueViolation
  else if decide (usuarioId ∈ db.store.usuarios.map (·.id)) &&
      decide (establecimientoId ∈ db.store.establecimientos.map (·.id)) then
    .ok ⟨tx.roles ++ [⟨usuarioId, establecimientoId, "propietario"⟩]⟩
  else .error .foreignKeyViolation

/-- The statement `client.query('COMMIT')`: the rows of the transaction are stored. -/
def Transaccion.commit (db : Db) (tx : Transaccion) : Db :=
  { db with store := { db.store with
      usuario_establecimiento_roles := db.store.usuario_establecimiento_roles ++ tx.roles } }

/-- The statement `client.query('ROLLBACK')`: the rows of the transaction are dropped;
what other connections committed stays. -/
def Transaccion.rollback (db : Db) (_tx : Transaccion) : Db := db

/-! ## Route handlers (the bodies that run after the middleware) -/

/-- Body of `POST /api/auth/register`. -/
def postRegister (env : Entorno) (req : Req) (db : Db) : Db × Respuesta :=
  let b := req.body
  if faltaTexto b.email || faltaTexto b.password || faltaTexto b.nombre_completo then
    (db, soloMensaje 400 "Todos los campos son requeridos: email, password, nombre_completo.")
  else
    match insertUsuario env db (b.email.getD "") (env.hash (b.password.getD "")) b.nombre_completo with
    | (db1, .ok u) =>
      (db1, ⟨201, some "Usuario registrado exitosamente.",
        .usuario u.id u.email u.nombre_completo u.fecha_creacion⟩)
    | (db1, .error e) =>
      if e.code = "23505" then (db1, soloMensaje 409 "El email ya est\uFFFD registrado.")
      else (db1, errorInterno)

/-- The 500 of "create establishment". -/
def errorCrearEstablecimiento : Respuesta :=
  soloMensaje 500 "Error interno del servidor. No se pudo crear el establecimiento."

/-- Body of `POST /api/establecimientos`.  The establishment is inserted with
`pool.query`, outside the transaction opened on `client`; the role is granted
with `client.query`, inside it. -/
def postEstablecimientos (env : Entorno) (user : Payload) (req : Req) (db : Db) : Db × Respuesta :=
  let propietarioId := user.userId
  if faltaTexto req.body.nombre then
    (db, soloMensaje 400 "El nombre del establecimiento es un campo obligatorio.")
  else
    let tx := Transaccion.begin
    match insertEstablecimiento env db (req.body.nombre.getD "") req.body.numero_oficial
        propietarioId with
    | (db1, .error _) => (tx.rollback db1, errorCrearEstablecimiento)
    | (db1, .ok nuevoEstablecimiento) =>
      match assignRoleQuery env db1 tx propietarioId nuevoEstablecimiento.id with
      | .error _ => (tx.rollback db1, errorCrearEstablecimiento)
      | .ok tx1 =>
        (tx1.commit db1, ⟨201, some "Establecimiento creado exitosamente.",
          .establecimiento nuevoEstablecimiento.id nuevoEstablecimiento.nombre
            nuevoEstablecimiento.numero_oficial nuevoEstablecimiento.fecha_creacion⟩)

/-- Body of `POST /api/establecimientos/:establecimientoId/rodeos`. -/
def postRodeos (env : Entorno) (req : Req) (db : Db) : Db × Respuesta :=
  if faltaTexto req.body.nombre then (db, soloMensaje 400 "El nombre del rodeo es obligatorio.")
  else
    match insertRodeo env db req.establecimientoId (req.body.nombre.getD "") req.body.descripcion with
    | (db1, .ok r) => (db1, ⟨201, some "Rodeo creado exitosamente.", .rodeo r⟩)
    | (db1, .error _) => (db1, errorInterno)

/-- Body of `GET /api/establecimientos/:establecimientoId/rodeos`. -/
def getRodeos (req : Req) (db : Db) : Db × Respuesta :=
  if enInteger req.establecimientoId then
    (db, ⟨200, none, .rodeos
      ((db.store.rodeos.filter (fun r => decide (r.establecimiento_id = req.establecimientoId))).insertionSort
        (fun a b => a.nombre ≤ b.nombre))⟩)
  else (db, errorInterno)

/-- The 409 of "create animal". -/
def caravanaDuplicada : Respuesta :=
  soloMensaje 409
    "Ya existe una vaca con la misma caravana SENASA o Interna en este establecimiento."

/-- Body of `POST /api/establecimientos/:establecimientoId/vacas`. -/
def postVacas (env : Entorno) (req : Req) (db : Db) : Db × Respuesta :=
  let b := req.body
  if faltaTexto b.caravana_interna || faltaTexto b.estado_actual || faltaNumero b.rodeo_id then
    (db, soloMensaje 400 "Caravana Interna, Estado Actual y Rodeo son obligatorios.")
  else
    match insertVaca env db req.establecimientoId b with
    | (db1, .ok v) => (db1, ⟨201, some "Vaca creada exitosamente.", .vaca v⟩)
    | (db1, .error e) =>
      if e.code = "23505" then (db1, caravanaDuplicada) else (db1, errorInterno)

/-- `ORDER BY caravana_interna ASC`: `NULL` sorts last. -/
def ordenCaravana (a b : Vaca) : Prop :=
  match a.caravana_interna, b.caravana_interna with
  | some x, some y => x ≤ y
  | some _, none => True
  | none, some _ => False
  | none, none => True

instance : DecidableRel ordenCaravana := fun a b => by
  unfold ordenCaravana
  cases a.caravana_interna <;> cases b.caravana_interna <;> infer_instance

/-- Body of `GET /api/establecimientos/:establecimientoId/vacas`. -/
def getVacas (req : Req) (db : Db) : Db × Respuesta :=
  if enInteger req.establecimientoId then
    (db, ⟨200, none, .vacas
      ((db.store.vacas.filter (fun v =>
          decide (v.establecimiento_id = req.establecimientoId) && decide (v.activa = some true))).insertionSort
        ordenCaravana)⟩)
  else (db, errorInterno)

/-- Body of `GET /api/establecimientos/:establecimientoId/vacas/:vacaId`. -/
def getVaca (req : Req) (db : Db) : Db × Respuesta :=
  if enInteger req.vacaId && enInteger req.establecimientoId then
    match db.store.vacas.filter (esLaVaca req.vacaId req.establecimientoId) with
    | [] => (db, soloMensaje 404 "Vaca no encontrada en este establecimiento.")
    | v :: _ => (db, ⟨200, none, .vaca v⟩)
  else (db, errorInterno)

/-- The 404 of "update animal" and of "delete animal". -/
def vacaNoEncontrada : Respuesta :=
  soloMensaje 404 "Vaca no encontrada o no pertenece a este establecimiento."

/-- The 409 of "update animal". -/
def caravanaDuplicadaOtra : Respuesta :=
  soloMensaje 409
    "Ya existe otra vaca con la misma caravana SENASA o Interna en este establecimiento."

/-- Body of `PUT /api/establecimientos/:establecimientoId/vacas/:vacaId`. -/
def putVaca (req : Req) (db : Db) : Db × Respuesta :=
  match updateVaca db req.vacaId req.establecimientoId req.body with
  | .ok (db1, []) => (db1, vacaNoEncontrada)
  | .ok (db1, v :: _) => (db1, ⟨200, some "Vaca actualizada exitosamente.", .vaca v⟩)
  | .error e => if e.code = "23505" then (db, caravanaDuplicadaOtra) else (db, errorInterno)

/-- Body of `DELETE /api/establecimientos/:establecimientoId/vacas/:vacaId`. -/
def deleteVaca (req : Req) (db : Db) : Db × Respuesta :=
  match deleteVacaQuery db req.vacaId req.establecimientoId with
  | .ok (db1, []) => (db1, vacaNoEncontrada)
  | .ok (db1, _ :: _) => (db1, soloMensaje 200 "Vaca marcada como inactiva exitosamente.")
  | .error _ => (db, errorInterno)

/-- Body of `POST .../vacas/:vacaId/salud`. -/
def postSalud (req : Req) (db : Db) : Db × Respuesta :=
  let b := req.body
  if b.fecha_evento.isNone || faltaTexto b.tipo_evento || faltaTexto b.descripcion then
    (db, soloMensaje 400
      "Fecha, tipo de evento y descripci\uFFFDn son obligatorios para el registro de salud.")
  else
    match insertSalud db req.vacaId req.establecimientoId (b.fecha_evento.getD 0)
        (b.tipo_evento.getD "") (b.descripcion.getD "") b.costo b.observaciones with
    | (db1, .ok r) => (db1, ⟨201, some "Registro de salud creado exitosamente.", .salud r⟩)
    | (db1, .error _) => (db1, errorInterno)

/-- Body of `GET .../vacas/:vacaId/salud`. -/
def getSalud (req : Req) (db : Db) : Db × Respuesta :=
  if enInteger req.vacaId && enInteger req.establecimientoId then
    (db, ⟨200, none, .saludes
      ((db.store.registros_salud.filter (fun r =>
          decide (r.vaca_id = req.vacaId) && decide (r.establecimiento_id = req.establecimientoId))).insertionSort
        (fun a b => b.fecha_evento ≤ a.fecha_evento))⟩)
  else (db, errorInterno)

/-- Body of `POST .../vacas/:vacaId/reproduccion`. -/
def postReproduccion (req : Req) (db : Db) : Db × Respuesta :=
  let b := req.body
  if b.fecha_evento.isNone || faltaTexto b.tipo_evento then
    (db, soloMensaje 400
      "Fecha del evento y tipo de evento son obligatorios para el registro de reproducci\uFFFDn.")
  else
    match insertReproduccion db req.vacaId req.establecimientoId (b.fecha_evento.getD 0)
        (b.tipo_evento.getD "") b with
    | (db1, .ok r) =>
      (db1, ⟨201, some "Registro de reproducci\uFFFDn creado exitosamente.", .reproduccion r⟩)
    | (db1, .error _) => (db1, errorInterno)

/-- Body of `GET .../vacas/:vacaId/reproduccion`. -/
def getReproduccion (req : Req) (db : Db) : Db × Respuesta :=
  if enInteger req.vacaId && enInteger req.establecimientoId then
    (db, ⟨200, none, .reproducciones
      ((db.store.registros_reproduccion.filter (fun r =>
          decide (r.vaca_id = req.vacaId) && decide (r.establecimiento_id = req.establecimientoId))).insertionSort
        (fun a b => b.fecha_evento ≤ a.fecha_evento))⟩)
  else (db, errorInterno)

/-- Body of `POST .../vacas/:vacaId/produccion`.  Its `catch` has one branch: every
store error, the unique violation included, is answered with `errorInterno`. -/
def postProduccion (req : Req) (db : Db) : Db × Respuesta :=
  let b := req.body
  if b.fecha_registro.isNone || b.litros_dia.isNone then
    (db, soloMensaje 400
      "Fecha de registro y litros/d\uFFFDa son obligatorios para el registro de producci\uFFFDn.")
  else
    match insertProduccion db req.vacaId req.establecimientoId (b.fecha_registro.getD 0)
        (b.litros_dia.getD 0) b.calidad_grasa b.calidad_proteina with
    | (db1, .ok r) =>
      (db1, ⟨201, some "Registro de producci\uFFFDn creado exitosamente.", .produccion r⟩)
    | (db1, .error _) => (db1, errorInterno)

/-- Body of `GET .../vacas/:vacaId/produccion`. -/
def getProduccion (req : Req) (db : Db) : Db × Respuesta :=
  if enInteger req.vacaId && enInteger req.establecimientoId then
    (db, ⟨200, none, .producciones
      ((db.store.registros_produccion.filter (fun r =>
          decide (r.vaca_id = req.vacaId) && decide (r.establecimiento_id = req.establecimientoId))).insertionSort
        (fun a b => b.fecha_registro ≤ a.fecha_registro))⟩)
  else (db, errorInterno)

/-- Body of `POST .../vacas/:vacaId/fotos`, after `upload.single('file')`. -/
def postFotos (env : Entorno) (req : Req) (db : Db) : Db × Respuesta :=
  match req.file with
  | none => (db, soloMensaje 400 "No se proporcion\uFFFD ning\uFFFDn archivo de imagen.")
  | some filename =>
    match insertFoto env db req.vacaId req.establecimientoId ("/uploads/" ++ filename)
        req.body.descripcion with
    | (db1, .ok f) => (db1, ⟨201, some "Foto subida y registrada exitosamente.", .foto f⟩)
    | (db1, .error _) =>
      (db1, soloMensaje 500 "Error interno del servidor al procesar la foto.")

/-- Body of `GET .../vacas/:vacaId/fotos`. -/
def getFotos (req : Req) (db : Db) : Db × Respuesta :=
  if enInteger req.vacaId && enInteger req.establecimientoId then
    (db, ⟨200, none, .fotos
      ((db.store.fotos_vacas.filter (fun r =>
          decide (r.vaca_id = req.vacaId) && decide (r.establecimiento_id = req.establecimientoId))).insertionSort
        (fun a b => b.fecha_subida ≤ a.fecha_subida))⟩)
  else (db, errorInterno)

/-! ## The alerts route -/

/-- One row of the alert query: `v.id, v.caravana_interna, v.nombre, r.fecha_evento`. -/
structure FilaPrenada where
  id : Int
  caravana_interna : Option String
  nombre : Option String
  fecha_reproduccion : Int
deriving DecidableEq

/-- The literal of `v.estado_reproductivo = '...'` in the alert query, as the file
stores it: `Pre`, U+FFFD, `ada`. -/
def estadoDeLaConsulta : String := "Pre\uFFFDada"

/-- The literal of `r.tipo_evento = '...'` in the alert query, as the file stores it:
`Palpaci`, U+FFFD, `n`. -/
def tipoDeLaConsulta : String := "Palpaci\uFFFDn"

/-- The rows of the alert query: animals of the establishment whose reproductive
status is the literal of the query, joined to their reproduction rows whose type
is the literal of the query, newest event first.  The reproduction rows are
matched on `vaca_id` alone. -/
def prenadasQuery (db : Db) (establecimientoId : Int) : List FilaPrenada :=
  (((db.store.vacas.filter (fun v =>
        decide (v.establecimiento_id = establecimientoId) &&
          decide (v.estado_reproductivo = some estadoDeLaConsulta))).map
      (fun v =>
        (db.store.registros_reproduccion.filter (fun r =>
            decide (v.id = r.vaca_id) && decide (r.tipo_evento = tipoDeLaConsulta))).map
          (fun r => (⟨v.id, v.caravana_interna, v.nombre, r.fecha_evento⟩ : FilaPrenada)))).flatten).insertionSort
    (fun a b => b.fecha_reproduccion ≤ a.fecha_reproduccion)

/-- An exception thrown while a handler runs. -/
inductive JsError
  | referenceError (identificador : String)
deriving DecidableEq

/-- Reading an identifier that should hold a `Date`: its value when a declaration
in scope binds it, a `ReferenceError` otherwise. -/
def leerIdentificador (ambito : List (String × Int)) (identificador : String) : Except JsError Int :=
  match ambito.lookup identificador with
  | some valor => .ok valor
  | none => .error (.referenceError identificador)

/-- The call `d.setDate(n)`: the date moves by `n` minus its own day of the month. -/
def setDate (env : Entorno) (d n : Int) : Int := d + (n - env.getDate d) * msPorDia

/-- The expression `vaca.nombre || vaca.caravana_interna` inside the template. -/
def nombreOCaravana (vaca : FilaPrenada) : String :=
  if faltaTexto vaca.nombre then (vaca.caravana_interna.getD "null") else vaca.nombre.getD ""

/-- The callback of `result.rows.forEach`: the alert it pushes, if any.  The argument
of `setDate` reads `fechaPartaEstimada`, which no declaration binds. -/
def callbackAlerta (env : Entorno) (hoy cuarentaYCincoDias : Int) (vaca : FilaPrenada) :
    Except JsError (Option Alerta) :=
  let fechaReproduccion := vaca.fecha_reproduccion * msPorDia
  let fechaPartoEstimada := fechaReproduccion
  let ambito := [("hoy", hoy), ("cuarentaYCincoDias", cuarentaYCincoDias),
    ("fechaReproduccion", fechaReproduccion), ("fechaPartoEstimada", fechaPartoEstimada)]
  match leerIdentificador ambito "fechaPartaEstimada" with
  | .error e => .error e
  | .ok leida =>
    let fechaPartoEstimada := setDate env fechaPartoEstimada (env.getDate leida + 280)
    if hoy ≤ fechaPartoEstimada ∧ fechaPartoEstimada ≤ cuarentaYCincoDias then
      .ok (some
        { tipo := "Parto Pr\uFFFDximo"
          mensaje := "Parto estimado para la vaca " ++ nombreOCaravana vaca ++ " el " ++
            env.toLocaleDateString fechaPartoEstimada ++ "."
          vaca_id := vaca.id
          fecha_alerta := env.hoy })
    else .ok none

/-- The loop `result.rows.forEach(...)` pushing onto `alertas`; an exception ends it. -/
def forEachAlertas (f : FilaPrenada → Except JsError (Option Alerta)) :
    List FilaPrenada → List Alerta → Except JsError (List Alerta)
  | [], alertas => .ok alertas
  | vaca :: resto, alertas =>
    match f vaca with
    | .error e => .error e
    | .ok none => forEachAlertas f resto alertas
    | .ok (some a) => forEachAlertas f resto (alertas ++ [a])

/-- Body of `GET /api/establecimientos/:establecimientoId/alertas`. -/
def getAlertas (env : Entorno) (req : Req) (db : Db) : Db × Respuesta :=
  if enInteger req.establecimientoId then
    let rows := prenadasQuery db req.establecimientoId
    let hoy := env.ahora
    let cuarentaYCincoDias := setDate env env.ahora (env.getDate hoy + 45)
    match forEachAlertas (callbackAlerta env hoy cuarentaYCincoDias) rows [] with
    | .ok alertas => (db, ⟨200, none, .alertas alertas⟩)
    | .error _ => (db, errorInterno)
  else (db, errorInterno)

/-- Body of `GET /api/admin/establecimientos`. -/
def getAdminEstablecimientos (db : Db) : Db × Respuesta :=
  (db, ⟨200, none, .adminEstablecimientos
    (((db.store.establecimientos.map (fun e =>
        (db.store.usuarios.filter (fun u => decide (e.propietario_id = u.id))).map
          (fun u => (⟨e.id, e.nombre, e.numero_oficial, u.email⟩ : FilaAdmin)))).flatten).insertionSort
      (fun a b => a.id ≤ b.id))⟩)

/-! ## Routes -/

/-- The routes registered under `/api/establecimientos/:establecimientoId/`, each as
`authenticateToken, authorizeEstablecimiento, handler`. -/
inductive RutaEstablecimiento
  | postRodeos
  | getRodeos
  | postVacas
  | getVacas
  | getVaca
  | putVaca
  | deleteVaca
  | postSalud
  | getSalud
  | postReproduccion
  | getReproduccion
  | postProduccion
  | getProduccion
  | postFotos
  | getFotos
  | getAlertas
deriving DecidableEq

/-- The handler body of an establishment route. -/
def RutaEstablecimiento.handler (env : Entorno) : RutaEstablecimiento → Req → Db → Db × Respuesta
  | .postRodeos => Agromex.postRodeos env
  | .getRodeos => Agromex.getRodeos
  | .postVacas => Agromex.postVacas env
  | .getVacas => Agromex.getVacas
  | .getVaca => Agromex.getVaca
  | .putVaca => Agromex.putVaca
  | .deleteVaca => Agromex.deleteVaca
  | .postSalud => Agromex.postSalud
  | .getSalud => Agromex.getSalud
  | .postReproduccion => Agromex.postReproduccion
  | .getReproduccion => Agromex.getReproduccion
  | .postProduccion => Agromex.postProduccion
  | .getProduccion => Agromex.getProduccion
  | .postFotos => Agromex.postFotos env
  | .getFotos => Agromex.getFotos
  | .getAlertas => Agromex.getAlertas env

/-- The two middleware of an establishment route, in order: `.ok user` when both
called `next()`, so that the handler body runs. -/
def guardiaEstablecimiento (env : Entorno) (req : Req) (db : Db) : Except Respuesta Payload :=
  match authenticateToken env req with
  | .error r => .error r
  | .ok user =>
    match authorizeEstablecimiento db user req with
    | .error r => .error r
    | .ok () => .ok user

/-- An establishment route served: a middleware answers and the database is left
alone, or the handler body runs. -/
def atenderEstablecimiento (env : Entorno) (ruta : RutaEstablecimiento) (req : Req) (db : Db) :
    Db × Respuesta :=
  match guardiaEstablecimiento env req db with
  | .error r => (db, r)
  | .ok _ => ruta.handler env req db

/-- The middleware of the administrator route, in order. -/
def guardiaAdmin (env : Entorno) (req : Req) (db : Db) : Except Respuesta Payload :=
  match authenticateToken env req with
  | .error r => .error r
  | .ok user =>
    match authorizeAdmin db user with
    | .error r => .error r
    | .ok () => .ok user

/-- The routes that write or that the guards protect. -/
inductive Ruta
  | postRegister
  | postEstablecimientos
  | getAdminEstablecimientos
  | establecimiento (r : RutaEstablecimiento)
deriving DecidableEq

/-- A request served by the application. -/
def atender (env : Entorno) (ruta : Ruta) (req : Req) (db : Db) : Db × Respuesta :=
  match ruta with
  | .postRegister => Agromex.postRegister env req db
  | .postEstablecimientos =>
    match authenticateToken env req with
    | .error r => (db, r)
    | .ok user => Agromex.postEstablecimientos env user req db
  | .getAdminEstablecimientos =>
    match guardiaAdmin env req db with
    | .error r => (db, r)
    | .ok _ => Agromex.getAdminEstablecimientos db
  | .establecimiento r => atenderEstablecimiento env r req db

/-- The databases the application can reach from `setupQuery` by serving requests. -/
inductive Alcanzable : Db → Prop
  | inicial : Alcanzable Db.inicial
  | paso (env : Entorno) (ruta : Ruta) (req : Req) {db : Db} :
      Alcanzable db → Alcanzable (atender env ruta req db).1

/-! ## Properties of a database -/

/-- Two animal rows do not hold the same non-null tag inside one establishment. -/
def sinChoque (a b : Vaca) : Prop :=
  a.establecimiento_id = b.establecimiento_id →
    (a.caravana_senasa = none ∨ a.caravana_senasa ≠ b.caravana_senasa) ∧
    (a.caravana_interna = none ∨ a.caravana_interna ≠ b.caravana_interna)

instance : DecidableRel sinChoque := fun a b => by
  unfold sinChoque
  infer_instance

/-- Tag uniqueness as a property of the table `vacas`: no two of its rows, active or
not, share a non-null official tag or a non-null internal tag inside one
establishment. -/
def caravanasUnicas (vs : List Vaca) : Prop := vs.Pairwise sinChoque

instance (vs : List Vaca) : Decidable (caravanasUnicas vs) := by
  unfold caravanasUnicas
  infer_instance

/-- The tags of a body are values of `VARCHAR(50)`: cut to 50 characters they are
themselves. -/
def anchoCaravanas (senasa interna : Option String) : Prop :=
  senasa.map (aVarchar 50) = senasa ∧ interna.map (aVarchar 50) = interna

/-- The key, the establishment and the tags of an animal are values of their
columns. -/
def columnasVaca (v : Vaca) : Prop :=
  enInteger v.id = true ∧ enInteger v.establecimiento_id = true ∧
    anchoCaravanas v.caravana_senasa v.caravana_interna

/-- What the keys, the references and the column types of `setupQuery` keep true of
the animals and of their history rows. -/
structure Integro (db : Db) : Prop where
  columnas : ∀ v ∈ db.store.vacas, columnasVaca v
  ids_bajo_seq : ∀ v ∈ db.store.vacas, v.id < db.seq.vacas
  ids_distintos : db.store.vacas.Pairwise (fun a b => a.id ≠ b.id)
  caravanas : caravanasUnicas db.store.vacas
  rodeo_ref : ∀ v ∈ db.store.vacas, referenciaOk (db.store.rodeos.map (·.id)) v.rodeo_id = true
  madre_ref : ∀ v ∈ db.store.vacas, referenciaOk (db.store.vacas.map (·.id)) v.madre_id = true
  salud_ref : ∀ r ∈ db.store.registros_salud, r.vaca_id ∈ db.store.vacas.map (·.id)
  reproduccion_ref :
    ∀ r ∈ db.store.registros_reproduccion, r.vaca_id ∈ db.store.vacas.map (·.id)
  produccion_ref : ∀ r ∈ db.store.registros_produccion, r.vaca_id ∈ db.store.vacas.map (·.id)
  fotos_ref : ∀ r ∈ db.store.fotos_vacas, r.vaca_id ∈ db.store.vacas.map (·.id)

/-- A row of one of the tables that carry `establecimiento_id` next to farm data. -/
inductive Fila
  | rodeo (r : Rodeo)
  | vaca (v : Vaca)
  | movimiento (m : Movimiento)
  | produccion (r : RegistroProduccion)
  | salud (r : RegistroSalud)
  | reproduccion (r : RegistroReproduccion)
  | foto (f : FotoVaca)
deriving DecidableEq

/-- The `establecimiento_id` of a row. -/
def Fila.establecimiento_id : Fila → Int
  | .rodeo r => r.establecimiento_id
  | .vaca v => v.establecimiento_id
  | .movimiento m => m.establecimiento_id
  | .produccion r => r.establecimiento_id
  | .salud r => r.establecimiento_id
  | .reproduccion r => r.establecimiento_id
  | .foto f => f.establecimiento_id

/-- Every farm-data row of the store. -/
def Store.filas (s : Store) : List Fila :=
  s.rodeos.map .rodeo ++ (s.vacas.map .vaca ++ (s.historial_movimientos.map .movimiento ++
    (s.registros_produccion.map .produccion ++ (s.registros_salud.map .salud ++
      (s.registros_reproduccion.map .reproduccion ++ s.fotos_vacas.map .foto)))))

/-- The farm-data rows a response carries. -/
def Datos.filas : Datos → List Fila
  | .rodeo r => [.rodeo r]
  | .rodeos rs => rs.map .rodeo
  | .vaca v => [.vaca v]
  | .vacas vs => vs.map .vaca
  | .salud r => [.salud r]
  | .saludes rs => rs.map .salud
  | .reproduccion r => [.reproduccion r]
  | .reproducciones rs => rs.map .reproduccion
  | .produccion r => [.produccion r]
  | .producciones rs => rs.map .produccion
  | .foto f => [.foto f]
  | .fotos fs => fs.map .foto
  | _ => []

/-- Two versions of a table differ only in rows of establishment `e`. -/
def cotaTabla {α : Type} (est : α → Int) (e : Int) (t t2 : List α) : Prop :=
  (∀ r ∈ t2, r ∈ t ∨ est r = e) ∧ (∀ r ∈ t, r ∈ t2 ∨ est r = e)

/-- Two versions of the store differ only in farm-data rows of establishment `e`. -/
structure Acotado (e : Int) (s s2 : Store) : Prop where
  rodeos : cotaTabla (fun r : Rodeo => r.establecimiento_id) e s.rodeos s2.rodeos
  vacas : cotaTabla (fun r : Vaca => r.establecimiento_id) e s.vacas s2.vacas
  movimientos : cotaTabla (fun r : Movimiento => r.establecimiento_id) e s.historial_movimientos
    s2.historial_movimientos
  produccion : cotaTabla (fun r : RegistroProduccion => r.establecimiento_id) e
    s.registros_produccion s2.registros_produccion
  salud : cotaTabla (fun r : RegistroSalud => r.establecimiento_id) e s.registros_salud
    s2.registros_salud
  reproduccion : cotaTabla (fun r : RegistroReproduccion => r.establecimiento_id) e
    s.registros_reproduccion s2.registros_reproduccion
  fotos : cotaTabla (fun r : FotoVaca => r.establecimiento_id) e s.fotos_vacas s2.fotos_vacas

/-- Two stores hold the same farm-data rows of establishment `e`, table by table
and in the same order. -/
def mismasFilasDe (e : Int) (s s2 : Store) : Prop :=
  s.rodeos.filter (fun r => decide (r.establecimiento_id = e)) =
      s2.rodeos.filter (fun r => decide (r.establecimiento_id = e)) ∧
    s.vacas.filter (fun r => decide (r.establecimiento_id = e)) =
      s2.vacas.filter (fun r => decide (r.establecimiento_id = e)) ∧
    s.historial_movimientos.filter (fun r => decide (r.establecimiento_id = e)) =
      s2.historial_movimientos.filter (fun r => decide (r.establecimiento_id = e)) ∧
    s.registros_produccion.filter (fun r => decide (r.establecimiento_id = e)) =
      s2.registros_produccion.filter (fun r => decide (r.establecimiento_id = e)) ∧
    s.registros_salud.filter (fun r => decide (r.establecimiento_id = e)) =
      s2.registros_salud.filter (fun r => decide (r.establecimiento_id = e)) ∧
    s.registros_reproduccion.filter (fun r => decide (r.establecimiento_id = e)) =
      s2.registros_reproduccion.filter (fun r => decide (r.establecimiento_id = e)) ∧
    s.fotos_vacas.filter (fun r => decide (r.establecimiento_id = e)) =
      s2.fotos_vacas.filter (fun r => decide (r.establecimiento_id = e))

instance (e : Int) (s s2 : Store) : Decidable (mismasFilasDe e s s2) := by
  unfold mismasFilasDe
  infer_instance

/-- A run of requests, served one after the other. -/
def correr (env : Entorno) : List (Ruta × Req) → Db → Db
  | [], db => db
  | (ruta, req) :: resto, db => correr env resto (atender env ruta req db).1

/-! ## Concrete data used to run the definitions -/

namespace Ejemplo

/-- An environment: tokens `t1`, `t2` and `t9` are valid, for users 1, 2 and 9. -/
def env : Entorno :=
  { verify := fun t =>
      if t = "t1" then some ⟨1, "ana@campo.com"⟩
      else if t = "t2" then some ⟨2, "beto@campo.com"⟩
      else if t = "t9" then some ⟨9, "nadie@campo.com"⟩ else none
    ahora := 1000 * msPorDia
    hash := fun p => p
    getDate := fun d => d / msPorDia % 28 + 1
    toLocaleDateString := fun _ => ""
    fallaRol := false }

/-- The same environment when the store refuses the role grant. -/
def envFallaRol : Entorno := { env with fallaRol := true }

/-- A request with token `t` to establishment `e` and animal `v`. -/
def req (t : String) (e v : Int) (b : Cuerpo) : Req :=
  { authorization := some ("Bearer " ++ t), establecimientoId := e, vacaId := v, body := b
    file := none }

/-- Ana and Beto register and each creates an establishment (1 and 2); Ana adds the
herd 1 and the animal 1, tagged A1 and pregnant, to establishment 1. -/
def historia : List (Ruta × Req) :=
  [ (.postRegister, req "" 0 0 { Cuerpo.vacio with
      email := some "ana@campo.com", password := some "p1", nombre_completo := some "Ana" }),
    (.postRegister, req "" 0 0 { Cuerpo.vacio with
      email := some "beto@campo.com", password := some "p2", nombre_completo := some "Beto" }),
    (.postEstablecimientos, req "t1" 0 0 { Cuerpo.vacio with nombre := some "La Ana" }),
    (.postEstablecimientos, req "t2" 0 0 { Cuerpo.vacio with nombre := some "El Beto" }),
    (.establecimiento .postRodeos, req "t1" 1 0 { Cuerpo.vacio with nombre := some "Tambo" }),
    (.establecimiento .postVacas, req "t1" 1 0 { Cuerpo.vacio with
      caravana_interna := some "A1", estado_actual := some "Activa"
      estado_reproductivo := some "Preñada", rodeo_id := some 1 }) ]

/-- The database after `historia`. -/
def db : Db := correr env historia Db.inicial

/-- The database after `historia` and a 'Palpación' of animal 1 dated day `d`,
recorded by Ana. -/
def dbPalpacion (d : Int) : Db :=
  correr env
    [(.establecimiento .postReproduccion, req "t1" 1 1 { Cuerpo.vacio with
        fecha_evento := some d, tipo_evento := some "Palpación" })] db

/-- The database after `historia` and a health record that Beto, who holds a role on
establishment 2 only, appends under establishment 2 for animal 1. -/
def dbSaludAjena : Db :=
  correr env
    [(.establecimiento .postSalud, req "t2" 2 1 { Cuerpo.vacio with
        fecha_evento := some 990, tipo_evento := some "Vacuna", descripcion := some "Aftosa" })] db

/-- The database after `historia` and an animal that Beto creates in establishment 2
naming herd 1 and mother 1. -/
def dbVacaAjena : Db :=
  correr env
    [(.establecimiento .postVacas, req "t2" 2 0 { Cuerpo.vacio with
        caravana_interna := some "B1", estado_actual := some "Activa", rodeo_id := some 1
        madre_id := some 1 })] db

/-- A body for "create animal" or "update animal" with internal tag `c` and herd 1. -/
def cuerpoVaca (c : String) : Cuerpo :=
  { Cuerpo.vacio with
    caravana_interna := some c, estado_actual := some "Activa", rodeo_id := some 1 }

/-- The database after `historia` and a 'Palpación' of animal 1 dated day `d` that
Beto appends under establishment 2. -/
def dbPalpacionAjena (d : Int) : Db :=
  correr env
    [(.establecimiento .postReproduccion, req "t2" 2 1 { Cuerpo.vacio with
        fecha_evento := some d, tipo_evento := some "Palpación" })] db

/-- The database after `historia` and a production record of animal 1 for day 990. -/
def dbProduccion : Db :=
  correr env
    [(.establecimiento .postProduccion, req "t1" 1 1 { Cuerpo.vacio with
        fecha_registro := some 990, litros_dia := some 2500 })] db

/-- The database after `historia` and two 'Palpación' of animal 1, dated days 760 and
765, recorded by Ana. -/
def dbDosPalpaciones : Db :=
  correr env
    [(.establecimiento .postReproduccion, req "t1" 1 1 { Cuerpo.vacio with
        fecha_evento := some 760, tipo_evento := some "Palpación" }),
     (.establecimiento .postReproduccion, req "t1" 1 1 { Cuerpo.vacio with
        fecha_evento := some 765, tipo_evento := some "Palpación" })] db

/-- The database after `historia` once Ana has updated animal 1, giving it the
reproductive status that the alert query names. -/
def dbConsulta : Db :=
  correr env
    [(.establecimiento .putVaca, req "t1" 1 1 { cuerpoVaca "A1" with
        estado_reproductivo := some estadoDeLaConsulta, activa := some true })] db

/-- The database `dbConsulta` and an event of animal 1 dated day `d`, of the type that
the alert query names, recorded by Ana. -/
def dbConsultaEvento (d : Int) : Db :=
  correr env
    [(.establecimiento .postReproduccion, req "t1" 1 1 { Cuerpo.vacio with
        fecha_evento := some d, tipo_evento := some tipoDeLaConsulta })] dbConsulta

/-- The database `dbConsulta` and two such events of animal 1, dated days 760 and 765. -/
def dbConsultaDosEventos : Db :=
  correr env
    [(.establecimiento .postReproduccion, req "t1" 1 1 { Cuerpo.vacio with
        fecha_evento := some 760, tipo_evento := some tipoDeLaConsulta }),
     (.establecimiento .postReproduccion, req "t1" 1 1 { Cuerpo.vacio with
        fecha_evento := some 765, tipo_evento := some tipoDeLaConsulta })] dbConsulta

/-- The database `dbConsulta` and such an event of animal 1 dated day `d` that Beto
appends under establishment 2. -/
def dbConsultaEventoAjeno (d : Int) : Db :=
  correr env
    [(.establecimiento .postReproduccion, req "t2" 2 1 { Cuerpo.vacio with
        fecha_evento := some d, tipo_evento := some tipoDeLaConsulta })] dbConsulta

/-- The environment of `env` one day and one hour later. -/
def envOtroReloj : Entorno := { env with ahora := 1001 * msPorDia + 3600000 }

end Ejemplo

end Agromex

/-! # Theorems -/

namespace Agromex

/-! ## Shared lemmas on the guards -/

theorem checkAccessQuery_length_eq_zero (db : Db) (u e : Int) :
    (checkAccessQuery db u e).length = 0 ↔
      ¬ ∃ r ∈ db.store.usuario_establecimiento_roles, r.usuario_id = u ∧ r.establecimiento_id = e := by
  unfold checkAccessQuery
  rw [List.length_eq_zero, List.filter_eq_nil_iff]
  simp

theorem authorizeEstablecimiento_ok_iff (db : Db) (user : Payload) (req : Req) :
    authorizeEstablecimiento db user req = .ok () ↔
      enInteger req.establecimientoId = true ∧
        ∃ r ∈ db.store.usuario_establecimiento_roles,
          r.usuario_id = user.userId ∧ r.establecimiento_id = req.establecimientoId := by
  unfold authorizeEstablecimiento
  by_cases hint : enInteger req.establecimientoId = true
  · rw [if_pos hint]
    by_cases h : (checkAccessQuery db user.userId req.establecimientoId).length = 0
    · have h2 := (checkAccessQuery_length_eq_zero db user.userId req.establecimientoId).1 h
      simp [h, h2]
    · have h2 :=
        (not_congr (checkAccessQuery_length_eq_zero db user.userId req.establecimientoId)).1 h
      rw [not_not] at h2
      simp [h, h2, hint]
  · rw [if_neg hint]
    simp [hint]

theorem authorizeEstablecimiento_error (db : Db) (user : Payload) (req : Req)
    (hint : enInteger req.establecimientoId = true)
    (h : ¬ ∃ r ∈ db.store.usuario_establecimiento_roles,
        r.usuario_id = user.userId ∧ r.establecimiento_id = req.establecimientoId) :
    authorizeEstablecimiento db user req = .error accesoDenegado := by
  unfold authorizeEstablecimiento
  rw [if_pos hint,
    if_pos ((checkAccessQuery_length_eq_zero db user.userId req.establecimientoId).2 h)]

theorem authorizeEstablecimiento_fuera_de_rango (db : Db) (user : Payload) (req : Req)
    (hint : ¬ enInteger req.establecimientoId = true) :
    authorizeEstablecimiento db user req = .error errorInterno := by
  unfold authorizeEstablecimiento
  rw [if_neg hint]

/-! ## Shared lemmas on the constraints of `vacas` -/

theorem chocaCaravana_eq_false_iff (e : Int) (s i : Option String) (w : Vaca) :
    chocaCaravana e s i w = false ↔
      (w.establecimiento_id = e →
        (s = none ∨ w.caravana_senasa ≠ s) ∧ (i = none ∨ w.caravana_interna ≠ i)) := by
  unfold chocaCaravana
  cases s <;> cases i <;> simp

theorem chocaCaravana_eq_true_iff (e : Int) (s i : Option String) (w : Vaca) :
    chocaCaravana e s i w = true ↔
      (w.establecimiento_id = e ∧
        ((s ≠ none ∧ w.caravana_senasa = s) ∨ (i ≠ none ∧ w.caravana_interna = i))) := by
  unfold chocaCaravana
  cases s <;> cases i <;> simp

theorem referenciaOk_mono {ids ids2 : List Int} (h : ∀ x ∈ ids, x ∈ ids2) (r : Option Int)
    (hr : referenciaOk ids r = true) : referenciaOk ids2 r = true := by
  cases r with
  | none => rfl
  | some x =>
    simp only [referenciaOk, decide_eq_true_eq] at hr ⊢
    exact h x hr

theorem sinChoque_nueva_derecha {e : Int} {s i : Option String} {a nueva : Vaca}
    (he : nueva.establecimiento_id = e) (hs : nueva.caravana_senasa = s)
    (hi : nueva.caravana_interna = i) (h : chocaCaravana e s i a = false) : sinChoque a nueva := by
  rw [chocaCaravana_eq_false_iff] at h
  intro hest
  have h2 := h (by rw [hest, he])
  subst hs hi
  refine ⟨?_, ?_⟩
  · rcases h2.1 with h3 | h3
    · by_cases ha : a.caravana_senasa = none
      · exact Or.inl ha
      · exact Or.inr (by rw [h3]; exact ha)
    · exact Or.inr h3
  · rcases h2.2 with h3 | h3
    · by_cases ha : a.caravana_interna = none
      · exact Or.inl ha
      · exact Or.inr (by rw [h3]; exact ha)
    · exact Or.inr h3

theorem sinChoque_nueva_izquierda {e : Int} {s i : Option String} {nueva b : Vaca}
    (he : nueva.establecimiento_id = e) (hs : nueva.caravana_senasa = s)
    (hi : nueva.caravana_interna = i) (h : chocaCaravana e s i b = false) : sinChoque nueva b := by
  rw [chocaCaravana_eq_false_iff] at h
  intro hest
  have h2 := h (by rw [← hest, he])
  subst hs hi
  exact ⟨h2.1.imp id (fun h3 => Ne.symm h3), h2.2.imp id (fun h3 => Ne.symm h3)⟩

/-! ## Shared lemmas: every statement keeps `Integro` -/

theorem Integro.otras_tablas {db db2 : Db} (h : Integro db)
    (hv : db2.store.vacas = db.store.vacas) (hs : db2.seq.vacas = db.seq.vacas)
    (hr : ∀ x ∈ db.store.rodeos.map (·.id), x ∈ db2.store.rodeos.map (·.id))
    (h1 : ∀ r ∈ db2.store.registros_salud,
      r ∈ db.store.registros_salud ∨ r.vaca_id ∈ db.store.vacas.map (·.id))
    (h2 : ∀ r ∈ db2.store.registros_reproduccion,
      r ∈ db.store.registros_reproduccion ∨ r.vaca_id ∈ db.store.vacas.map (·.id))
    (h3 : ∀ r ∈ db2.store.registros_produccion,
      r ∈ db.store.registros_produccion ∨ r.vaca_id ∈ db.store.vacas.map (·.id))
    (h4 : ∀ r ∈ db2.store.fotos_vacas,
      r ∈ db.store.fotos_vacas ∨ r.vaca_id ∈ db.store.vacas.map (·.id)) : Integro db2 where
  columnas := by rw [hv]; exact h.columnas
  ids_bajo_seq := by rw [hv, hs]; exact h.ids_bajo_seq
  ids_distintos := by rw [hv]; exact h.ids_distintos
  caravanas := by rw [hv]; exact h.caravanas
  rodeo_ref := by
    rw [hv]
    intro v hvm
    exact referenciaOk_mono hr _ (h.rodeo_ref v hvm)
  madre_ref := by rw [hv]; exact h.madre_ref
  salud_ref := by
    rw [hv]
    intro r hrm
    rcases h1 r hrm with h5 | h5
    · exact h.salud_ref r h5
    · exact h5
  reproduccion_ref := by
    rw [hv]
    intro r hrm
    rcases h2 r hrm with h5 | h5
    · exact h.reproduccion_ref r h5
    · exact h5
  produccion_ref := by
    rw [hv]
    intro r hrm
    rcases h3 r hrm with h5 | h5
    · exact h.produccion_ref r h5
    · exact h5
  fotos_ref := by
    rw [hv]
    intro r hrm
    rcases h4 r hrm with h5 | h5
    · exact h.fotos_ref r h5
    · exact h5

theorem Integro.inicial : Integro Db.inicial where
  columnas := by intro v hv; cases hv
  ids_bajo_seq := by intro v hv; cases hv
  ids_distintos := List.Pairwise.nil
  caravanas := List.Pairwise.nil
  rodeo_ref := by intro v hv; cases hv
  madre_ref := by intro v hv; cases hv
  salud_ref := by intro v hv; cases hv
  reproduccion_ref := by intro v hv; cases hv
  produccion_ref := by intro v hv; cases hv
  fotos_ref := by intro v hv; cases hv

theorem Integro.insertUsuarioEjecutar {db : Db} (h : Integro db) (env : Entorno) (email ph : String)
    (n : Option String) : Integro (insertUsuarioEjecutar env db email ph n).1 := by
  unfold Agromex.insertUsuarioEjecutar
  split_ifs <;>
    exact h.otras_tablas rfl rfl (fun _ hx => hx) (fun _ hr => Or.inl hr) (fun _ hr => Or.inl hr)
      (fun _ hr => Or.inl hr) (fun _ hr => Or.inl hr)

theorem Integro.insertEstablecimientoEjecutar {db : Db} (h : Integro db) (env : Entorno) (nombre : String)
    (n : Option String) (p : Int) : Integro (insertEstablecimientoEjecutar env db nombre n p).1 := by
  unfold Agromex.insertEstablecimientoEjecutar
  split_ifs <;>
    exact h.otras_tablas rfl rfl (fun _ hx => hx) (fun _ hr => Or.inl hr) (fun _ hr => Or.inl hr)
      (fun _ hr => Or.inl hr) (fun _ hr => Or.inl hr)

theorem Integro.commit {db : Db} (h : Integro db) (tx : Transaccion) : Integro (tx.commit db) :=
  h.otras_tablas rfl rfl (fun _ hx => hx) (fun _ hr => Or.inl hr) (fun _ hr => Or.inl hr)
    (fun _ hr => Or.inl hr) (fun _ hr => Or.inl hr)

theorem Integro.insertRodeoEjecutar {db : Db} (h : Integro db) (env : Entorno) (e : Int) (nombre : String)
    (d : Option String) : Integro (insertRodeoEjecutar env db e nombre d).1 := by
  unfold Agromex.insertRodeoEjecutar
  split_ifs
  · refine h.otras_tablas rfl rfl ?_ (fun _ hr => Or.inl hr) (fun _ hr => Or.inl hr)
      (fun _ hr => Or.inl hr) (fun _ hr => Or.inl hr)
    intro x hx
    simp only [List.map_append, List.mem_append]
    exact Or.inl hx
  · exact h.otras_tablas rfl rfl (fun _ hx => hx) (fun _ hr => Or.inl hr) (fun _ hr => Or.inl hr)
      (fun _ hr => Or.inl hr) (fun _ hr => Or.inl hr)

theorem referenciasRegistro_vaca {db : Db} {v e : Int} (h : referenciasRegistro db v e = true) :
    v ∈ db.store.vacas.map (·.id) := by
  unfold referenciasRegistro at h
  simp only [Bool.and_eq_true, decide_eq_true_eq] at h
  exact h.1

theorem Integro.insertSaludEjecutar {db : Db} (h : Integro db) (v e f : Int) (t d : String)
    (c : Option Int) (o : Option String) : Integro (insertSaludEjecutar db v e f t d c o).1 := by
  unfold Agromex.insertSaludEjecutar
  split_ifs with href
  · refine h.otras_tablas rfl rfl (fun _ hx => hx) ?_ (fun _ hr => Or.inl hr)
      (fun _ hr => Or.inl hr) (fun _ hr => Or.inl hr)
    intro r hr
    rcases List.mem_append.1 hr with h1 | h1
    · exact Or.inl h1
    · rw [List.mem_singleton] at h1
      subst h1
      exact Or.inr (referenciasRegistro_vaca href)
  · exact h.otras_tablas rfl rfl (fun _ hx => hx) (fun _ hr => Or.inl hr) (fun _ hr => Or.inl hr)
      (fun _ hr => Or.inl hr) (fun _ hr => Or.inl hr)

theorem Integro.insertReproduccionEjecutar {db : Db} (h : Integro db) (v e f : Int) (t : String)
    (b : Cuerpo) : Integro (insertReproduccionEjecutar db v e f t b).1 := by
  unfold Agromex.insertReproduccionEjecutar
  split_ifs with href
  · refine h.otras_tablas rfl rfl (fun _ hx => hx) (fun _ hr => Or.inl hr) ?_
      (fun _ hr => Or.inl hr) (fun _ hr => Or.inl hr)
    intro r hr
    rcases List.mem_append.1 hr with h1 | h1
    · exact Or.inl h1
    · rw [List.mem_singleton] at h1
      subst h1
      exact Or.inr (referenciasRegistro_vaca href)
  · exact h.otras_tablas rfl rfl (fun _ hx => hx) (fun _ hr => Or.inl hr) (fun _ hr => Or.inl hr)
      (fun _ hr => Or.inl hr) (fun _ hr => Or.inl hr)

theorem Integro.insertProduccionEjecutar {db : Db} (h : Integro db) (v e f l : Int)
    (g q : Option Int) : Integro (insertProduccionEjecutar db v e f l g q).1 := by
  unfold Agromex.insertProduccionEjecutar
  split_ifs with hdup href
  · exact h.otras_tablas rfl rfl (fun _ hx => hx) (fun _ hr => Or.inl hr) (fun _ hr => Or.inl hr)
      (fun _ hr => Or.inl hr) (fun _ hr => Or.inl hr)
  · refine h.otras_tablas rfl rfl (fun _ hx => hx) (fun _ hr => Or.inl hr)
      (fun _ hr => Or.inl hr) ?_ (fun _ hr => Or.inl hr)
    intro r hr
    rcases List.mem_append.1 hr with h1 | h1
    · exact Or.inl h1
    · rw [List.mem_singleton] at h1
      subst h1
      exact Or.inr (referenciasRegistro_vaca href)
  · exact h.otras_tablas rfl rfl (fun _ hx => hx) (fun _ hr => Or.inl hr) (fun _ hr => Or.inl hr)
      (fun _ hr => Or.inl hr) (fun _ hr => Or.inl hr)

theorem Integro.insertFotoEjecutar {db : Db} (h : Integro db) (env : Entorno) (v e : Int) (u : String)
    (d : Option String) : Integro (insertFotoEjecutar env db v e u d).1 := by
  unfold Agromex.insertFotoEjecutar
  split_ifs with href
  · refine h.otras_tablas rfl rfl (fun _ hx => hx) (fun _ hr => Or.inl hr)
      (fun _ hr => Or.inl hr) (fun _ hr => Or.inl hr) ?_
    intro r hr
    rcases List.mem_append.1 hr with h1 | h1
    · exact Or.inl h1
    · rw [List.mem_singleton] at h1
      subst h1
      exact Or.inr (referenciasRegistro_vaca href)
  · exact h.otras_tablas rfl rfl (fun _ hx => hx) (fun _ hr => Or.inl hr) (fun _ hr => Or.inl hr)
      (fun _ hr => Or.inl hr) (fun _ hr => Or.inl hr)

theorem map_id_actualizar (vs : List Vaca) (p : Vaca → Bool) (f : Vaca → Vaca)
    (hf : ∀ v, (f v).id = v.id) :
    (vs.map (fun v => if p v then f v else v)).map (·.id) = vs.map (·.id) := by
  rw [List.map_map]
  apply List.map_congr_left
  intro v _
  simp only [Function.comp]
  split_ifs
  · exact hf v
  · rfl

theorem aVarchar_aVarchar (n : Nat) (s : String) : aVarchar n (aVarchar n s) = aVarchar n s := by
  unfold aVarchar
  simp [List.take_take]

theorem anchoCaravanas_valoresVaca (b : Cuerpo) :
    anchoCaravanas (valoresVaca b).caravana_senasa (valoresVaca b).caravana_interna := by
  unfold anchoCaravanas valoresVaca
  dsimp only
  refine ⟨?_, ?_⟩
  · cases b.caravana_senasa with
    | none => rfl
    | some s => simp [aVarchar_aVarchar]
  · cases b.caravana_interna with
    | none => rfl
    | some s => simp [aVarchar_aVarchar]

theorem Integro.insertVacaEjecutar {db : Db} (h : Integro db) (env : Entorno) (e : Int) (b : Cuerpo)
    (he : enInteger e = true) (hs : enInteger db.seq.vacas = true)
    (hb : anchoCaravanas b.caravana_senasa b.caravana_interna) :
    Integro (insertVacaEjecutar env db e b).1 := by
  have hseq : ∀ db2 : Db, db2.store = db.store → db2.seq.vacas = db.seq.vacas + 1 → Integro db2 := by
    intro db2 hst hsq
    refine
      { columnas := ?_
        ids_bajo_seq := ?_, ids_distintos := ?_, caravanas := ?_, rodeo_ref := ?_, madre_ref := ?_
        salud_ref := ?_, reproduccion_ref := ?_, produccion_ref := ?_, fotos_ref := ?_ }
    · rw [hst]; exact h.columnas
    · rw [hst, hsq]
      intro v hv
      have := h.ids_bajo_seq v hv
      omega
    · rw [hst]; exact h.ids_distintos
    · rw [hst]; exact h.caravanas
    · rw [hst]; exact h.rodeo_ref
    · rw [hst]; exact h.madre_ref
    · rw [hst]; exact h.salud_ref
    · rw [hst]; exact h.reproduccion_ref
    · rw [hst]; exact h.produccion_ref
    · rw [hst]; exact h.fotos_ref
  unfold Agromex.insertVacaEjecutar
  dsimp only
  split_ifs with hdup href
  · exact hseq _ rfl rfl
  · simp only [Bool.and_eq_true, decide_eq_true_eq] at href
    have hno : ∀ a ∈ db.store.vacas,
        chocaCaravana e b.caravana_senasa b.caravana_interna a = false := by
      intro a ha
      cases hc : chocaCaravana e b.caravana_senasa b.caravana_interna a with
      | false => rfl
      | true => exact absurd (List.any_eq_true.2 ⟨a, ha, hc⟩) hdup
    have hsub : ∀ x ∈ db.store.vacas.map (·.id),
        x ∈ (db.store.vacas ++ [filaVaca env db e b]).map (·.id) := by
      intro x hx
      rw [List.map_append, List.mem_append]
      exact Or.inl hx
    refine
      { columnas := ?_
        ids_bajo_seq := ?_, ids_distintos := ?_, caravanas := ?_, rodeo_ref := ?_, madre_ref := ?_
        salud_ref := ?_, reproduccion_ref := ?_, produccion_ref := ?_, fotos_ref := ?_ }
    · intro v hv
      rcases List.mem_append.1 hv with h1 | h1
      · exact h.columnas v h1
      · rw [List.mem_singleton] at h1
        subst h1
        exact ⟨hs, he, hb⟩
    · intro v hv
      rcases List.mem_append.1 hv with h1 | h1
      · have := h.ids_bajo_seq v h1
        show v.id < db.seq.vacas + 1
        omega
      · rw [List.mem_singleton] at h1
        subst h1
        show db.seq.vacas < db.seq.vacas + 1
        omega
    · refine List.pairwise_append.2 ⟨h.ids_distintos, List.pairwise_singleton _ _, ?_⟩
      intro a ha c hc
      rw [List.mem_singleton] at hc
      subst hc
      have := h.ids_bajo_seq a ha
      show a.id ≠ db.seq.vacas
      omega
    · refine List.pairwise_append.2 ⟨h.caravanas, List.pairwise_singleton _ _, ?_⟩
      intro a ha c hc
      rw [List.mem_singleton] at hc
      subst hc
      exact sinChoque_nueva_derecha rfl rfl rfl (hno a ha)
    · intro v hv
      rcases List.mem_append.1 hv with h1 | h1
      · exact h.rodeo_ref v h1
      · rw [List.mem_singleton] at h1
        subst h1
        exact href.1.2
    · intro v hv
      rcases List.mem_append.1 hv with h1 | h1
      · exact referenciaOk_mono hsub _ (h.madre_ref v h1)
      · rw [List.mem_singleton] at h1
        subst h1
        exact href.2
    · intro r hr
      exact hsub _ (h.salud_ref r hr)
    · intro r hr
      exact hsub _ (h.reproduccion_ref r hr)
    · intro r hr
      exact hsub _ (h.produccion_ref r hr)
    · intro r hr
      exact hsub _ (h.fotos_ref r hr)
  · exact hseq _ rfl rfl

theorem Integro.deleteVacaQueryEjecutar {db : Db} (h : Integro db) (v e : Int) :
    Integro (deleteVacaQueryEjecutar db v e).1 := by
  have hids := map_id_actualizar db.store.vacas (esLaVaca v e) (fun w => { w with activa := some false })
    (fun _ => rfl)
  unfold Agromex.deleteVacaQueryEjecutar
  refine
    { columnas := ?_
      ids_bajo_seq := ?_, ids_distintos := ?_, caravanas := ?_, rodeo_ref := ?_, madre_ref := ?_
      salud_ref := ?_, reproduccion_ref := ?_, produccion_ref := ?_, fotos_ref := ?_ }
  · intro w hw
    obtain ⟨u, hu, rfl⟩ := List.mem_map.1 hw
    have := h.columnas u hu
    show columnasVaca (if esLaVaca v e u then { u with activa := some false } else u)
    split_ifs <;> exact this
  · intro w hw
    obtain ⟨u, hu, rfl⟩ := List.mem_map.1 hw
    have := h.ids_bajo_seq u hu
    show (if esLaVaca v e u then { u with activa := some false } else u).id < db.seq.vacas
    split_ifs <;> exact this
  · refine List.pairwise_map.2 (h.ids_distintos.imp ?_)
    intro a c hac
    show (if esLaVaca v e a then { a with activa := some false } else a).id ≠
      (if esLaVaca v e c then { c with activa := some false } else c).id
    split_ifs <;> exact hac
  · refine List.pairwise_map.2 (h.caravanas.imp ?_)
    intro a c hac
    show sinChoque (if esLaVaca v e a then { a with activa := some false } else a)
      (if esLaVaca v e c then { c with activa := some false } else c)
    split_ifs <;> exact hac
  · intro w hw
    obtain ⟨u, hu, rfl⟩ := List.mem_map.1 hw
    have := h.rodeo_ref u hu
    show referenciaOk _ (if esLaVaca v e u then { u with activa := some false } else u).rodeo_id = true
    split_ifs <;> exact this
  · intro w hw
    obtain ⟨u, hu, rfl⟩ := List.mem_map.1 hw
    have := h.madre_ref u hu
    show referenciaOk (List.map (fun w : Vaca => w.id) (List.map _ db.store.vacas))
      (if esLaVaca v e u then { u with activa := some false } else u).madre_id = true
    rw [hids]
    split_ifs <;> exact this
  · intro r hr
    show r.vaca_id ∈ List.map (fun w : Vaca => w.id) (List.map _ db.store.vacas)
    rw [hids]
    exact h.salud_ref r hr
  · intro r hr
    show r.vaca_id ∈ List.map (fun w : Vaca => w.id) (List.map _ db.store.vacas)
    rw [hids]
    exact h.reproduccion_ref r hr
  · intro r hr
    show r.vaca_id ∈ List.map (fun w : Vaca => w.id) (List.map _ db.store.vacas)
    rw [hids]
    exact h.produccion_ref r hr
  · intro r hr
    show r.vaca_id ∈ List.map (fun w : Vaca => w.id) (List.map _ db.store.vacas)
    rw [hids]
    exact h.fotos_ref r hr

theorem esLaVaca_eq_true_iff (v e : Int) (w : Vaca) :
    esLaVaca v e w = true ↔ w.id = v ∧ w.establecimiento_id = e := by
  simp [esLaVaca]

theorem updateVaca_sin_choque {db db1 : Db} {rows : List Vaca} {v e : Int} {b : Cuerpo}
    (hu : updateVacaEjecutar db v e b = .ok (db1, rows)) (hrows : rows ≠ []) :
    ∀ a ∈ db.store.vacas, esLaVaca v e a ≠ true →
      chocaCaravana e b.caravana_senasa b.caravana_interna a = false := by
  unfold updateVacaEjecutar at hu
  dsimp only at hu
  split_ifs at hu with h0 hdup href
  · injection hu with hu
    injection hu with _ hu
    exact absurd hu.symm hrows
  · intro a ha hT
    cases hc : chocaCaravana e b.caravana_senasa b.caravana_interna a with
    | false => rfl
    | true =>
      refine absurd (List.any_eq_true.2 ⟨a, ?_, hc⟩) hdup
      rw [List.mem_filter]
      refine ⟨ha, ?_⟩
      cases hT2 : esLaVaca v e a with
      | false => rfl
      | true => exact absurd hT2 hT

theorem Integro.updateVacaEjecutar {db db1 : Db} {rows : List Vaca} (h : Integro db) {v e : Int}
    {b : Cuerpo} (hb : anchoCaravanas b.caravana_senasa b.caravana_interna)
    (hu : updateVacaEjecutar db v e b = .ok (db1, rows)) : Integro db1 := by
  by_cases hrows : rows = []
  · have hdb : db1 = db := by
      unfold Agromex.updateVacaEjecutar at hu
      dsimp only at hu
      split_ifs at hu with h0 hdup href
      · injection hu with hu
        injection hu with hu _
        exact hu.symm
      · injection hu with hu
        injection hu with _ hu
        rw [hrows] at hu
        have h1 := congrArg List.length hu
        rw [List.length_map] at h1
        exact absurd h1 h0
    rw [hdb]
    exact h
  · have hno := updateVaca_sin_choque hu hrows
    have hids := map_id_actualizar db.store.vacas (esLaVaca v e) (setVaca b) (fun _ => rfl)
    unfold Agromex.updateVacaEjecutar at hu
    dsimp only at hu
    split_ifs at hu with h0 hdup href
    · injection hu with hu
      injection hu with _ hu
      exact absurd hu.symm hrows
    · injection hu with hu
      injection hu with hu _
      subst hu
      simp only [Bool.and_eq_true] at href
      refine
        { columnas := ?_
          ids_bajo_seq := ?_, ids_distintos := ?_, caravanas := ?_, rodeo_ref := ?_
          madre_ref := ?_, salud_ref := ?_, reproduccion_ref := ?_, produccion_ref := ?_
          fotos_ref := ?_ }
      · intro w hw
        obtain ⟨u, hu, rfl⟩ := List.mem_map.1 hw
        have hcol := h.columnas u hu
        show columnasVaca (if esLaVaca v e u then setVaca b u else u)
        split_ifs
        · exact ⟨hcol.1, hcol.2.1, hb⟩
        · exact hcol
      · intro w hw
        obtain ⟨u, hu, rfl⟩ := List.mem_map.1 hw
        have := h.ids_bajo_seq u hu
        show (if esLaVaca v e u then setVaca b u else u).id < db.seq.vacas
        split_ifs <;> exact this
      · refine List.pairwise_map.2 (h.ids_distintos.imp ?_)
        intro a c hac
        show (if esLaVaca v e a then setVaca b a else a).id ≠
          (if esLaVaca v e c then setVaca b c else c).id
        split_ifs <;> exact hac
      · refine List.pairwise_map.2 ?_
        refine List.Pairwise.imp_of_mem ?_ (h.ids_distintos.and h.caravanas)
        intro a c ha hc hac
        obtain ⟨hid, hsc⟩ := hac
        show sinChoque (if esLaVaca v e a then setVaca b a else a)
          (if esLaVaca v e c then setVaca b c else c)
        by_cases hTa : esLaVaca v e a = true <;> by_cases hTc : esLaVaca v e c = true
        · exact absurd (((esLaVaca_eq_true_iff v e a).1 hTa).1.trans
            ((esLaVaca_eq_true_iff v e c).1 hTc).1.symm) hid
        · rw [if_pos hTa, if_neg hTc]
          exact sinChoque_nueva_izquierda ((esLaVaca_eq_true_iff v e a).1 hTa).2 rfl rfl
            (hno c hc hTc)
        · rw [if_neg hTa, if_pos hTc]
          exact sinChoque_nueva_derecha ((esLaVaca_eq_true_iff v e c).1 hTc).2 rfl rfl
            (hno a ha hTa)
        · rw [if_neg hTa, if_neg hTc]
          exact hsc
      · intro w hw
        obtain ⟨u, hu, rfl⟩ := List.mem_map.1 hw
        have := h.rodeo_ref u hu
        show referenciaOk _ (if esLaVaca v e u then setVaca b u else u).rodeo_id = true
        split_ifs
        · exact href.1
        · exact this
      · intro w hw
        obtain ⟨u, hu, rfl⟩ := List.mem_map.1 hw
        have := h.madre_ref u hu
        show referenciaOk (List.map (fun w : Vaca => w.id) (List.map _ db.store.vacas))
          (if esLaVaca v e u then setVaca b u else u).madre_id = true
        rw [hids]
        split_ifs
        · exact href.2
        · exact this
      · intro r hr
        show r.vaca_id ∈ List.map (fun w : Vaca => w.id) (List.map _ db.store.vacas)
        rw [hids]
        exact h.salud_ref r hr
      · intro r hr
        show r.vaca_id ∈ List.map (fun w : Vaca => w.id) (List.map _ db.store.vacas)
        rw [hids]
        exact h.reproduccion_ref r hr
      · intro r hr
        show r.vaca_id ∈ List.map (fun w : Vaca => w.id) (List.map _ db.store.vacas)
        rw [hids]
        exact h.produccion_ref r hr
      · intro r hr
        show r.vaca_id ∈ List.map (fun w : Vaca => w.id) (List.map _ db.store.vacas)
        rw [hids]
        exact h.fotos_ref r hr

theorem Integro.insertUsuario {db : Db} (h : Integro db) (env : Entorno) (email ph : String)
    (n : Option String) : Integro (insertUsuario env db email ph n).1 := by
  unfold Agromex.insertUsuario
  split_ifs
  · exact h.insertUsuarioEjecutar env _ _ _
  · exact h

theorem Integro.insertEstablecimiento {db : Db} (h : Integro db) (env : Entorno) (nombre : String)
    (n : Option String) (p : Int) : Integro (insertEstablecimiento env db nombre n p).1 := by
  unfold Agromex.insertEstablecimiento
  split_ifs
  · exact h.insertEstablecimientoEjecutar env _ _ _
  · exact h

theorem Integro.insertRodeo {db : Db} (h : Integro db) (env : Entorno) (e : Int) (nombre : String)
    (d : Option String) : Integro (insertRodeo env db e nombre d).1 := by
  unfold Agromex.insertRodeo
  split_ifs
  · exact h.insertRodeoEjecutar env _ _ _
  · exact h

theorem Integro.insertVaca {db : Db} (h : Integro db) (env : Entorno) (e : Int) (b : Cuerpo) :
    Integro (insertVaca env db e b).1 := by
  unfold Agromex.insertVaca
  split_ifs with hvin
  · simp only [vinculaVaca, Bool.and_eq_true] at hvin
    exact h.insertVacaEjecutar env _ _ hvin.1.1 hvin.2 (anchoCaravanas_valoresVaca b)
  · exact h

theorem Integro.updateVaca {db db1 : Db} {rows : List Vaca} (h : Integro db) {v e : Int}
    {b : Cuerpo} (hu : updateVaca db v e b = .ok (db1, rows)) : Integro db1 := by
  unfold Agromex.updateVaca at hu
  split_ifs at hu
  exact h.updateVacaEjecutar (anchoCaravanas_valoresVaca b) hu

theorem Integro.insertSalud {db : Db} (h : Integro db) (v e f : Int) (t d : String)
    (c : Option Int) (o : Option String) : Integro (insertSalud db v e f t d c o).1 := by
  unfold Agromex.insertSalud
  split_ifs
  · exact h.insertSaludEjecutar _ _ _ _ _ _ _
  · exact h

theorem Integro.insertReproduccion {db : Db} (h : Integro db) (v e f : Int) (t : String)
    (b : Cuerpo) : Integro (insertReproduccion db v e f t b).1 := by
  unfold Agromex.insertReproduccion
  split_ifs
  · exact h.insertReproduccionEjecutar _ _ _ _ _
  · exact h

theorem Integro.insertProduccion {db : Db} (h : Integro db) (v e f l : Int)
    (g q : Option Int) : Integro (insertProduccion db v e f l g q).1 := by
  unfold Agromex.insertProduccion
  split_ifs
  · exact h.insertProduccionEjecutar _ _ _ _ _ _
  · exact h

theorem Integro.insertFoto {db : Db} (h : Integro db) (env : Entorno) (v e : Int) (u : String)
    (d : Option String) : Integro (insertFoto env db v e u d).1 := by
  unfold Agromex.insertFoto
  split_ifs
  · exact h.insertFotoEjecutar env _ _ _ _
  · exact h

/-! ## Shared lemmas: every route keeps `Integro` -/

theorem Integro.postRegister {db : Db} (h : Integro db) (env : Entorno) (req : Req) :
    Integro (postRegister env req db).1 := by
  unfold Agromex.postRegister
  dsimp only
  split_ifs
  · exact h
  · have h1 := h.insertUsuario env (req.body.email.getD "") (env.hash (req.body.password.getD ""))
      req.body.nombre_completo
    split
    · rename_i heq
      rw [heq] at h1
      exact h1
    · rename_i heq
      rw [heq] at h1
      split_ifs <;> exact h1

theorem Integro.postEstablecimientos {db : Db} (h : Integro db) (env : Entorno) (user : Payload)
    (req : Req) : Integro (postEstablecimientos env user req db).1 := by
  unfold Agromex.postEstablecimientos
  dsimp only
  split_ifs
  · exact h
  · have h1 := h.insertEstablecimiento env (req.body.nombre.getD "") req.body.numero_oficial
      user.userId
    split
    · rename_i heq
      rw [heq] at h1
      exact h1
    · rename_i heq
      rw [heq] at h1
      split
      · exact h1
      · exact h1.commit _

theorem Integro.postRodeos {db : Db} (h : Integro db) (env : Entorno) (req : Req) :
    Integro (postRodeos env req db).1 := by
  unfold Agromex.postRodeos
  split_ifs
  · exact h
  · have h1 := h.insertRodeo env req.establecimientoId (req.body.nombre.getD "")
      req.body.descripcion
    split <;> (rename_i heq; rw [heq] at h1; exact h1)

theorem Integro.postVacas {db : Db} (h : Integro db) (env : Entorno) (req : Req) :
    Integro (postVacas env req db).1 := by
  unfold Agromex.postVacas
  dsimp only
  split_ifs
  · exact h
  · have h1 := h.insertVaca env req.establecimientoId req.body
    split
    · rename_i heq
      rw [heq] at h1
      exact h1
    · rename_i heq
      rw [heq] at h1
      split_ifs <;> exact h1

theorem Integro.putVaca {db : Db} (h : Integro db) (req : Req) :
    Integro (putVaca req db).1 := by
  unfold Agromex.putVaca
  split
  · rename_i heq
    exact h.updateVaca heq
  · rename_i heq
    exact h.updateVaca heq
  · split_ifs <;> exact h

theorem Integro.deleteVaca {db : Db} (h : Integro db) (req : Req) :
    Integro (deleteVaca req db).1 := by
  have h1 := h.deleteVacaQueryEjecutar req.vacaId req.establecimientoId
  unfold Agromex.deleteVaca Agromex.deleteVacaQuery
  split_ifs
  · cases hq : Agromex.deleteVacaQueryEjecutar db req.vacaId req.establecimientoId with
    | mk db1 rows =>
      rw [hq] at h1
      cases rows <;> exact h1
  · exact h

theorem Integro.postSalud {db : Db} (h : Integro db) (req : Req) :
    Integro (postSalud req db).1 := by
  unfold Agromex.postSalud
  dsimp only
  split_ifs
  · exact h
  · have h1 := h.insertSalud req.vacaId req.establecimientoId (req.body.fecha_evento.getD 0)
      (req.body.tipo_evento.getD "") (req.body.descripcion.getD "") req.body.costo
      req.body.observaciones
    split <;> (rename_i heq; rw [heq] at h1; exact h1)

theorem Integro.postReproduccion {db : Db} (h : Integro db) (req : Req) :
    Integro (postReproduccion req db).1 := by
  unfold Agromex.postReproduccion
  dsimp only
  split_ifs
  · exact h
  · have h1 := h.insertReproduccion req.vacaId req.establecimientoId
      (req.body.fecha_evento.getD 0) (req.body.tipo_evento.getD "") req.body
    split <;> (rename_i heq; rw [heq] at h1; exact h1)

theorem Integro.postProduccion {db : Db} (h : Integro db) (req : Req) :
    Integro (postProduccion req db).1 := by
  unfold Agromex.postProduccion
  dsimp only
  split_ifs
  · exact h
  · have h1 := h.insertProduccion req.vacaId req.establecimientoId
      (req.body.fecha_registro.getD 0) (req.body.litros_dia.getD 0) req.body.calidad_grasa
      req.body.calidad_proteina
    split <;> (rename_i heq; rw [heq] at h1; exact h1)

theorem Integro.postFotos {db : Db} (h : Integro db) (env : Entorno) (req : Req) :
    Integro (postFotos env req db).1 := by
  unfold Agromex.postFotos
  split
  · exact h
  · rename_i filename _
    have h1 := h.insertFoto env req.vacaId req.establecimientoId ("/uploads/" ++ filename)
      req.body.descripcion
    split <;> (rename_i heq; rw [heq] at h1; exact h1)

theorem getAlertas_db (env : Entorno) (req : Req) (db : Db) : (getAlertas env req db).1 = db := by
  unfold getAlertas
  dsimp only
  split_ifs
  · split <;> rfl
  · rfl

theorem getVaca_db (req : Req) (db : Db) : (getVaca req db).1 = db := by
  unfold getVaca
  split_ifs
  · split <;> rfl
  · rfl

theorem getRodeos_db (req : Req) (db : Db) : (getRodeos req db).1 = db := by
  unfold getRodeos
  split_ifs <;> rfl

theorem getVacas_db (req : Req) (db : Db) : (getVacas req db).1 = db := by
  unfold getVacas
  split_ifs <;> rfl

theorem getSalud_db (req : Req) (db : Db) : (getSalud req db).1 = db := by
  unfold getSalud
  split_ifs <;> rfl

theorem getReproduccion_db (req : Req) (db : Db) : (getReproduccion req db).1 = db := by
  unfold getReproduccion
  split_ifs <;> rfl

theorem getProduccion_db (req : Req) (db : Db) : (getProduccion req db).1 = db := by
  unfold getProduccion
  split_ifs <;> rfl

theorem getFotos_db (req : Req) (db : Db) : (getFotos req db).1 = db := by
  unfold getFotos
  split_ifs <;> rfl

theorem Integro.handler {db : Db} (h : Integro db) (env : Entorno) (ruta : RutaEstablecimiento)
    (req : Req) : Integro (ruta.handler env req db).1 := by
  cases ruta
  case postRodeos => exact h.postRodeos env req
  case getRodeos => exact (getRodeos_db req db).symm ▸ h
  case postVacas => exact h.postVacas env req
  case getVacas => exact (getVacas_db req db).symm ▸ h
  case getVaca => exact (getVaca_db req db).symm ▸ h
  case putVaca => exact h.putVaca req
  case deleteVaca => exact h.deleteVaca req
  case postSalud => exact h.postSalud req
  case getSalud => exact (getSalud_db req db).symm ▸ h
  case postReproduccion => exact h.postReproduccion req
  case getReproduccion => exact (getReproduccion_db req db).symm ▸ h
  case postProduccion => exact h.postProduccion req
  case getProduccion => exact (getProduccion_db req db).symm ▸ h
  case postFotos => exact h.postFotos env req
  case getFotos => exact (getFotos_db req db).symm ▸ h
  case getAlertas => exact (getAlertas_db env req db).symm ▸ h

theorem Integro.atender {db : Db} (h : Integro db) (env : Entorno) (ruta : Ruta) (req : Req) :
    Integro (atender env ruta req db).1 := by
  cases ruta with
  | postRegister => exact h.postRegister env req
  | postEstablecimientos =>
    unfold Agromex.atender
    dsimp only
    split
    · exact h
    · exact h.postEstablecimientos env _ req
  | getAdminEstablecimientos =>
    unfold Agromex.atender
    dsimp only
    split <;> exact h
  | establecimiento r =>
    unfold Agromex.atender atenderEstablecimiento
    dsimp only
    split
    · exact h
    · exact h.handler env r req

theorem Alcanzable.integro {db : Db} (h : Alcanzable db) : Integro db := by
  induction h with
  | inicial => exact Integro.inicial
  | paso env ruta req _ ih => exact ih.atender env ruta req

theorem alcanzable_correr (env : Entorno) (l : List (Ruta × Req)) :
    ∀ db, Alcanzable db → Alcanzable (correr env l db) := by
  induction l with
  | nil => intro db h; exact h
  | cons p resto ih =>
    intro db h
    obtain ⟨ruta, req⟩ := p
    exact ih _ (Alcanzable.paso env ruta req h)

/-! ## C1: the establishment guard -/

/-- **C1, as stated, fails.** Ana's token is valid and no role row exists for her and
establishment 2147483648, a path identifier outside `INTEGER`: the role query
throws, the `catch` of `authorizeEstablecimiento` answers 500, not 403. -/
theorem establecimiento_guard_out_of_range_is_500 :
    authenticateToken Ejemplo.env (Ejemplo.req "t1" 2147483648 1 Cuerpo.vacio) =
      .ok ⟨1, "ana@campo.com"⟩ ∧
    (¬ ∃ r ∈ Ejemplo.db.store.usuario_establecimiento_roles,
      r.usuario_id = 1 ∧ r.establecimiento_id = 2147483648) ∧
    atenderEstablecimiento Ejemplo.env .getVaca (Ejemplo.req "t1" 2147483648 1 Cuerpo.vacio)
        Ejemplo.db = (Ejemplo.db, errorInterno) ∧
    errorInterno.status = 500 ∧ errorInterno.status ≠ 403 :=
  ⟨rfl, by decide, by decide, rfl, by decide⟩

/-- **C1, amended.** On every establishment route, for a request whose token is valid
for `user`: both middleware call `next()` (the handler body runs) iff the
establishment of the path is an `INTEGER` and `usuario_establecimiento_roles`
holds a row for exactly the pair `(user.userId, req.establecimientoId)`; with
such a row the route is its handler body; without one the answer is
`accesoDenegado`, status 403, when the establishment of the path is an `INTEGER`,
and `errorInterno`, status 500, when it is not; in both cases the database is the
one received, whatever else the path, the body and the other role rows are. -/
theorem establecimiento_guard_exact_pair (env : Entorno) (ruta : RutaEstablecimiento)
    (req : Req) (db : Db) (user : Payload) (hvalid : authenticateToken env req = .ok user) :
    ((∃ u, guardiaEstablecimiento env req db = .ok u) ↔
        enInteger req.establecimientoId = true ∧
          ∃ r ∈ db.store.usuario_establecimiento_roles,
            r.usuario_id = user.userId ∧ r.establecimiento_id = req.establecimientoId) ∧
    (enInteger req.establecimientoId = true →
      (∃ r ∈ db.store.usuario_establecimiento_roles,
          r.usuario_id = user.userId ∧ r.establecimiento_id = req.establecimientoId) →
        atenderEstablecimiento env ruta req db = ruta.handler env req db) ∧
    (enInteger req.establecimientoId = true →
      (¬ ∃ r ∈ db.store.usuario_establecimiento_roles,
          r.usuario_id = user.userId ∧ r.establecimiento_id = req.establecimientoId) →
        atenderEstablecimiento env ruta req db = (db, accesoDenegado)) ∧
    (enInteger req.establecimientoId = false →
      atenderEstablecimiento env ruta req db = (db, errorInterno)) ∧
    accesoDenegado.status = 403 ∧ errorInterno.status = 500 := by
  refine ⟨?_, ?_, ?_, ?_, rfl, rfl⟩
  · by_cases h : enInteger req.establecimientoId = true ∧
        ∃ r ∈ db.store.usuario_establecimiento_roles,
          r.usuario_id = user.userId ∧ r.establecimiento_id = req.establecimientoId
    · have hok := (authorizeEstablecimiento_ok_iff db user req).2 h
      refine ⟨fun _ => h, fun _ => ⟨user, ?_⟩⟩
      simp only [guardiaEstablecimiento, hvalid, hok]
    · have hne : authorizeEstablecimiento db user req ≠ .ok () :=
        fun hok => h ((authorizeEstablecimiento_ok_iff db user req).1 hok)
      refine ⟨?_, fun h2 => absurd h2 h⟩
      rintro ⟨u, hu⟩
      exfalso
      simp only [guardiaEstablecimiento, hvalid] at hu
      cases hauth : authorizeEstablecimiento db user req with
      | error r =>
        rw [hauth] at hu
        cases hu
      | ok x =>
        cases x
        exact hne hauth
  · intro hint h
    have hok := (authorizeEstablecimiento_ok_iff db user req).2 ⟨hint, h⟩
    simp only [atenderEstablecimiento, guardiaEstablecimiento, hvalid, hok]
  · intro hint h
    have herr := authorizeEstablecimiento_error db user req hint h
    simp only [atenderEstablecimiento, guardiaEstablecimiento, hvalid, herr]
  · intro hint
    have herr := authorizeEstablecimiento_fuera_de_rango db user req (by rw [hint]; decide)
    simp only [atenderEstablecimiento, guardiaEstablecimiento, hvalid, herr]

/-- Witness of C1 amended: Ana holds a role on establishment 1 only; she asks for the
stored animal 1 under establishment 2 and gets 403, the database untouched. -/
theorem establecimiento_guard_exact_pair_witness :
    authenticateToken Ejemplo.env (Ejemplo.req "t1" 2 1 Cuerpo.vacio) = .ok ⟨1, "ana@campo.com"⟩ ∧
    (∃ r ∈ Ejemplo.db.store.usuario_establecimiento_roles, r.usuario_id = 1) ∧
    atenderEstablecimiento Ejemplo.env .getVaca (Ejemplo.req "t1" 2 1 Cuerpo.vacio) Ejemplo.db =
      (Ejemplo.db, accesoDenegado) :=
  ⟨rfl, by decide,
    (establecimiento_guard_exact_pair Ejemplo.env .getVaca (Ejemplo.req "t1" 2 1 Cuerpo.vacio)
      Ejemplo.db ⟨1, "ana@campo.com"⟩ rfl).2.2.1 (by decide) (by decide)⟩

/-! ## C6: history rows and their animal -/

theorem referenciasRegistro_eq_false {db : Db} {v : Int} (e : Int)
    (h : ¬ ∃ w ∈ db.store.vacas, w.id = v) : referenciasRegistro db v e = false := by
  unfold referenciasRegistro
  have : v ∉ db.store.vacas.map (·.id) := by
    intro hm
    obtain ⟨w, hw, hid⟩ := List.mem_map.1 hm
    exact h ⟨w, hw, hid⟩
  simp [this]

theorem agregado_o_previo {α : Type} {l : List α} {x : α} (P : α → Prop) (hx : P x) :
    ∀ r ∈ l ++ [x], r ∈ l ∨ P r := by
  intro r hr
  rcases List.mem_append.1 hr with h1 | h1
  · exact Or.inl h1
  · rw [List.mem_singleton] at h1
    subst h1
    exact Or.inr hx

theorem referenciasRegistro_eq_true {db : Db} {v e : Int}
    (hv : ∃ w ∈ db.store.vacas, w.id = v) (he : ∃ x ∈ db.store.establecimientos, x.id = e) :
    referenciasRegistro db v e = true := by
  obtain ⟨w, hw, hwid⟩ := hv
  obtain ⟨x, hx, hxid⟩ := he
  unfold referenciasRegistro
  simp only [Bool.and_eq_true, decide_eq_true_eq]
  exact ⟨List.mem_map.2 ⟨w, hw, hwid⟩, List.mem_map.2 ⟨x, hx, hxid⟩⟩

theorem postSalud_aceptada (req : Req) (db : Db)
    (hval : (req.body.fecha_evento.isNone || faltaTexto req.body.tipo_evento ||
      faltaTexto req.body.descripcion) = false)
    (hvin : vinculaSalud db req.vacaId req.establecimientoId (req.body.fecha_evento.getD 0)
      (req.body.tipo_evento.getD "") (req.body.descripcion.getD "") req.body.costo
      req.body.observaciones = true)
    (href : referenciasRegistro db req.vacaId req.establecimientoId = true) :
    (postSalud req db).2.status = 201 := by
  unfold postSalud insertSalud insertSaludEjecutar
  dsimp only
  rw [hval, hvin, href]
  simp

theorem postReproduccion_aceptada (req : Req) (db : Db)
    (hval : (req.body.fecha_evento.isNone || faltaTexto req.body.tipo_evento) = false)
    (hvin : vinculaReproduccion db req.vacaId req.establecimientoId
      (req.body.fecha_evento.getD 0) (req.body.tipo_evento.getD "") req.body = true)
    (href : referenciasRegistro db req.vacaId req.establecimientoId = true) :
    (postReproduccion req db).2.status = 201 := by
  unfold postReproduccion insertReproduccion insertReproduccionEjecutar
  dsimp only
  rw [hval, hvin, href]
  simp

theorem postProduccion_aceptada (req : Req) (db : Db)
    (hval : (req.body.fecha_registro.isNone || req.body.litros_dia.isNone) = false)
    (hdup : db.store.registros_produccion.any (fun r => decide (r.vaca_id = req.vacaId) &&
      decide (r.fecha_registro = req.body.fecha_registro.getD 0)) = false)
    (hvin : vinculaProduccion db req.vacaId req.establecimientoId
      (req.body.fecha_registro.getD 0) (req.body.litros_dia.getD 0) req.body.calidad_grasa
      req.body.calidad_proteina = true)
    (href : referenciasRegistro db req.vacaId req.establecimientoId = true) :
    (postProduccion req db).2.status = 201 := by
  unfold postProduccion insertProduccion insertProduccionEjecutar
  dsimp only
  rw [hval, hvin, hdup, href]
  simp

theorem postFotos_aceptada (env : Entorno) (req : Req) (db : Db) (f : String)
    (hfile : req.file = some f)
    (hvin : vinculaFoto db req.vacaId req.establecimientoId ("/uploads/" ++ f)
      req.body.descripcion = true)
    (href : referenciasRegistro db req.vacaId req.establecimientoId = true) :
    (postFotos env req db).2.status = 201 := by
  unfold postFotos insertFoto insertFotoEjecutar
  dsimp only
  rw [hfile]
  dsimp only
  rw [hvin, href]
  simp

theorem postSalud_no_vincula (req : Req) (db : Db)
    (hval : (req.body.fecha_evento.isNone || faltaTexto req.body.tipo_evento ||
      faltaTexto req.body.descripcion) = false)
    (hvin : vinculaSalud db req.vacaId req.establecimientoId (req.body.fecha_evento.getD 0)
      (req.body.tipo_evento.getD "") (req.body.descripcion.getD "") req.body.costo
      req.body.observaciones = false) :
    postSalud req db = (db, errorInterno) := by
  unfold postSalud insertSalud
  dsimp only
  rw [hval, hvin]
  simp

theorem postReproduccion_no_vincula (req : Req) (db : Db)
    (hval : (req.body.fecha_evento.isNone || faltaTexto req.body.tipo_evento) = false)
    (hvin : vinculaReproduccion db req.vacaId req.establecimientoId
      (req.body.fecha_evento.getD 0) (req.body.tipo_evento.getD "") req.body = false) :
    postReproduccion req db = (db, errorInterno) := by
  unfold postReproduccion insertReproduccion
  dsimp only
  rw [hval, hvin]
  simp

theorem postProduccion_no_vincula (req : Req) (db : Db)
    (hval : (req.body.fecha_registro.isNone || req.body.litros_dia.isNone) = false)
    (hvin : vinculaProduccion db req.vacaId req.establecimientoId
      (req.body.fecha_registro.getD 0) (req.body.litros_dia.getD 0) req.body.calidad_grasa
      req.body.calidad_proteina = false) :
    postProduccion req db = (db, errorInterno) := by
  unfold postProduccion insertProduccion
  dsimp only
  rw [hval, hvin]
  simp

/-- **C6, as stated, fails.** From `setupQuery` the application reaches a database
where a health row is stamped with establishment 2 and references animal 1, an
animal of establishment 1: Beto, who holds a role on establishment 2 only,
appended it under the path of establishment 2 and was answered 201. -/
theorem registro_linked_to_foreign_animal :
    Alcanzable Ejemplo.dbSaludAjena ∧
    (atender Ejemplo.env (.establecimiento .postSalud)
      (Ejemplo.req "t2" 2 1 { Cuerpo.vacio with
        fecha_evento := some 990, tipo_evento := some "Vacuna", descripcion := some "Aftosa" })
      Ejemplo.db).2.status = 201 ∧
    ∃ r ∈ Ejemplo.dbSaludAjena.store.registros_salud, ∃ v ∈ Ejemplo.dbSaludAjena.store.vacas,
      v.id = r.vaca_id ∧ v.establecimiento_id = 1 ∧ r.establecimiento_id = 2 :=
  ⟨alcanzable_correr _ _ _ (alcanzable_correr _ _ _ Alcanzable.inicial), by decide, by decide⟩

/-- **C6, amended.** In every reachable database each health, reproduction, production
and photo row references a stored animal, of whichever establishment.  Each of the
four append handlers adds only rows stamped with the animal and the establishment
of the path; when the animal of the path matches no stored animal it is rejected
(its answer is not 201) and the stored rows are unchanged; when the animal of the
path is stored, in whichever establishment, and the establishment of the path is
stored, a request with its required fields whose parameters bind (and, for
production, a day without a record for that animal) is answered 201.  A health,
reproduction or production request with its required fields and a parameter
that does not bind (a value that its column does not hold, such as 1000.00
litres for `DECIMAL(5, 2)`) is answered `errorInterno` (500) and the database is
the one received. -/
theorem historial_references_stored_animal (db : Db) (h : Alcanzable db) (env : Entorno)
    (req : Req) :
    ((∀ r ∈ db.store.registros_salud, ∃ v ∈ db.store.vacas, v.id = r.vaca_id) ∧
      (∀ r ∈ db.store.registros_reproduccion, ∃ v ∈ db.store.vacas, v.id = r.vaca_id) ∧
      (∀ r ∈ db.store.registros_produccion, ∃ v ∈ db.store.vacas, v.id = r.vaca_id) ∧
      (∀ r ∈ db.store.fotos_vacas, ∃ v ∈ db.store.vacas, v.id = r.vaca_id)) ∧
    ((∀ r ∈ (postSalud req db).1.store.registros_salud, r ∈ db.store.registros_salud ∨
        (r.vaca_id = req.vacaId ∧ r.establecimiento_id = req.establecimientoId)) ∧
      (∀ r ∈ (postReproduccion req db).1.store.registros_reproduccion,
        r ∈ db.store.registros_reproduccion ∨
          (r.vaca_id = req.vacaId ∧ r.establecimiento_id = req.establecimientoId)) ∧
      (∀ r ∈ (postProduccion req db).1.store.registros_produccion,
        r ∈ db.store.registros_produccion ∨
          (r.vaca_id = req.vacaId ∧ r.establecimiento_id = req.establecimientoId)) ∧
      (∀ r ∈ (postFotos env req db).1.store.fotos_vacas, r ∈ db.store.fotos_vacas ∨
        (r.vaca_id = req.vacaId ∧ r.establecimiento_id = req.establecimientoId))) ∧
    ((¬ ∃ v ∈ db.store.vacas, v.id = req.vacaId) →
      ((postSalud req db).1.store = db.store ∧ (postSalud req db).2.status ≠ 201) ∧
      ((postReproduccion req db).1.store = db.store ∧
        (postReproduccion req db).2.status ≠ 201) ∧
      ((postProduccion req db).1.store = db.store ∧ (postProduccion req db).2.status ≠ 201) ∧
      ((postFotos env req db).1.store = db.store ∧ (postFotos env req db).2.status ≠ 201)) ∧
    ((∃ v ∈ db.store.vacas, v.id = req.vacaId) →
      (∃ x ∈ db.store.establecimientos, x.id = req.establecimientoId) →
      ((req.body.fecha_evento.isNone || faltaTexto req.body.tipo_evento ||
          faltaTexto req.body.descripcion) = false →
        vinculaSalud db req.vacaId req.establecimientoId (req.body.fecha_evento.getD 0)
          (req.body.tipo_evento.getD "") (req.body.descripcion.getD "") req.body.costo
          req.body.observaciones = true →
        (postSalud req db).2.status = 201) ∧
      ((req.body.fecha_evento.isNone || faltaTexto req.body.tipo_evento) = false →
        vinculaReproduccion db req.vacaId req.establecimientoId
          (req.body.fecha_evento.getD 0) (req.body.tipo_evento.getD "") req.body = true →
        (postReproduccion req db).2.status = 201) ∧
      ((req.body.fecha_registro.isNone || req.body.litros_dia.isNone) = false →
        vinculaProduccion db req.vacaId req.establecimientoId
          (req.body.fecha_registro.getD 0) (req.body.litros_dia.getD 0) req.body.calidad_grasa
          req.body.calidad_proteina = true →
        db.store.registros_produccion.any (fun r => decide (r.vaca_id = req.vacaId) &&
          decide (r.fecha_registro = req.body.fecha_registro.getD 0)) = false →
        (postProduccion req db).2.status = 201) ∧
      (∀ f, req.file = some f →
        vinculaFoto db req.vacaId req.establecimientoId ("/uploads/" ++ f)
          req.body.descripcion = true →
        (postFotos env req db).2.status = 201)) ∧
    (((req.body.fecha_evento.isNone || faltaTexto req.body.tipo_evento ||
          faltaTexto req.body.descripcion) = false →
        vinculaSalud db req.vacaId req.establecimientoId (req.body.fecha_evento.getD 0)
          (req.body.tipo_evento.getD "") (req.body.descripcion.getD "") req.body.costo
          req.body.observaciones = false →
        postSalud req db = (db, errorInterno)) ∧
      ((req.body.fecha_evento.isNone || faltaTexto req.body.tipo_evento) = false →
        vinculaReproduccion db req.vacaId req.establecimientoId
          (req.body.fecha_evento.getD 0) (req.body.tipo_evento.getD "") req.body = false →
        postReproduccion req db = (db, errorInterno)) ∧
      ((req.body.fecha_registro.isNone || req.body.litros_dia.isNone) = false →
        vinculaProduccion db req.vacaId req.establecimientoId
          (req.body.fecha_registro.getD 0) (req.body.litros_dia.getD 0) req.body.calidad_grasa
          req.body.calidad_proteina = false →
        postProduccion req db = (db, errorInterno)) ∧
      errorInterno.status = 500) := by
  have hi := h.integro
  have hmem : ∀ x : Int, x ∈ db.store.vacas.map (·.id) → ∃ v ∈ db.store.vacas, v.id = x := by
    intro x hx
    obtain ⟨w, hw, hid⟩ := List.mem_map.1 hx
    exact ⟨w, hw, hid⟩
  refine ⟨⟨?_, ?_, ?_, ?_⟩, ⟨?_, ?_, ?_, ?_⟩, ?_, ?_,
    ⟨postSalud_no_vincula req db, postReproduccion_no_vincula req db,
      postProduccion_no_vincula req db, rfl⟩⟩
  · exact fun r hr => hmem _ (hi.salud_ref r hr)
  · exact fun r hr => hmem _ (hi.reproduccion_ref r hr)
  · exact fun r hr => hmem _ (hi.produccion_ref r hr)
  · exact fun r hr => hmem _ (hi.fotos_ref r hr)
  · unfold postSalud insertSalud insertSaludEjecutar
    dsimp only
    split_ifs <;> first
      | exact fun r hr => Or.inl hr
      | exact agregado_o_previo
          (fun r : RegistroSalud =>
            r.vaca_id = req.vacaId ∧ r.establecimiento_id = req.establecimientoId) ⟨rfl, rfl⟩
  · unfold postReproduccion insertReproduccion insertReproduccionEjecutar
    dsimp only
    split_ifs <;> first
      | exact fun r hr => Or.inl hr
      | exact agregado_o_previo
          (fun r : RegistroReproduccion =>
            r.vaca_id = req.vacaId ∧ r.establecimiento_id = req.establecimientoId) ⟨rfl, rfl⟩
  · unfold postProduccion insertProduccion insertProduccionEjecutar
    dsimp only
    split_ifs <;> first
      | exact fun r hr => Or.inl hr
      | exact agregado_o_previo
          (fun r : RegistroProduccion =>
            r.vaca_id = req.vacaId ∧ r.establecimiento_id = req.establecimientoId) ⟨rfl, rfl⟩
  · unfold postFotos insertFoto insertFotoEjecutar
    dsimp only
    cases req.file with
    | none => exact fun r hr => Or.inl hr
    | some f =>
      dsimp only
      split_ifs <;> first
        | exact fun r hr => Or.inl hr
        | exact agregado_o_previo
            (fun r : FotoVaca =>
              r.vaca_id = req.vacaId ∧ r.establecimiento_id = req.establecimientoId) ⟨rfl, rfl⟩
  · intro hno
    have href := referenciasRegistro_eq_false req.establecimientoId hno
    refine ⟨?_, ?_, ?_, ?_⟩
    · unfold postSalud insertSalud insertSaludEjecutar
      simp only [href]
      split_ifs <;> first | contradiction | simp [errorInterno, soloMensaje]
    · unfold postReproduccion insertReproduccion insertReproduccionEjecutar
      simp only [href]
      split_ifs <;> first | contradiction | simp [errorInterno, soloMensaje]
    · unfold postProduccion insertProduccion insertProduccionEjecutar
      simp only [href]
      split_ifs <;> first | contradiction | simp [errorInterno, soloMensaje]
    · unfold postFotos insertFoto insertFotoEjecutar
      simp only [href]
      cases req.file with
      | none => simp [soloMensaje]
      | some f =>
        dsimp only
        split_ifs <;> first | contradiction | simp [errorInterno, soloMensaje]
  · intro hv he
    have href := referenciasRegistro_eq_true hv he
    exact ⟨fun hval hvin => postSalud_aceptada req db hval hvin href,
      fun hval hvin => postReproduccion_aceptada req db hval hvin href,
      fun hval hvin hdup => postProduccion_aceptada req db hval hdup hvin href,
      fun f hfile hvin => postFotos_aceptada env req db f hfile hvin href⟩

/-- Witness of C6 amended: animal 77 is not stored, and a health record for it is
rejected, the rows unchanged; 1000.00 litres (100000 hundredths) for animal 1 do
not bind and are answered 500. -/
theorem historial_references_stored_animal_witness :
    Alcanzable Ejemplo.db ∧
    (postSalud (Ejemplo.req "t1" 1 77 { Cuerpo.vacio with
        fecha_evento := some 990, tipo_evento := some "Vacuna", descripcion := some "Aftosa" })
      Ejemplo.db).1.store = Ejemplo.db.store ∧
    postProduccion (Ejemplo.req "t1" 1 1 { Cuerpo.vacio with
        fecha_registro := some 990, litros_dia := some 100000 }) Ejemplo.db =
      (Ejemplo.db, errorInterno) :=
  ⟨alcanzable_correr _ _ _ Alcanzable.inicial,
    ((historial_references_stored_animal Ejemplo.db (alcanzable_correr _ _ _ Alcanzable.inicial)
      Ejemplo.env (Ejemplo.req "t1" 1 77 { Cuerpo.vacio with
        fecha_evento := some 990, tipo_evento := some "Vacuna", descripcion := some "Aftosa" })).2.2.1
      (by decide)).1.1,
    (historial_references_stored_animal Ejemplo.db (alcanzable_correr _ _ _ Alcanzable.inicial)
      Ejemplo.env (Ejemplo.req "t1" 1 1 { Cuerpo.vacio with
        fecha_registro := some 990, litros_dia := some 100000 })).2.2.2.2.2.2.1
      (by decide) (by decide)⟩
/-! ## C7: the herd and the mother of an animal -/

theorem referenciaOk_eq_false {ids : List Int} {x : Int} (h : x ∉ ids) :
    referenciaOk ids (some x) = false := by
  simp [referenciaOk, h]

theorem not_mem_ids_rodeos {db : Db} {x : Int} (h : ¬ ∃ r ∈ db.store.rodeos, r.id = x) :
    x ∉ db.store.rodeos.map (·.id) := by
  intro hm
  obtain ⟨w, hw, hid⟩ := List.mem_map.1 hm
  exact h ⟨w, hw, hid⟩

theorem not_mem_ids_vacas {db : Db} {x : Int} (h : ¬ ∃ w ∈ db.store.vacas, w.id = x) :
    x ∉ db.store.vacas.map (·.id) := by
  intro hm
  obtain ⟨w, hw, hid⟩ := List.mem_map.1 hm
  exact h ⟨w, hw, hid⟩

theorem postVacas_referencia_rechazada (env : Entorno) (req : Req) (db : Db)
    (h : (referenciaOk (db.store.rodeos.map (·.id)) req.body.rodeo_id &&
      referenciaOk ((db.store.vacas ++
          [filaVaca env db req.establecimientoId (valoresVaca req.body)]).map (·.id))
        req.body.madre_id) = false) :
    (postVacas env req db).1.store = db.store ∧ (postVacas env req db).2.status ≠ 201 := by
  have h2 : (referenciaOk (db.store.rodeos.map (·.id)) (valoresVaca req.body).rodeo_id &&
      referenciaOk ((db.store.vacas ++
          [filaVaca env db req.establecimientoId (valoresVaca req.body)]).map (·.id))
        (valoresVaca req.body).madre_id) = false := h
  unfold postVacas insertVaca insertVacaEjecutar
  dsimp only
  rw [Bool.and_assoc, h2, Bool.and_false]
  split_ifs <;> first | contradiction | simp [errorInterno, caravanaDuplicada, soloMensaje, SqlError.code]

theorem putVaca_referencia_rechazada (req : Req) (db : Db)
    (h : (referenciaOk (db.store.rodeos.map (·.id)) req.body.rodeo_id &&
      referenciaOk (db.store.vacas.map (·.id)) req.body.madre_id) = false) :
    (putVaca req db).1.store = db.store ∧ (putVaca req db).2.status ≠ 200 := by
  have h2 : (referenciaOk (db.store.rodeos.map (·.id)) (valoresVaca req.body).rodeo_id &&
      referenciaOk (db.store.vacas.map (·.id)) (valoresVaca req.body).madre_id) = false := h
  unfold putVaca updateVaca updateVacaEjecutar
  dsimp only
  rw [h2]
  split_ifs <;> first | contradiction |
    simp [errorInterno, caravanaDuplicadaOtra, vacaNoEncontrada, soloMensaje, SqlError.code]

theorem postVacas_sin_choque (env : Entorno) (req : Req) (db : Db)
    (hval : (faltaTexto req.body.caravana_interna || faltaTexto req.body.estado_actual ||
      faltaNumero req.body.rodeo_id) = false)
    (hvin : vinculaVaca db req.establecimientoId req.body = true)
    (hany : db.store.vacas.any (chocaCaravana req.establecimientoId
      (valoresVaca req.body).caravana_senasa (valoresVaca req.body).caravana_interna) = false)
    (href : (decide (req.establecimientoId ∈ db.store.establecimientos.map (·.id)) &&
      referenciaOk (db.store.rodeos.map (·.id)) req.body.rodeo_id &&
      referenciaOk ((db.store.vacas ++
          [filaVaca env db req.establecimientoId (valoresVaca req.body)]).map (·.id))
        req.body.madre_id) = true) :
    (postVacas env req db).2.status = 201 ∧
      (postVacas env req db).1.store.vacas =
        db.store.vacas ++ [filaVaca env db req.establecimientoId (valoresVaca req.body)] := by
  have h2 : (decide (req.establecimientoId ∈ db.store.establecimientos.map (·.id)) &&
      referenciaOk (db.store.rodeos.map (·.id)) (valoresVaca req.body).rodeo_id &&
      referenciaOk ((db.store.vacas ++
          [filaVaca env db req.establecimientoId (valoresVaca req.body)]).map (·.id))
        (valoresVaca req.body).madre_id) = true := href
  unfold postVacas insertVaca insertVacaEjecutar
  dsimp only
  rw [hval, hvin, hany, h2]
  simp

theorem putVaca_aceptada (req : Req) (db : Db)
    (hvin : vinculaUpdateVaca req.vacaId req.establecimientoId req.body = true)
    (hfila : (db.store.vacas.filter (esLaVaca req.vacaId req.establecimientoId)).length ≠ 0)
    (hany : ¬ (db.store.vacas.filter (fun w => !esLaVaca req.vacaId req.establecimientoId w)).any
      (chocaCaravana req.establecimientoId (valoresVaca req.body).caravana_senasa
        (valoresVaca req.body).caravana_interna) = true)
    (href : (referenciaOk (db.store.rodeos.map (·.id)) req.body.rodeo_id &&
      referenciaOk (db.store.vacas.map (·.id)) req.body.madre_id) = true) :
    (putVaca req db).2.status = 200 := by
  have h2 : (referenciaOk (db.store.rodeos.map (·.id)) (valoresVaca req.body).rodeo_id &&
      referenciaOk (db.store.vacas.map (·.id)) (valoresVaca req.body).madre_id) = true := href
  unfold putVaca updateVaca updateVacaEjecutar
  dsimp only
  rw [if_pos hvin, if_neg hfila, if_neg hany, if_pos h2]
  cases hf : db.store.vacas.filter (esLaVaca req.vacaId req.establecimientoId) with
  | nil =>
    rw [hf] at hfila
    exact absurd rfl hfila
  | cons v resto => simp

theorem sin_choque_de_libre (db : Db) (e : Int) (s i : Option String)
    (hlibre : ∀ w ∈ db.store.vacas, w.establecimiento_id = e →
      (s = none ∨ w.caravana_senasa ≠ s) ∧ (i = none ∨ w.caravana_interna ≠ i)) :
    db.store.vacas.any (chocaCaravana e s i) = false := by
  cases hany : db.store.vacas.any (chocaCaravana e s i) with
  | false => rfl
  | true =>
    obtain ⟨w, hw, hc⟩ := List.any_eq_true.1 hany
    have hf := (chocaCaravana_eq_false_iff e s i w).2 (hlibre w hw)
    rw [hf] at hc
    cases hc

theorem referencias_de_almacenadas (db : Db) (e : Int) (nueva : Vaca)
    (rodeo madre : Option Int)
    (hest : ∃ x ∈ db.store.establecimientos, x.id = e)
    (hrodeo : rodeo = none ∨ ∃ r ∈ db.store.rodeos, some r.id = rodeo)
    (hmadre : madre = none ∨ ∃ m ∈ db.store.vacas, some m.id = madre) :
    (decide (e ∈ db.store.establecimientos.map (·.id)) &&
      referenciaOk (db.store.rodeos.map (·.id)) rodeo &&
      referenciaOk ((db.store.vacas ++ [nueva]).map (·.id)) madre) = true := by
  obtain ⟨x, hx, hxid⟩ := hest
  have h1 : e ∈ db.store.establecimientos.map (·.id) := List.mem_map.2 ⟨x, hx, hxid⟩
  have h2 : referenciaOk (db.store.rodeos.map (·.id)) rodeo = true := by
    rcases hrodeo with hr | ⟨r, hr, hrid⟩
    · rw [hr]
      rfl
    · rw [← hrid]
      simp only [referenciaOk, decide_eq_true_eq]
      exact List.mem_map.2 ⟨r, hr, rfl⟩
  have h3 : referenciaOk ((db.store.vacas ++ [nueva]).map (·.id)) madre = true := by
    rcases hmadre with hm | ⟨m, hm, hmid⟩
    · rw [hm]
      rfl
    · rw [← hmid]
      simp only [referenciaOk, decide_eq_true_eq]
      exact List.mem_map.2 ⟨m, List.mem_append.2 (Or.inl hm), rfl⟩
  simp only [h1, h2, h3, decide_True, Bool.and_self]

theorem referenciaOk_of_stored {ids : List Int} {r : Option Int}
    (h : r = none ∨ ∃ x ∈ ids, some x = r) : referenciaOk ids r = true := by
  rcases h with h | ⟨x, hx, hxr⟩
  · rw [h]
    rfl
  · rw [← hxr]
    simp only [referenciaOk, decide_eq_true_eq]
    exact hx

/-- **C7, as stated, fails.** From `setupQuery` the application reaches a database
where an animal of establishment 2 has the herd 1 and the mother 1, both of
establishment 1: Beto created it under establishment 2 and was answered 201. -/
theorem vaca_with_foreign_rodeo_and_madre :
    Alcanzable Ejemplo.dbVacaAjena ∧
    (atender Ejemplo.env (.establecimiento .postVacas)
      (Ejemplo.req "t2" 2 0 { Cuerpo.vacio with
        caravana_interna := some "B1", estado_actual := some "Activa", rodeo_id := some 1
        madre_id := some 1 }) Ejemplo.db).2.status = 201 ∧
    ∃ v ∈ Ejemplo.dbVacaAjena.store.vacas, ∃ r ∈ Ejemplo.dbVacaAjena.store.rodeos,
      ∃ m ∈ Ejemplo.dbVacaAjena.store.vacas,
        v.rodeo_id = some r.id ∧ r.establecimiento_id ≠ v.establecimiento_id ∧
        v.madre_id = some m.id ∧ m.establecimiento_id ≠ v.establecimiento_id :=
  ⟨alcanzable_correr _ _ _ (alcanzable_correr _ _ _ Alcanzable.inicial), by decide, by decide⟩

/-- **C7, amended.** In every reachable database each animal's `rodeo_id`, when set,
references a stored herd and its `madre_id`, when set, references a stored animal,
of whichever establishment.  "Create animal" and "update animal" are rejected,
the stored rows unchanged, when the request names a herd that is not stored, or
a mother that is not stored (for "create animal": and is not the row being
inserted).  A "create animal" with its required fields, whose parameters bind,
whose tags no row of the path establishment holds and whose path establishment
is stored, is answered 201 and its row is stored as soon as the herd and the
mother it names are stored, in whichever establishment.  An "update animal" of
a stored row of the path establishment whose parameters bind and whose new tags
no other row of that establishment holds is answered 200 as soon as the herd and
the mother it names are stored, in whichever establishment. -/
theorem vaca_references_stored_rows (db : Db) (h : Alcanzable db) (env : Entorno) (req : Req) :
    (∀ v ∈ db.store.vacas,
      (∀ r, v.rodeo_id = some r → ∃ rodeo ∈ db.store.rodeos, rodeo.id = r) ∧
      (∀ m, v.madre_id = some m → ∃ w ∈ db.store.vacas, w.id = m)) ∧
    (∀ r, req.body.rodeo_id = some r → (¬ ∃ rodeo ∈ db.store.rodeos, rodeo.id = r) →
      ((postVacas env req db).1.store = db.store ∧ (postVacas env req db).2.status ≠ 201) ∧
      ((putVaca req db).1.store = db.store ∧ (putVaca req db).2.status ≠ 200)) ∧
    (∀ m, req.body.madre_id = some m → (¬ ∃ w ∈ db.store.vacas, w.id = m) →
      (m ≠ db.seq.vacas →
        (postVacas env req db).1.store = db.store ∧ (postVacas env req db).2.status ≠ 201) ∧
      ((putVaca req db).1.store = db.store ∧ (putVaca req db).2.status ≠ 200)) ∧
    ((faltaTexto req.body.caravana_interna || faltaTexto req.body.estado_actual ||
        faltaNumero req.body.rodeo_id) = false →
      vinculaVaca db req.establecimientoId req.body = true →
      (∀ w ∈ db.store.vacas, w.establecimiento_id = req.establecimientoId →
        ((valoresVaca req.body).caravana_senasa = none ∨
          w.caravana_senasa ≠ (valoresVaca req.body).caravana_senasa) ∧
        ((valoresVaca req.body).caravana_interna = none ∨
          w.caravana_interna ≠ (valoresVaca req.body).caravana_interna)) →
      (∃ x ∈ db.store.establecimientos, x.id = req.establecimientoId) →
      (req.body.rodeo_id = none ∨ ∃ r ∈ db.store.rodeos, some r.id = req.body.rodeo_id) →
      (req.body.madre_id = none ∨ ∃ m ∈ db.store.vacas, some m.id = req.body.madre_id) →
      (postVacas env req db).2.status = 201 ∧
        (postVacas env req db).1.store.vacas =
          db.store.vacas ++ [filaVaca env db req.establecimientoId (valoresVaca req.body)]) ∧
    ((∃ v ∈ db.store.vacas, v.id = req.vacaId ∧ v.establecimiento_id = req.establecimientoId) →
      vinculaUpdateVaca req.vacaId req.establecimientoId req.body = true →
      (∀ w ∈ db.store.vacas, w.id ≠ req.vacaId → w.establecimiento_id = req.establecimientoId →
        ((valoresVaca req.body).caravana_senasa = none ∨
          w.caravana_senasa ≠ (valoresVaca req.body).caravana_senasa) ∧
        ((valoresVaca req.body).caravana_interna = none ∨
          w.caravana_interna ≠ (valoresVaca req.body).caravana_interna)) →
      (req.body.rodeo_id = none ∨ ∃ r ∈ db.store.rodeos, some r.id = req.body.rodeo_id) →
      (req.body.madre_id = none ∨ ∃ m ∈ db.store.vacas, some m.id = req.body.madre_id) →
      (putVaca req db).2.status = 200) := by
  have hi := h.integro
  refine ⟨?_, ?_, ?_, ?_, ?_⟩
  · intro v hv
    refine ⟨?_, ?_⟩
    · intro r hr
      have h1 := hi.rodeo_ref v hv
      rw [hr] at h1
      simp only [referenciaOk, decide_eq_true_eq] at h1
      obtain ⟨w, hw, hid⟩ := List.mem_map.1 h1
      exact ⟨w, hw, hid⟩
    · intro m hm
      have h1 := hi.madre_ref v hv
      rw [hm] at h1
      simp only [referenciaOk, decide_eq_true_eq] at h1
      obtain ⟨w, hw, hid⟩ := List.mem_map.1 h1
      exact ⟨w, hw, hid⟩
  · intro r hr hno
    have h1 : referenciaOk (db.store.rodeos.map (·.id)) req.body.rodeo_id = false := by
      rw [hr]
      exact referenciaOk_eq_false (not_mem_ids_rodeos hno)
    exact ⟨postVacas_referencia_rechazada env req db (by rw [h1, Bool.false_and]),
      putVaca_referencia_rechazada req db (by rw [h1, Bool.false_and])⟩
  · intro m hm hno
    refine ⟨?_, ?_⟩
    · intro hne
      refine postVacas_referencia_rechazada env req db ?_
      have h1 : referenciaOk
          ((db.store.vacas ++
            [filaVaca env db req.establecimientoId (valoresVaca req.body)]).map (·.id))
          req.body.madre_id = false := by
        rw [hm]
        refine referenciaOk_eq_false ?_
        rw [List.map_append, List.mem_append]
        rintro (h2 | h2)
        · exact not_mem_ids_vacas hno h2
        · simp only [List.map_cons, List.map_nil, List.mem_singleton] at h2
          exact hne h2
      rw [h1, Bool.and_false]
    · refine putVaca_referencia_rechazada req db ?_
      have h1 : referenciaOk (db.store.vacas.map (·.id)) req.body.madre_id = false := by
        rw [hm]
        exact referenciaOk_eq_false (not_mem_ids_vacas hno)
      rw [h1, Bool.and_false]
  · intro hval hvin hlibre hest hrodeo hmadre
    exact postVacas_sin_choque env req db hval hvin
      (sin_choque_de_libre db _ _ _ hlibre)
      (referencias_de_almacenadas db _ _ _ _ hest hrodeo hmadre)
  · rintro ⟨v, hv, hvid, hve⟩ hvin hlibre hrodeo hmadre
    refine putVaca_aceptada req db hvin ?_ ?_ ?_
    · intro h0
      have hmem : v ∈ db.store.vacas.filter (esLaVaca req.vacaId req.establecimientoId) :=
        List.mem_filter.2 ⟨hv, (esLaVaca_eq_true_iff _ _ v).2 ⟨hvid, hve⟩⟩
      rw [List.length_eq_zero] at h0
      rw [h0] at hmem
      cases hmem
    · intro hany
      obtain ⟨w, hw, hc⟩ := List.any_eq_true.1 hany
      obtain ⟨hwm, hwT⟩ := List.mem_filter.1 hw
      have hwe := ((chocaCaravana_eq_true_iff _ _ _ w).1 hc).1
      have hwid : w.id ≠ req.vacaId := by
        intro hid
        rw [(esLaVaca_eq_true_iff _ _ w).2 ⟨hid, hwe⟩] at hwT
        cases hwT
      have hf := (chocaCaravana_eq_false_iff req.establecimientoId
        (valoresVaca req.body).caravana_senasa (valoresVaca req.body).caravana_interna w).2
        (fun _ => hlibre w hwm hwid hwe)
      rw [hf] at hc
      cases hc
    · have h1 : referenciaOk (db.store.rodeos.map (·.id)) req.body.rodeo_id = true := by
        refine referenciaOk_of_stored (hrodeo.imp id ?_)
        rintro ⟨r, hr, hrid⟩
        exact ⟨r.id, List.mem_map.2 ⟨r, hr, rfl⟩, hrid⟩
      have h2 : referenciaOk (db.store.vacas.map (·.id)) req.body.madre_id = true := by
        refine referenciaOk_of_stored (hmadre.imp id ?_)
        rintro ⟨m, hm, hmid⟩
        exact ⟨m.id, List.mem_map.2 ⟨m, hm, rfl⟩, hmid⟩
      rw [h1, h2]
      rfl

/-- Witness of C7 amended: herd 9 is not stored, and creating or updating an animal
that names it is rejected; herd 1 and animal 1 are stored in establishment 1, and
creating under establishment 2 an animal that names them is answered 201. -/
theorem vaca_references_stored_rows_witness :
    Alcanzable Ejemplo.db ∧
    (postVacas Ejemplo.env (Ejemplo.req "t1" 1 1 { Cuerpo.vacio with
        caravana_interna := some "A2", estado_actual := some "Activa", rodeo_id := some 9 })
      Ejemplo.db).2.status ≠ 201 ∧
    (putVaca (Ejemplo.req "t1" 1 1 { Cuerpo.vacio with
        caravana_interna := some "A2", estado_actual := some "Activa", rodeo_id := some 9 })
      Ejemplo.db).1.store = Ejemplo.db.store ∧
    (postVacas Ejemplo.env (Ejemplo.req "t2" 2 0 { Cuerpo.vacio with
        caravana_interna := some "B1", estado_actual := some "Activa", rodeo_id := some 1
        madre_id := some 1 }) Ejemplo.db).2.status = 201 :=
  ⟨alcanzable_correr _ _ _ Alcanzable.inicial,
    (((vaca_references_stored_rows Ejemplo.db (alcanzable_correr _ _ _ Alcanzable.inicial)
      Ejemplo.env (Ejemplo.req "t1" 1 1 { Cuerpo.vacio with
        caravana_interna := some "A2", estado_actual := some "Activa", rodeo_id := some 9 })).2.1
      9 rfl (by decide)).1).2,
    (((vaca_references_stored_rows Ejemplo.db (alcanzable_correr _ _ _ Alcanzable.inicial)
      Ejemplo.env (Ejemplo.req "t1" 1 1 { Cuerpo.vacio with
        caravana_interna := some "A2", estado_actual := some "Activa", rodeo_id := some 9 })).2.1
      9 rfl (by decide)).2).1,
    ((vaca_references_stored_rows Ejemplo.db (alcanzable_correr _ _ _ Alcanzable.inicial)
      Ejemplo.env (Ejemplo.req "t2" 2 0 { Cuerpo.vacio with
        caravana_interna := some "B1", estado_actual := some "Activa", rodeo_id := some 1
        madre_id := some 1 })).2.2.2.1
      (by decide) (by decide) (by decide) (by decide) (by decide) (by decide)).1⟩
/-! ## C9: tag uniqueness -/

theorem sinChoque_symm : Symmetric sinChoque := by
  intro a b hab hest
  have h := hab hest.symm
  refine ⟨?_, ?_⟩
  · rcases h.1 with h1 | h1
    · by_cases hb : b.caravana_senasa = none
      · exact Or.inl hb
      · exact Or.inr (by rw [h1]; exact hb)
    · exact Or.inr (Ne.symm h1)
  · rcases h.2 with h1 | h1
    · by_cases hb : b.caravana_interna = none
      · exact Or.inl hb
      · exact Or.inr (by rw [h1]; exact hb)
    · exact Or.inr (Ne.symm h1)

theorem aVarchar_of_length_le (n : Nat) (s : String) (h : s.length ≤ n) : aVarchar n s = s := by
  unfold aVarchar
  have h2 : s.data.length ≤ n := h
  rw [List.take_of_length_le h2]

theorem postVacas_choque (env : Entorno) (req : Req) (db : Db)
    (hval : (faltaTexto req.body.caravana_interna || faltaTexto req.body.estado_actual ||
      faltaNumero req.body.rodeo_id) = false)
    (hvin : vinculaVaca db req.establecimientoId req.body = true)
    (hany : db.store.vacas.any (chocaCaravana req.establecimientoId
      (valoresVaca req.body).caravana_senasa (valoresVaca req.body).caravana_interna) = true) :
    (postVacas env req db).2 = caravanaDuplicada ∧ (postVacas env req db).1.store = db.store := by
  unfold postVacas insertVaca insertVacaEjecutar
  dsimp only
  rw [hval, hvin, hany]
  simp [SqlError.code]

theorem postVacas_no_vincula (env : Entorno) (req : Req) (db : Db)
    (hval : (faltaTexto req.body.caravana_interna || faltaTexto req.body.estado_actual ||
      faltaNumero req.body.rodeo_id) = false)
    (hvin : vinculaVaca db req.establecimientoId req.body = false) :
    postVacas env req db = (db, errorInterno) := by
  unfold postVacas insertVaca
  dsimp only
  rw [hval, hvin]
  simp [SqlError.code]

theorem putVaca_no_vincula (req : Req) (db : Db)
    (hvin : vinculaUpdateVaca req.vacaId req.establecimientoId req.body = false) :
    putVaca req db = (db, errorInterno) := by
  unfold putVaca updateVaca
  rw [hvin]
  simp [SqlError.code]

theorem putVaca_choque (req : Req) (db : Db)
    (hvin : vinculaUpdateVaca req.vacaId req.establecimientoId req.body = true)
    (hfila : (db.store.vacas.filter (esLaVaca req.vacaId req.establecimientoId)).length ≠ 0)
    (hany : (db.store.vacas.filter (fun w => !esLaVaca req.vacaId req.establecimientoId w)).any
      (chocaCaravana req.establecimientoId (valoresVaca req.body).caravana_senasa
        (valoresVaca req.body).caravana_interna) = true) :
    putVaca req db = (db, caravanaDuplicadaOtra) := by
  unfold putVaca updateVaca updateVacaEjecutar
  dsimp only
  rw [if_pos hvin, if_neg hfila, if_pos hany]
  simp [SqlError.code]

theorem putVaca_status_409 (req : Req) (db : Db) (h409 : (putVaca req db).2.status = 409) :
    (db.store.vacas.filter (fun w => !esLaVaca req.vacaId req.establecimientoId w)).any
      (chocaCaravana req.establecimientoId (valoresVaca req.body).caravana_senasa
        (valoresVaca req.body).caravana_interna) = true := by
  unfold putVaca updateVaca updateVacaEjecutar at h409
  dsimp only at h409
  split_ifs at h409 with hvin h0 hdup href
  · simp [vacaNoEncontrada, soloMensaje] at h409
  · exact hdup
  · revert h409
    cases db.store.vacas.filter (esLaVaca req.vacaId req.establecimientoId) <;>
      simp [vacaNoEncontrada, soloMensaje]
  · simp [SqlError.code, errorInterno, soloMensaje] at h409
  · simp [SqlError.code, errorInterno, soloMensaje] at h409

/-- **C9.** In every reachable database no two rows of `vacas`, active or not, share a
non-null official tag or a non-null internal tag inside one establishment.  The
tags compared are the values bound to the statement, `valoresVaca`, which for
a tag of at most 50 characters is the tag supplied.  A "create animal" that
passes validation, whose parameters bind and whose tag is held by a row of the
path establishment is answered `caravanaDuplicada` (409) and the stored rows are
unchanged; an "update animal" of a stored row whose parameters bind and whose
new tag is held by another row of the path establishment is answered
`caravanaDuplicadaOtra` (409) and the database is unchanged.  A "create animal"
whose parameters bind, whose tags no row of the path establishment holds,
whatever the rows of other establishments hold, and whose references are stored,
is answered 201 and its row is stored.  An "update animal" that resupplies the tags
of the row it updates is never answered 409.  A "create animal" that
passes validation, or an "update animal", with a parameter that does not bind is
answered `errorInterno` (500) and the database is unchanged. -/
theorem caravanas_unicas_por_establecimiento (db : Db) (h : Alcanzable db) (env : Entorno)
    (req : Req) :
    caravanasUnicas db.store.vacas ∧
    (∀ s : String, s.length ≤ 50 → aVarchar 50 s = s) ∧
    ((faltaTexto req.body.caravana_interna || faltaTexto req.body.estado_actual ||
        faltaNumero req.body.rodeo_id) = false →
      vinculaVaca db req.establecimientoId req.body = true →
      (∃ w ∈ db.store.vacas, w.establecimiento_id = req.establecimientoId ∧
        (((valoresVaca req.body).caravana_senasa ≠ none ∧
            w.caravana_senasa = (valoresVaca req.body).caravana_senasa) ∨
          ((valoresVaca req.body).caravana_interna ≠ none ∧
            w.caravana_interna = (valoresVaca req.body).caravana_interna))) →
      (postVacas env req db).2 = caravanaDuplicada ∧ (postVacas env req db).1.store = db.store) ∧
    ((∃ v ∈ db.store.vacas, v.id = req.vacaId ∧ v.establecimiento_id = req.establecimientoId) →
      vinculaUpdateVaca req.vacaId req.establecimientoId req.body = true →
      (∃ w ∈ db.store.vacas, w.id ≠ req.vacaId ∧ w.establecimiento_id = req.establecimientoId ∧
        (((valoresVaca req.body).caravana_senasa ≠ none ∧
            w.caravana_senasa = (valoresVaca req.body).caravana_senasa) ∨
          ((valoresVaca req.body).caravana_interna ≠ none ∧
            w.caravana_interna = (valoresVaca req.body).caravana_interna))) →
      putVaca req db = (db, caravanaDuplicadaOtra)) ∧
    (caravanaDuplicada.status = 409 ∧ caravanaDuplicadaOtra.status = 409) ∧
    ((faltaTexto req.body.caravana_interna || faltaTexto req.body.estado_actual ||
        faltaNumero req.body.rodeo_id) = false →
      vinculaVaca db req.establecimientoId req.body = true →
      (∀ w ∈ db.store.vacas, w.establecimiento_id = req.establecimientoId →
        ((valoresVaca req.body).caravana_senasa = none ∨
          w.caravana_senasa ≠ (valoresVaca req.body).caravana_senasa) ∧
        ((valoresVaca req.body).caravana_interna = none ∨
          w.caravana_interna ≠ (valoresVaca req.body).caravana_interna)) →
      (∃ e ∈ db.store.establecimientos, e.id = req.establecimientoId) →
      (∃ r ∈ db.store.rodeos, some r.id = req.body.rodeo_id) →
      (req.body.madre_id = none ∨ ∃ m ∈ db.store.vacas, some m.id = req.body.madre_id) →
      (postVacas env req db).2.status = 201 ∧
        (postVacas env req db).1.store.vacas =
          db.store.vacas ++ [filaVaca env db req.establecimientoId (valoresVaca req.body)]) ∧
    (∀ v ∈ db.store.vacas, v.id = req.vacaId → v.establecimiento_id = req.establecimientoId →
      req.body.caravana_senasa = v.caravana_senasa →
      req.body.caravana_interna = v.caravana_interna → (putVaca req db).2.status ≠ 409) ∧
    ((faltaTexto req.body.caravana_interna || faltaTexto req.body.estado_actual ||
        faltaNumero req.body.rodeo_id) = false →
      vinculaVaca db req.establecimientoId req.body = false →
      postVacas env req db = (db, errorInterno)) ∧
    (vinculaUpdateVaca req.vacaId req.establecimientoId req.body = false →
      putVaca req db = (db, errorInterno)) ∧
    errorInterno.status = 500 := by
  have hi := h.integro
  refine ⟨hi.caravanas, fun s hs => aVarchar_of_length_le 50 s hs, ?_, ?_, ⟨rfl, rfl⟩, ?_, ?_,
    postVacas_no_vincula env req db, putVaca_no_vincula req db, rfl⟩
  · rintro hval hvin ⟨w, hw, hwc⟩
    exact postVacas_choque env req db hval hvin
      (List.any_eq_true.2 ⟨w, hw, (chocaCaravana_eq_true_iff _ _ _ w).2 hwc⟩)
  · rintro ⟨v, hv, hvid, hve⟩ hvin ⟨w, hw, hwid, hwc⟩
    refine putVaca_choque req db hvin ?_ ?_
    · intro h0
      have hmem : v ∈ db.store.vacas.filter (esLaVaca req.vacaId req.establecimientoId) :=
        List.mem_filter.2 ⟨hv, (esLaVaca_eq_true_iff _ _ v).2 ⟨hvid, hve⟩⟩
      rw [List.length_eq_zero] at h0
      rw [h0] at hmem
      cases hmem
    · refine List.any_eq_true.2 ⟨w, List.mem_filter.2 ⟨hw, ?_⟩,
        (chocaCaravana_eq_true_iff _ _ _ w).2 hwc⟩
      cases hT : esLaVaca req.vacaId req.establecimientoId w with
      | false => rfl
      | true => exact absurd ((esLaVaca_eq_true_iff _ _ w).1 hT).1 hwid
  · intro hval hvin hlibre hest hrodeo hmadre
    exact postVacas_sin_choque env req db hval hvin (sin_choque_de_libre db _ _ _ hlibre)
      (referencias_de_almacenadas db _ _ _ _ hest (Or.inr hrodeo) hmadre)
  · intro v hv hvid hve hs0 hin0 h409
    have hs : (valoresVaca req.body).caravana_senasa = v.caravana_senasa := by
      show req.body.caravana_senasa.map (aVarchar 50) = v.caravana_senasa
      rw [hs0]
      exact (hi.columnas v hv).2.2.1
    have hin : (valoresVaca req.body).caravana_interna = v.caravana_interna := by
      show req.body.caravana_interna.map (aVarchar 50) = v.caravana_interna
      rw [hin0]
      exact (hi.columnas v hv).2.2.2
    obtain ⟨w, hw, hc⟩ := List.any_eq_true.1 (putVaca_status_409 req db h409)
    obtain ⟨hwm, hwT⟩ := List.mem_filter.1 hw
    have hne : v ≠ w := by
      intro hvw
      subst hvw
      rw [(esLaVaca_eq_true_iff _ _ v).2 ⟨hvid, hve⟩] at hwT
      cases hwT
    have hsc := List.Pairwise.forall sinChoque_symm hi.caravanas hwm hv (Ne.symm hne)
    obtain ⟨hwe, hcol⟩ := (chocaCaravana_eq_true_iff _ _ _ w).1 hc
    have hsc2 := hsc (hwe.trans hve.symm)
    rw [hs, hin] at hcol
    rcases hcol with ⟨hnn, heq⟩ | ⟨hnn, heq⟩
    · rcases hsc2.1 with h1 | h1
      · exact hnn (heq ▸ h1)
      · exact h1 heq
    · rcases hsc2.2 with h1 | h1
      · exact hnn (heq ▸ h1)
      · exact h1 heq

/-- Witness of C9: in establishment 1 the tag A1 is taken, so creating a second A1
there is answered 409; Beto creates A1 in establishment 2 and is answered 201; a
tag of 51 letters does not bind and is answered 500. -/
theorem caravanas_unicas_por_establecimiento_witness :
    Alcanzable Ejemplo.db ∧
    (postVacas Ejemplo.env (Ejemplo.req "t1" 1 0 (Ejemplo.cuerpoVaca "A1")) Ejemplo.db).2 =
      caravanaDuplicada ∧
    (postVacas Ejemplo.env (Ejemplo.req "t2" 2 0 (Ejemplo.cuerpoVaca "A1")) Ejemplo.db).2.status =
      201 ∧
    postVacas Ejemplo.env (Ejemplo.req "t1" 1 0
        (Ejemplo.cuerpoVaca "123456789012345678901234567890123456789012345678901")) Ejemplo.db =
      (Ejemplo.db, errorInterno) :=
  ⟨alcanzable_correr _ _ _ Alcanzable.inicial,
    ((caravanas_unicas_por_establecimiento Ejemplo.db (alcanzable_correr _ _ _ Alcanzable.inicial)
      Ejemplo.env (Ejemplo.req "t1" 1 0 (Ejemplo.cuerpoVaca "A1"))).2.2.1 (by decide)
      (by decide) (by decide)).1,
    ((caravanas_unicas_por_establecimiento Ejemplo.db (alcanzable_correr _ _ _ Alcanzable.inicial)
      Ejemplo.env (Ejemplo.req "t2" 2 0 (Ejemplo.cuerpoVaca "A1"))).2.2.2.2.2.1 (by decide)
      (by decide) (by decide) (by decide) (by decide) (by decide)).1,
    (caravanas_unicas_por_establecimiento Ejemplo.db (alcanzable_correr _ _ _ Alcanzable.inicial)
      Ejemplo.env (Ejemplo.req "t1" 1 0
        (Ejemplo.cuerpoVaca "123456789012345678901234567890123456789012345678901"))).2.2.2.2.2.2.2.1
      (by decide) (by decide)⟩
/-! ## C10: one production record per animal and date -/

/-- **C10, the code at the failing input.** Animal 1 has a production record for day
990.  A second record for the same animal and day violates
`UNIQUE (vaca_id, fecha_registro)` and is answered `errorInterno`, the very
answer given when the animal is not stored (a foreign-key violation), status 500:
no duplicate outcome of its own.  The stored rows are unchanged.  "Create animal"
answers its own unique violation with a 409. -/
theorem postProduccion_duplicate_is_errorInterno :
    (∃ r ∈ Ejemplo.dbProduccion.store.registros_produccion,
      r.vaca_id = 1 ∧ r.fecha_registro = 990) ∧
    atender Ejemplo.env (.establecimiento .postProduccion)
        (Ejemplo.req "t1" 1 1 { Cuerpo.vacio with
          fecha_registro := some 990, litros_dia := some 3000 }) Ejemplo.dbProduccion =
      (⟨Ejemplo.dbProduccion.store,
        { Ejemplo.dbProduccion.seq with registros_produccion := 3 }⟩, errorInterno) ∧
    (atender Ejemplo.env (.establecimiento .postProduccion)
        (Ejemplo.req "t1" 1 77 { Cuerpo.vacio with
          fecha_registro := some 990, litros_dia := some 3000 }) Ejemplo.dbProduccion).2 =
      errorInterno ∧
    errorInterno.status = 500 ∧
    (atender Ejemplo.env (.establecimiento .postVacas)
        (Ejemplo.req "t1" 1 0 (Ejemplo.cuerpoVaca "A1")) Ejemplo.dbProduccion).2.status = 409 := by
  refine ⟨by decide, by decide, by decide, rfl, by decide⟩

/-! ## C8: scoping by the establishment of the path -/

theorem cotaTabla_refl {α : Type} (est : α → Int) (e : Int) (t : List α) : cotaTabla est e t t :=
  ⟨fun _ hr => Or.inl hr, fun _ hr => Or.inl hr⟩

theorem cotaTabla_append {α : Type} (est : α → Int) (e : Int) (t : List α) (x : α)
    (hx : est x = e) : cotaTabla est e t (t ++ [x]) := by
  refine ⟨?_, fun r hr => Or.inl (List.mem_append.2 (Or.inl hr))⟩
  intro r hr
  rcases List.mem_append.1 hr with h1 | h1
  · exact Or.inl h1
  · rw [List.mem_singleton] at h1
    subst h1
    exact Or.inr hx

theorem cotaTabla_map {α : Type} (est : α → Int) (e : Int) (t : List α) (p : α → Bool)
    (g : α → α) (hp : ∀ r, p r = true → est r = e) (hg : ∀ r, est (g r) = est r) :
    cotaTabla est e t (t.map (fun r => if p r then g r else r)) := by
  refine ⟨?_, ?_⟩
  · intro r hr
    obtain ⟨u, hu, rfl⟩ := List.mem_map.1 hr
    by_cases hpu : p u = true
    · rw [if_pos hpu]
      exact Or.inr ((hg u).trans (hp u hpu))
    · rw [if_neg hpu]
      exact Or.inl hu
  · intro r hr
    by_cases hpr : p r = true
    · exact Or.inr (hp r hpr)
    · refine Or.inl (List.mem_map.2 ⟨r, hr, ?_⟩)
      rw [if_neg hpr]

theorem Acotado.refl (e : Int) (s : Store) : Acotado e s s :=
  ⟨cotaTabla_refl _ _ _, cotaTabla_refl _ _ _, cotaTabla_refl _ _ _, cotaTabla_refl _ _ _,
    cotaTabla_refl _ _ _, cotaTabla_refl _ _ _, cotaTabla_refl _ _ _⟩

theorem Acotado.mas_rodeo (e : Int) (s : Store) (x : Rodeo) (hx : x.establecimiento_id = e) :
    Acotado e s { s with rodeos := s.rodeos ++ [x] } :=
  ⟨cotaTabla_append _ _ _ _ hx, cotaTabla_refl _ _ _, cotaTabla_refl _ _ _, cotaTabla_refl _ _ _,
    cotaTabla_refl _ _ _, cotaTabla_refl _ _ _, cotaTabla_refl _ _ _⟩

theorem Acotado.mas_vaca (e : Int) (s : Store) (x : Vaca) (hx : x.establecimiento_id = e) :
    Acotado e s { s with vacas := s.vacas ++ [x] } :=
  ⟨cotaTabla_refl _ _ _, cotaTabla_append _ _ _ _ hx, cotaTabla_refl _ _ _, cotaTabla_refl _ _ _,
    cotaTabla_refl _ _ _, cotaTabla_refl _ _ _, cotaTabla_refl _ _ _⟩

theorem Acotado.mas_produccion (e : Int) (s : Store) (x : RegistroProduccion)
    (hx : x.establecimiento_id = e) :
    Acotado e s { s with registros_produccion := s.registros_produccion ++ [x] } :=
  ⟨cotaTabla_refl _ _ _, cotaTabla_refl _ _ _, cotaTabla_refl _ _ _, cotaTabla_append _ _ _ _ hx,
    cotaTabla_refl _ _ _, cotaTabla_refl _ _ _, cotaTabla_refl _ _ _⟩

theorem Acotado.mas_salud (e : Int) (s : Store) (x : RegistroSalud)
    (hx : x.establecimiento_id = e) :
    Acotado e s { s with registros_salud := s.registros_salud ++ [x] } :=
  ⟨cotaTabla_refl _ _ _, cotaTabla_refl _ _ _, cotaTabla_refl _ _ _, cotaTabla_refl _ _ _,
    cotaTabla_append _ _ _ _ hx, cotaTabla_refl _ _ _, cotaTabla_refl _ _ _⟩

theorem Acotado.mas_reproduccion (e : Int) (s : Store) (x : RegistroReproduccion)
    (hx : x.establecimiento_id = e) :
    Acotado e s { s with registros_reproduccion := s.registros_reproduccion ++ [x] } :=
  ⟨cotaTabla_refl _ _ _, cotaTabla_refl _ _ _, cotaTabla_refl _ _ _, cotaTabla_refl _ _ _,
    cotaTabla_refl _ _ _, cotaTabla_append _ _ _ _ hx, cotaTabla_refl _ _ _⟩

theorem Acotado.mas_foto (e : Int) (s : Store) (x : FotoVaca) (hx : x.establecimiento_id = e) :
    Acotado e s { s with fotos_vacas := s.fotos_vacas ++ [x] } :=
  ⟨cotaTabla_refl _ _ _, cotaTabla_refl _ _ _, cotaTabla_refl _ _ _, cotaTabla_refl _ _ _,
    cotaTabla_refl _ _ _, cotaTabla_refl _ _ _, cotaTabla_append _ _ _ _ hx⟩

theorem Acotado.vacas_map (v e : Int) (s : Store) (g : Vaca → Vaca)
    (hg : ∀ r, (g r).establecimiento_id = r.establecimiento_id) :
    Acotado e s { s with vacas := s.vacas.map (fun r => if esLaVaca v e r then g r else r) } :=
  ⟨cotaTabla_refl _ _ _,
    cotaTabla_map _ _ _ _ _ (fun r hr => ((esLaVaca_eq_true_iff v e r).1 hr).2) hg,
    cotaTabla_refl _ _ _, cotaTabla_refl _ _ _, cotaTabla_refl _ _ _, cotaTabla_refl _ _ _,
    cotaTabla_refl _ _ _⟩

theorem Acotado.de_updateVaca {db db1 : Db} {rows : List Vaca} {v e : Int} {b : Cuerpo}
    (hu : updateVaca db v e b = .ok (db1, rows)) :
    Acotado e db.store db1.store ∧ ∀ r ∈ rows, r.establecimiento_id = e := by
  unfold Agromex.updateVaca Agromex.updateVacaEjecutar at hu
  dsimp only at hu
  split_ifs at hu with hvin h0 hdup href
  · injection hu with hu
    injection hu with hu1 hu2
    subst hu1 hu2
    exact ⟨Acotado.refl _ _, fun r hr => by cases hr⟩
  · injection hu with hu
    injection hu with hu1 hu2
    subst hu1 hu2
    refine ⟨Acotado.vacas_map v e db.store (setVaca (valoresVaca b)) (fun _ => rfl), ?_⟩
    intro r hr
    obtain ⟨u, hu, rfl⟩ := List.mem_map.1 hr
    exact ((esLaVaca_eq_true_iff v e u).1 (List.mem_filter.1 hu).2).2

theorem Acotado.de_handler (env : Entorno) (ruta : RutaEstablecimiento) (req : Req) (db : Db) :
    Acotado req.establecimientoId db.store (ruta.handler env req db).1.store := by
  cases ruta
  case postRodeos =>
    show Acotado _ _ (postRodeos env req db).1.store
    unfold postRodeos insertRodeo insertRodeoEjecutar
    dsimp only
    split_ifs <;> first | exact Acotado.refl _ _ | exact Acotado.mas_rodeo _ _ _ rfl
  case getRodeos =>
    show Acotado _ _ (getRodeos req db).1.store
    rw [getRodeos_db]
    exact Acotado.refl _ _
  case postVacas =>
    show Acotado _ _ (postVacas env req db).1.store
    unfold postVacas insertVaca insertVacaEjecutar
    dsimp only
    split_ifs <;> first | exact Acotado.refl _ _ | exact Acotado.mas_vaca _ _ _ rfl
  case getVacas =>
    show Acotado _ _ (getVacas req db).1.store
    rw [getVacas_db]
    exact Acotado.refl _ _
  case getVaca =>
    show Acotado _ _ (getVaca req db).1.store
    rw [getVaca_db]
    exact Acotado.refl _ _
  case putVaca =>
    show Acotado _ _ (putVaca req db).1.store
    unfold putVaca
    split
    · rename_i heq
      exact (Acotado.de_updateVaca heq).1
    · rename_i heq
      exact (Acotado.de_updateVaca heq).1
    · split_ifs <;> exact Acotado.refl _ _
  case deleteVaca =>
    show Acotado _ _ (deleteVaca req db).1.store
    have h1 : Acotado req.establecimientoId db.store
        (deleteVacaQueryEjecutar db req.vacaId req.establecimientoId).1.store :=
      Acotado.vacas_map req.vacaId req.establecimientoId db.store
        (fun w => { w with activa := some false }) (fun _ => rfl)
    unfold deleteVaca deleteVacaQuery
    split_ifs
    · cases hq : deleteVacaQueryEjecutar db req.vacaId req.establecimientoId with
      | mk db1 rows =>
        rw [hq] at h1
        cases rows <;> exact h1
    · exact Acotado.refl _ _
  case postSalud =>
    show Acotado _ _ (postSalud req db).1.store
    unfold postSalud insertSalud insertSaludEjecutar
    dsimp only
    split_ifs <;> first | exact Acotado.refl _ _ | exact Acotado.mas_salud _ _ _ rfl
  case getSalud =>
    show Acotado _ _ (getSalud req db).1.store
    rw [getSalud_db]
    exact Acotado.refl _ _
  case postReproduccion =>
    show Acotado _ _ (postReproduccion req db).1.store
    unfold postReproduccion insertReproduccion insertReproduccionEjecutar
    dsimp only
    split_ifs <;> first | exact Acotado.refl _ _ | exact Acotado.mas_reproduccion _ _ _ rfl
  case getReproduccion =>
    show Acotado _ _ (getReproduccion req db).1.store
    rw [getReproduccion_db]
    exact Acotado.refl _ _
  case postProduccion =>
    show Acotado _ _ (postProduccion req db).1.store
    unfold postProduccion insertProduccion insertProduccionEjecutar
    dsimp only
    split_ifs <;> first | exact Acotado.refl _ _ | exact Acotado.mas_produccion _ _ _ rfl
  case getProduccion =>
    show Acotado _ _ (getProduccion req db).1.store
    rw [getProduccion_db]
    exact Acotado.refl _ _
  case postFotos =>
    show Acotado _ _ (postFotos env req db).1.store
    unfold postFotos insertFoto insertFotoEjecutar
    dsimp only
    cases req.file with
    | none => exact Acotado.refl _ _
    | some f =>
      dsimp only
      split_ifs <;> first | exact Acotado.refl _ _ | exact Acotado.mas_foto _ _ _ rfl
  case getFotos =>
    show Acotado _ _ (getFotos req db).1.store
    rw [getFotos_db]
    exact Acotado.refl _ _
  case getAlertas =>
    show Acotado _ _ (getAlertas env req db).1.store
    rw [getAlertas_db]
    exact Acotado.refl _ _

theorem mem_filas (s : Store) (f : Fila) :
    f ∈ s.filas ↔
      match f with
      | .rodeo r => r ∈ s.rodeos
      | .vaca r => r ∈ s.vacas
      | .movimiento r => r ∈ s.historial_movimientos
      | .produccion r => r ∈ s.registros_produccion
      | .salud r => r ∈ s.registros_salud
      | .reproduccion r => r ∈ s.registros_reproduccion
      | .foto r => r ∈ s.fotos_vacas := by
  cases f <;> simp [Store.filas]

theorem Acotado.filas {e : Int} {s s2 : Store} (h : Acotado e s s2) :
    (∀ f ∈ s2.filas, f ∈ s.filas ∨ f.establecimiento_id = e) ∧
    (∀ f ∈ s.filas, f ∈ s2.filas ∨ f.establecimiento_id = e) := by
  refine ⟨?_, ?_⟩
  · intro f hf
    rw [mem_filas] at hf ⊢
    cases f with
    | rodeo r => exact h.rodeos.1 r hf
    | vaca r => exact h.vacas.1 r hf
    | movimiento r => exact h.movimientos.1 r hf
    | produccion r => exact h.produccion.1 r hf
    | salud r => exact h.salud.1 r hf
    | reproduccion r => exact h.reproduccion.1 r hf
    | foto r => exact h.fotos.1 r hf
  · intro f hf
    rw [mem_filas] at hf ⊢
    cases f with
    | rodeo r => exact h.rodeos.2 r hf
    | vaca r => exact h.vacas.2 r hf
    | movimiento r => exact h.movimientos.2 r hf
    | produccion r => exact h.produccion.2 r hf
    | salud r => exact h.salud.2 r hf
    | reproduccion r => exact h.reproduccion.2 r hf
    | foto r => exact h.fotos.2 r hf

theorem handler_datos_filas (env : Entorno) (ruta : RutaEstablecimiento) (req : Req) (db : Db) :
    ∀ f ∈ (ruta.handler env req db).2.datos.filas,
      f.establecimiento_id = req.establecimientoId := by
  cases ruta
  case postRodeos =>
    show ∀ f ∈ (postRodeos env req db).2.datos.filas, _
    unfold postRodeos insertRodeo insertRodeoEjecutar
    dsimp only
    split_ifs <;> simp [Datos.filas, soloMensaje, errorInterno, Fila.establecimiento_id]
  case getRodeos =>
    show ∀ f ∈ (getRodeos req db).2.datos.filas, _
    unfold getRodeos
    split_ifs
    · intro f hf
      obtain ⟨r, hr, rfl⟩ := List.mem_map.1 hf
      have h1 := (List.mem_filter.1 ((List.mem_insertionSort _).1 hr)).2
      simpa using h1
    · simp [Datos.filas, errorInterno, soloMensaje]
  case postVacas =>
    show ∀ f ∈ (postVacas env req db).2.datos.filas, _
    unfold postVacas insertVaca insertVacaEjecutar
    dsimp only
    split_ifs <;>
      simp [Datos.filas, soloMensaje, errorInterno, caravanaDuplicada, Fila.establecimiento_id,
        filaVaca, SqlError.code]
  case getVacas =>
    show ∀ f ∈ (getVacas req db).2.datos.filas, _
    unfold getVacas
    split_ifs
    · intro f hf
      obtain ⟨r, hr, rfl⟩ := List.mem_map.1 hf
      have h1 := (List.mem_filter.1 ((List.mem_insertionSort _).1 hr)).2
      simp only [Bool.and_eq_true, decide_eq_true_eq] at h1
      exact h1.1
    · simp [Datos.filas, errorInterno, soloMensaje]
  case getVaca =>
    show ∀ f ∈ (getVaca req db).2.datos.filas, _
    unfold getVaca
    split_ifs
    · split
      · simp [Datos.filas, soloMensaje]
      · rename_i v resto heq
        have hv : v ∈ db.store.vacas.filter (esLaVaca req.vacaId req.establecimientoId) := by
          rw [heq]
          exact List.mem_cons_self _ _
        intro f hf
        simp only [Datos.filas, List.mem_singleton] at hf
        subst hf
        exact ((esLaVaca_eq_true_iff _ _ v).1 (List.mem_filter.1 hv).2).2
    · simp [Datos.filas, errorInterno, soloMensaje]
  case putVaca =>
    show ∀ f ∈ (putVaca req db).2.datos.filas, _
    unfold putVaca
    split
    · simp [Datos.filas, vacaNoEncontrada, soloMensaje]
    · rename_i db1 v resto heq
      intro f hf
      simp only [Datos.filas, List.mem_singleton] at hf
      subst hf
      exact (Acotado.de_updateVaca heq).2 v (List.mem_cons_self _ _)
    · split_ifs <;> simp [Datos.filas, caravanaDuplicadaOtra, errorInterno, soloMensaje]
  case deleteVaca =>
    show ∀ f ∈ (deleteVaca req db).2.datos.filas, _
    unfold deleteVaca
    split <;> simp [Datos.filas, vacaNoEncontrada, errorInterno, soloMensaje]
  case postSalud =>
    show ∀ f ∈ (postSalud req db).2.datos.filas, _
    unfold postSalud insertSalud insertSaludEjecutar
    dsimp only
    split_ifs <;> simp [Datos.filas, soloMensaje, errorInterno, Fila.establecimiento_id]
  case getSalud =>
    show ∀ f ∈ (getSalud req db).2.datos.filas, _
    unfold getSalud
    split_ifs
    · intro f hf
      obtain ⟨r, hr, rfl⟩ := List.mem_map.1 hf
      have h1 := (List.mem_filter.1 ((List.mem_insertionSort _).1 hr)).2
      simp only [Bool.and_eq_true, decide_eq_true_eq] at h1
      exact h1.2
    · simp [Datos.filas, errorInterno, soloMensaje]
  case postReproduccion =>
    show ∀ f ∈ (postReproduccion req db).2.datos.filas, _
    unfold postReproduccion insertReproduccion insertReproduccionEjecutar
    dsimp only
    split_ifs <;> simp [Datos.filas, soloMensaje, errorInterno, Fila.establecimiento_id]
  case getReproduccion =>
    show ∀ f ∈ (getReproduccion req db).2.datos.filas, _
    unfold getReproduccion
    split_ifs
    · intro f hf
      obtain ⟨r, hr, rfl⟩ := List.mem_map.1 hf
      have h1 := (List.mem_filter.1 ((List.mem_insertionSort _).1 hr)).2
      simp only [Bool.and_eq_true, decide_eq_true_eq] at h1
      exact h1.2
    · simp [Datos.filas, errorInterno, soloMensaje]
  case postProduccion =>
    show ∀ f ∈ (postProduccion req db).2.datos.filas, _
    unfold postProduccion insertProduccion insertProduccionEjecutar
    dsimp only
    split_ifs <;> simp [Datos.filas, soloMensaje, errorInterno, Fila.establecimiento_id]
  case getProduccion =>
    show ∀ f ∈ (getProduccion req db).2.datos.filas, _
    unfold getProduccion
    split_ifs
    · intro f hf
      obtain ⟨r, hr, rfl⟩ := List.mem_map.1 hf
      have h1 := (List.mem_filter.1 ((List.mem_insertionSort _).1 hr)).2
      simp only [Bool.and_eq_true, decide_eq_true_eq] at h1
      exact h1.2
    · simp [Datos.filas, errorInterno, soloMensaje]
  case postFotos =>
    show ∀ f ∈ (postFotos env req db).2.datos.filas, _
    unfold postFotos insertFoto insertFotoEjecutar
    dsimp only
    cases req.file with
    | none => simp [Datos.filas, soloMensaje]
    | some f =>
      dsimp only
      split_ifs <;> simp [Datos.filas, soloMensaje, Fila.establecimiento_id]
  case getFotos =>
    show ∀ f ∈ (getFotos req db).2.datos.filas, _
    unfold getFotos
    split_ifs
    · intro f hf
      obtain ⟨r, hr, rfl⟩ := List.mem_map.1 hf
      have h1 := (List.mem_filter.1 ((List.mem_insertionSort _).1 hr)).2
      simp only [Bool.and_eq_true, decide_eq_true_eq] at h1
      exact h1.2
    · simp [Datos.filas, errorInterno, soloMensaje]
  case getAlertas =>
    show ∀ f ∈ (getAlertas env req db).2.datos.filas, _
    unfold getAlertas
    dsimp only
    split_ifs
    · split <;> simp [Datos.filas, errorInterno, soloMensaje]
    · simp [Datos.filas, errorInterno, soloMensaje]

theorem filtro_de_establecimiento {α : Type} (est : α → Int) (e : Int) (p : α → Bool)
    (t t2 : List α)
    (h : t.filter (fun r => decide (est r = e)) = t2.filter (fun r => decide (est r = e))) :
    t.filter (fun r => p r && decide (est r = e)) =
      t2.filter (fun r => p r && decide (est r = e)) := by
  rw [← List.filter_filter, ← List.filter_filter, h]

theorem filtro_de_establecimiento_izq {α : Type} (est : α → Int) (e : Int) (p : α → Bool)
    (t t2 : List α)
    (h : t.filter (fun r => decide (est r = e)) = t2.filter (fun r => decide (est r = e))) :
    t.filter (fun r => decide (est r = e) && p r) =
      t2.filter (fun r => decide (est r = e) && p r) := by
  have hc : (fun r => decide (est r = e) && p r) = (fun r => p r && decide (est r = e)) := by
    funext r
    exact Bool.and_comm _ _
  rw [hc]
  exact filtro_de_establecimiento est e p t t2 h

theorem filtro_esLaVaca (v e : Int) (t t2 : List Vaca)
    (h : t.filter (fun r => decide (r.establecimiento_id = e)) =
      t2.filter (fun r => decide (r.establecimiento_id = e))) :
    t.filter (esLaVaca v e) = t2.filter (esLaVaca v e) :=
  filtro_de_establecimiento (fun r : Vaca => r.establecimiento_id) e
    (fun r => decide (r.id = v)) t t2 h

/-- The seven read handlers with `WHERE establecimiento_id = $n`, and the response of
"delete animal", are the same on two databases that hold the same rows of the
path establishment. -/
theorem lecturas_solo_filas_del_establecimiento (req : Req) (db db2 : Db)
    (h : mismasFilasDe req.establecimientoId db.store db2.store) :
    (getRodeos req db).2 = (getRodeos req db2).2 ∧
    (getVacas req db).2 = (getVacas req db2).2 ∧
    (getVaca req db).2 = (getVaca req db2).2 ∧
    (getSalud req db).2 = (getSalud req db2).2 ∧
    (getReproduccion req db).2 = (getReproduccion req db2).2 ∧
    (getProduccion req db).2 = (getProduccion req db2).2 ∧
    (getFotos req db).2 = (getFotos req db2).2 ∧
    (deleteVaca req db).2 = (deleteVaca req db2).2 := by
  obtain ⟨hr, hv, _, hp, hs, hre, hf⟩ := h
  refine ⟨?_, ?_, ?_, ?_, ?_, ?_, ?_, ?_⟩
  · unfold getRodeos
    rw [hr]
    split_ifs <;> rfl
  · unfold getVacas
    rw [filtro_de_establecimiento_izq (fun r : Vaca => r.establecimiento_id)
      req.establecimientoId (fun r => decide (r.activa = some true)) _ _ hv]
    split_ifs <;> rfl
  · unfold getVaca
    rw [filtro_esLaVaca req.vacaId req.establecimientoId _ _ hv]
    split_ifs
    · cases db2.store.vacas.filter (esLaVaca req.vacaId req.establecimientoId) <;> rfl
    · rfl
  · unfold getSalud
    rw [filtro_de_establecimiento (fun r : RegistroSalud => r.establecimiento_id)
      req.establecimientoId (fun r => decide (r.vaca_id = req.vacaId)) _ _ hs]
    split_ifs <;> rfl
  · unfold getReproduccion
    rw [filtro_de_establecimiento (fun r : RegistroReproduccion => r.establecimiento_id)
      req.establecimientoId (fun r => decide (r.vaca_id = req.vacaId)) _ _ hre]
    split_ifs <;> rfl
  · unfold getProduccion
    rw [filtro_de_establecimiento (fun r : RegistroProduccion => r.establecimiento_id)
      req.establecimientoId (fun r => decide (r.vaca_id = req.vacaId)) _ _ hp]
    split_ifs <;> rfl
  · unfold getFotos
    rw [filtro_de_establecimiento (fun r : FotoVaca => r.establecimiento_id)
      req.establecimientoId (fun r => decide (r.vaca_id = req.vacaId)) _ _ hf]
    split_ifs <;> rfl
  · unfold deleteVaca deleteVacaQuery deleteVacaQueryEjecutar
    dsimp only
    rw [filtro_esLaVaca req.vacaId req.establecimientoId _ _ hv]
    split_ifs
    · cases db2.store.vacas.filter (esLaVaca req.vacaId req.establecimientoId) <;> rfl
    · rfl

theorem prenadasQuery_vaca (db : Db) (e : Int) :
    ∀ fila ∈ prenadasQuery db e,
      ∃ v ∈ db.store.vacas, v.id = fila.id ∧ v.establecimiento_id = e := by
  intro fila hf
  unfold prenadasQuery at hf
  rw [List.mem_insertionSort, List.mem_flatten] at hf
  obtain ⟨l, hl, hfl⟩ := hf
  obtain ⟨v, hv, rfl⟩ := List.mem_map.1 hl
  obtain ⟨r, _, rfl⟩ := List.mem_map.1 hfl
  obtain ⟨hvm, hvp⟩ := List.mem_filter.1 hv
  simp only [Bool.and_eq_true, decide_eq_true_eq] at hvp
  exact ⟨v, hvm, rfl, hvp.1⟩

theorem handler_ignora_establecimiento_del_cuerpo (env : Entorno) (ruta : RutaEstablecimiento)
    (req : Req) (db : Db) (x : Option Int) :
    ruta.handler env { req with body := { req.body with establecimiento_id := x } } db =
      ruta.handler env req db := by
  cases ruta <;> rfl

/-- **C8, as stated, fails.** Two reachable databases hold the same rows of
establishment 1, table by table: in both, animal 1 of establishment 1 carries the
reproductive status that the alert query names.  The second holds one more
reproduction row, of the event type that the alert query names and stamped with
establishment 2 (Beto appended it under the path of establishment 2 for animal 1).
Ana's alerts request for establishment 1 is answered 200 with the empty list on the
first and 500 on the second: the response is derived from a row whose
`establecimiento_id` is not the one of the path. -/
theorem getAlertas_reads_foreign_row :
    Alcanzable Ejemplo.dbConsulta ∧ Alcanzable (Ejemplo.dbConsultaEventoAjeno 765) ∧
    mismasFilasDe 1 Ejemplo.dbConsulta.store (Ejemplo.dbConsultaEventoAjeno 765).store ∧
    (Ejemplo.dbConsultaEventoAjeno 765).store.registros_reproduccion =
      [⟨1, 1, 2, 765, none, tipoDeLaConsulta, none, none, none⟩] ∧
    (atender Ejemplo.env (.establecimiento .getAlertas) (Ejemplo.req "t1" 1 0 Cuerpo.vacio)
      Ejemplo.dbConsulta).2 = ⟨200, none, .alertas []⟩ ∧
    (atender Ejemplo.env (.establecimiento .getAlertas) (Ejemplo.req "t1" 1 0 Cuerpo.vacio)
      (Ejemplo.dbConsultaEventoAjeno 765)).2 = errorInterno :=
  ⟨alcanzable_correr _ _ _ (alcanzable_correr _ _ _ Alcanzable.inicial),
    alcanzable_correr _ _ _ (alcanzable_correr _ _ _ (alcanzable_correr _ _ _ Alcanzable.inicial)),
    by decide, by decide, by decide, by decide⟩

/-- **C8, amended.** For every handler of an establishment route invoked with path
establishment `e`: a farm-data row present after and not before carries
`establecimiento_id = e` (rows inserted, new versions of rows updated); a row
present before and not after has `establecimiento_id = e` (old versions of rows
updated); every row in the response has `establecimiento_id = e`; the database
and the response are the same whatever `establecimiento_id` the body carries.
The responses of the seven read handlers that filter by `e` (herds, animals, one
animal, health, reproduction, production and photo history) and of "delete
animal" are derived from rows of `e` only: they are equal on any two databases
that hold the same rows of `e`.  The alerts route is not among them: every row
of its query comes from an animal of establishment `e`, joined to reproduction
rows by `vaca_id` alone. -/
theorem handler_scoped_to_path_establishment (env : Entorno) (ruta : RutaEstablecimiento)
    (req : Req) (db : Db) :
    (∀ f ∈ (ruta.handler env req db).1.store.filas,
      f ∈ db.store.filas ∨ f.establecimiento_id = req.establecimientoId) ∧
    (∀ f ∈ db.store.filas,
      f ∈ (ruta.handler env req db).1.store.filas ∨ f.establecimiento_id = req.establecimientoId) ∧
    (∀ f ∈ (ruta.handler env req db).2.datos.filas,
      f.establecimiento_id = req.establecimientoId) ∧
    (∀ x, ruta.handler env { req with body := { req.body with establecimiento_id := x } } db =
      ruta.handler env req db) ∧
    (∀ db2 : Db, mismasFilasDe req.establecimientoId db.store db2.store →
      (getRodeos req db).2 = (getRodeos req db2).2 ∧
      (getVacas req db).2 = (getVacas req db2).2 ∧
      (getVaca req db).2 = (getVaca req db2).2 ∧
      (getSalud req db).2 = (getSalud req db2).2 ∧
      (getReproduccion req db).2 = (getReproduccion req db2).2 ∧
      (getProduccion req db).2 = (getProduccion req db2).2 ∧
      (getFotos req db).2 = (getFotos req db2).2 ∧
      (deleteVaca req db).2 = (deleteVaca req db2).2) ∧
    (∀ fila ∈ prenadasQuery db req.establecimientoId,
      ∃ v ∈ db.store.vacas, v.id = fila.id ∧ v.establecimiento_id = req.establecimientoId) :=
  ⟨(Acotado.de_handler env ruta req db).filas.1, (Acotado.de_handler env ruta req db).filas.2,
    handler_datos_filas env ruta req db,
    handler_ignora_establecimiento_del_cuerpo env ruta req db,
    fun db2 h => lecturas_solo_filas_del_establecimiento req db db2 h,
    prenadasQuery_vaca db req.establecimientoId⟩

/-- Witness of C8 amended: the history and the database after Beto appended a
reproduction row for animal 1 under establishment 2 hold the same rows of
establishment 1, and the listing of the animals of establishment 1 and the
reproduction history of animal 1 there are the same on both. -/
theorem handler_scoped_to_path_establishment_witness :
    mismasFilasDe 1 Ejemplo.dbConsulta.store (Ejemplo.dbConsultaEventoAjeno 765).store ∧
    (getVacas (Ejemplo.req "t1" 1 1 Cuerpo.vacio) Ejemplo.dbConsulta).2 =
      (getVacas (Ejemplo.req "t1" 1 1 Cuerpo.vacio) (Ejemplo.dbConsultaEventoAjeno 765)).2 ∧
    (getReproduccion (Ejemplo.req "t1" 1 1 Cuerpo.vacio) Ejemplo.dbConsulta).2 =
      (getReproduccion (Ejemplo.req "t1" 1 1 Cuerpo.vacio)
        (Ejemplo.dbConsultaEventoAjeno 765)).2 :=
  ⟨by decide,
    ((handler_scoped_to_path_establishment Ejemplo.env .getVacas
      (Ejemplo.req "t1" 1 1 Cuerpo.vacio) Ejemplo.dbConsulta).2.2.2.2.1
      (Ejemplo.dbConsultaEventoAjeno 765) (by decide)).2.1,
    ((handler_scoped_to_path_establishment Ejemplo.env .getVacas
      (Ejemplo.req "t1" 1 1 Cuerpo.vacio) Ejemplo.dbConsulta).2.2.2.2.1
      (Ejemplo.dbConsultaEventoAjeno 765) (by decide)).2.2.2.2.1⟩
/-! ## C4: authentication -/

/-- **C4.** `authenticateToken` has three outcomes, decided by the token read from the
header and by the verifier: no token, the answer `sinToken` (401) and no `next()`;
a token the verifier rejects, the answer `tokenInvalido`, distinct from `sinToken`,
and no `next()`; a token the verifier accepts, `next()` once with the verified
payload as `req.user`.  There is no token exactly when the header is absent, or
is not empty and has no second piece after a blank. -/
theorem authenticateToken_three_outcomes (env : Entorno) (req : Req) :
    (tokenDe req.authorization = none → authenticateToken env req = .error sinToken) ∧
    (∀ token, tokenDe req.authorization = some token → env.verify token = none →
      authenticateToken env req = .error tokenInvalido) ∧
    (∀ token user, tokenDe req.authorization = some token → env.verify token = some user →
      authenticateToken env req = .ok user) ∧
    (tokenDe req.authorization = none ↔
      req.authorization = none ∨
        ∃ h, req.authorization = some h ∧ h ≠ "" ∧ (splitEspacio h.data).length ≤ 1) ∧
    sinToken.status = 401 ∧ tokenInvalido.status = 403 ∧ sinToken ≠ tokenInvalido := by
  refine ⟨?_, ?_, ?_, ?_, rfl, rfl, by decide⟩
  · intro h
    simp only [authenticateToken, h]
  · intro token h hv
    simp only [authenticateToken, h, hv]
  · intro token user h hv
    simp only [authenticateToken, h, hv]
  · cases hh : req.authorization with
    | none => simp [tokenDe]
    | some h =>
      by_cases he : h = ""
      · simp [tokenDe, he]
      · simp [tokenDe, he, List.getElem?_eq_none_iff]

/-- Witness of C4: no header, a token the verifier rejects, a token it accepts. -/
theorem authenticateToken_three_outcomes_witness :
    authenticateToken Ejemplo.env { Ejemplo.req "t1" 1 1 Cuerpo.vacio with authorization := none } =
      .error sinToken ∧
    authenticateToken Ejemplo.env (Ejemplo.req "falso" 1 1 Cuerpo.vacio) = .error tokenInvalido ∧
    authenticateToken Ejemplo.env (Ejemplo.req "t1" 1 1 Cuerpo.vacio) = .ok ⟨1, "ana@campo.com"⟩ :=
  ⟨(authenticateToken_three_outcomes Ejemplo.env _).1 rfl,
    (authenticateToken_three_outcomes Ejemplo.env _).2.1 "falso" rfl rfl,
    (authenticateToken_three_outcomes Ejemplo.env _).2.2.1 "t1" _ rfl rfl⟩

/-! ## C5: the administrator guard -/

/-- **C5, as stated, fails.** User 9 carries a valid token and `usuarios` stores no
email for that id, let alone the administrator address: the administrator route
answers 404, not Forbidden. -/
theorem authorizeAdmin_absent_user_not_forbidden :
    authenticateToken Ejemplo.env (Ejemplo.req "t9" 0 0 Cuerpo.vacio) = .ok ⟨9, "nadie@campo.com"⟩ ∧
    (¬ ∃ u ∈ Ejemplo.db.store.usuarios, u.id = 9 ∧ u.email = "admin@agromex.com") ∧
    atender Ejemplo.env .getAdminEstablecimientos (Ejemplo.req "t9" 0 0 Cuerpo.vacio) Ejemplo.db =
      (Ejemplo.db, usuarioNoEncontrado) ∧
    usuarioNoEncontrado.status = 404 ∧ usuarioNoEncontrado.status ≠ 403 :=
  ⟨rfl, by decide, by decide, rfl, by decide⟩

/-- **C5, amended.** For a request whose token is valid for `user`: when `userQuery`
returns a row, the administrator handler runs iff the email of its first row is
exactly `admin@agromex.com`, and otherwise the answer is `requiereAdmin` (403),
whatever establishments the user owns; when `userQuery` returns no row the answer
is `usuarioNoEncontrado` (404).  Unless the handler runs, the database is the one
received. -/
theorem authorizeAdmin_by_stored_email (env : Entorno) (req : Req) (db : Db) (user : Payload)
    (hvalid : authenticateToken env req = .ok user) :
    (∀ fila resto, userQuery db user.userId = fila :: resto →
      ((∃ u, guardiaAdmin env req db = .ok u) ↔ fila.email = "admin@agromex.com") ∧
      (fila.email = "admin@agromex.com" →
        atender env .getAdminEstablecimientos req db = getAdminEstablecimientos db) ∧
      (fila.email ≠ "admin@agromex.com" →
        atender env .getAdminEstablecimientos req db = (db, requiereAdmin))) ∧
    (userQuery db user.userId = [] →
      atender env .getAdminEstablecimientos req db = (db, usuarioNoEncontrado)) ∧
    requiereAdmin.status = 403 ∧ usuarioNoEncontrado.status = 404 := by
  refine ⟨?_, ?_, rfl, rfl⟩
  · intro fila resto hq
    by_cases he : fila.email = "admin@agromex.com"
    · have hok : authorizeAdmin db user = .ok () := by
        simp [authorizeAdmin, hq, he]
      refine ⟨?_, ?_, fun hne => absurd he hne⟩
      · simp only [guardiaAdmin, hvalid, hok, he, iff_true]
        exact ⟨user, rfl⟩
      · intro _
        simp only [atender, guardiaAdmin, hvalid, hok]
    · have herr : authorizeAdmin db user = .error requiereAdmin := by
        simp [authorizeAdmin, hq, he]
      refine ⟨?_, fun h => absurd h he, ?_⟩
      · simp only [guardiaAdmin, hvalid, herr, he, iff_false]
        rintro ⟨u, hu⟩
        cases hu
      · intro _
        simp only [atender, guardiaAdmin, hvalid, herr]
  · intro hq
    have herr : authorizeAdmin db user = .error usuarioNoEncontrado := by
      simp [authorizeAdmin, hq]
    simp only [atender, guardiaAdmin, hvalid, herr]

/-- Witness of C5 amended: Ana owns establishment 1 and is refused with 403. -/
theorem authorizeAdmin_by_stored_email_witness :
    authenticateToken Ejemplo.env (Ejemplo.req "t1" 0 0 Cuerpo.vacio) = .ok ⟨1, "ana@campo.com"⟩ ∧
    (∃ e ∈ Ejemplo.db.store.establecimientos, e.propietario_id = 1) ∧
    atender Ejemplo.env .getAdminEstablecimientos (Ejemplo.req "t1" 0 0 Cuerpo.vacio) Ejemplo.db =
      (Ejemplo.db, requiereAdmin) :=
  ⟨rfl, by decide,
    ((authorizeAdmin_by_stored_email Ejemplo.env (Ejemplo.req "t1" 0 0 Cuerpo.vacio) Ejemplo.db
      ⟨1, "ana@campo.com"⟩ rfl).1 ⟨1, "ana@campo.com", "p1", some "Ana", 1000 * msPorDia⟩ []
        (by decide)).2.2 (by decide)⟩

/-! ## C2: create establishment -/

/-- **C2, the code at the failing input.** Ana creates an establishment and the store
refuses the role grant: the answer is the 500 of the route, the establishment row 3
is stored all the same, and no role row was added, so nobody can reach it. -/
theorem postEstablecimientos_role_failure_keeps_row :
    (atender Ejemplo.envFallaRol .postEstablecimientos
        (Ejemplo.req "t1" 0 0 { Cuerpo.vacio with nombre := some "Nueva" }) Ejemplo.db).2 =
      errorCrearEstablecimiento ∧
    (atender Ejemplo.envFallaRol .postEstablecimientos
        (Ejemplo.req "t1" 0 0 { Cuerpo.vacio with nombre := some "Nueva" }) Ejemplo.db).1.store.establecimientos =
      Ejemplo.db.store.establecimientos ++ [⟨3, "Nueva", none, 1, 1000 * msPorDia⟩] ∧
    (atender Ejemplo.envFallaRol .postEstablecimientos
        (Ejemplo.req "t1" 0 0 { Cuerpo.vacio with nombre := some "Nueva" }) Ejemplo.db).1.store.usuario_establecimiento_roles =
      Ejemplo.db.store.usuario_establecimiento_roles ∧
    (¬ ∃ r ∈ Ejemplo.db.store.usuario_establecimiento_roles, r.establecimiento_id = 3) := by
  refine ⟨by decide, by decide, by decide, by decide⟩

/-! ## C3: the alert window -/

/-- **C3, the code at the failing inputs.** Today is day 1000.  Animal 1 of
establishment 1 is stored 'Preñada' with one 'Palpación' dated 235 days ago: the
two literals of the alert query hold U+FFFD where these texts hold ñ and ó, the
query returns no row, and the route answers 200 with the empty list instead of
one alert due on day 1045; the same with an event dated 240 days ago (due day
1040).  When the status and the event type are stored as the query spells them,
the query returns the row and the route answers `errorInterno` (500), the loop
body reading the unbound `fechaPartaEstimada`: for the event dated 235 days ago,
for the one dated 240 days ago, and for the one dated 230 days ago (due day
1050), which gets the 500 too, not an empty list. -/
theorem getAlertas_window_emits_no_alert :
    Ejemplo.env.hoy = 1000 ∧
    (∃ v ∈ (Ejemplo.dbPalpacion 765).store.vacas, v.id = 1 ∧ v.establecimiento_id = 1 ∧
      v.estado_reproductivo = some "Preñada") ∧
    (Ejemplo.dbPalpacion 765).store.registros_reproduccion =
      [⟨1, 1, 1, 765, none, "Palpación", none, none, none⟩] ∧
    prenadasQuery (Ejemplo.dbPalpacion 765) 1 = [] ∧
    (atender Ejemplo.env (.establecimiento .getAlertas) (Ejemplo.req "t1" 1 0 Cuerpo.vacio)
        (Ejemplo.dbPalpacion 765)).2 = ⟨200, none, .alertas []⟩ ∧
    (atender Ejemplo.env (.establecimiento .getAlertas) (Ejemplo.req "t1" 1 0 Cuerpo.vacio)
        (Ejemplo.dbPalpacion 760)).2 = ⟨200, none, .alertas []⟩ ∧
    (∃ v ∈ (Ejemplo.dbConsultaEvento 765).store.vacas, v.id = 1 ∧ v.establecimiento_id = 1 ∧
      v.estado_reproductivo = some estadoDeLaConsulta) ∧
    (Ejemplo.dbConsultaEvento 765).store.registros_reproduccion =
      [⟨1, 1, 1, 765, none, tipoDeLaConsulta, none, none, none⟩] ∧
    prenadasQuery (Ejemplo.dbConsultaEvento 765) 1 = [⟨1, some "A1", none, 765⟩] ∧
    (atender Ejemplo.env (.establecimiento .getAlertas) (Ejemplo.req "t1" 1 0 Cuerpo.vacio)
        (Ejemplo.dbConsultaEvento 765)).2 = errorInterno ∧
    (atender Ejemplo.env (.establecimiento .getAlertas) (Ejemplo.req "t1" 1 0 Cuerpo.vacio)
        (Ejemplo.dbConsultaEvento 760)).2 = errorInterno ∧
    (atender Ejemplo.env (.establecimiento .getAlertas) (Ejemplo.req "t1" 1 0 Cuerpo.vacio)
        (Ejemplo.dbConsultaEvento 770)).2 = errorInterno ∧
    errorInterno.status = 500 := by
  refine ⟨by decide, by decide, by decide, by decide, by decide, by decide, by decide,
    by decide, by decide, by decide, by decide, by decide, rfl⟩

/-! ## C11: required fields -/

theorem faltaTexto_iff (x : Option String) : faltaTexto x = true ↔ x = none ∨ x = some "" := by
  cases x <;> simp [faltaTexto]

theorem faltaNumero_iff (x : Option Int) : faltaNumero x = true ↔ x = none ∨ x = some 0 := by
  cases x <;> simp [faltaNumero]

theorem postVacas_status_400 (env : Entorno) (req : Req) (db : Db) :
    ((postVacas env req db).2.status = 400 ↔
      (faltaTexto req.body.caravana_interna || faltaTexto req.body.estado_actual ||
        faltaNumero req.body.rodeo_id) = true) ∧
    ((postVacas env req db).2.status = 400 → (postVacas env req db).1 = db) := by
  unfold postVacas insertVaca insertVacaEjecutar
  dsimp only
  split_ifs with hval <;>
    simp [hval, soloMensaje, errorInterno, caravanaDuplicada, SqlError.code]

theorem postSalud_status_400 (req : Req) (db : Db) :
    ((postSalud req db).2.status = 400 ↔
      (req.body.fecha_evento.isNone || faltaTexto req.body.tipo_evento ||
        faltaTexto req.body.descripcion) = true) ∧
    ((postSalud req db).2.status = 400 → (postSalud req db).1 = db) := by
  unfold postSalud insertSalud insertSaludEjecutar
  dsimp only
  split_ifs with hval <;> simp [hval, soloMensaje, errorInterno]

theorem postReproduccion_status_400 (req : Req) (db : Db) :
    ((postReproduccion req db).2.status = 400 ↔
      (req.body.fecha_evento.isNone || faltaTexto req.body.tipo_evento) = true) ∧
    ((postReproduccion req db).2.status = 400 → (postReproduccion req db).1 = db) := by
  unfold postReproduccion insertReproduccion insertReproduccionEjecutar
  dsimp only
  split_ifs with hval <;> simp [hval, soloMensaje, errorInterno]

theorem postProduccion_status_400 (req : Req) (db : Db) :
    ((postProduccion req db).2.status = 400 ↔
      (req.body.fecha_registro.isNone || req.body.litros_dia.isNone) = true) ∧
    ((postProduccion req db).2.status = 400 → (postProduccion req db).1 = db) := by
  unfold postProduccion insertProduccion insertProduccionEjecutar
  dsimp only
  split_ifs with hval <;> simp [hval, soloMensaje, errorInterno]

/-- **C11.** Each of the four handlers answers 400 exactly when a required field is
missing, and then the database is the one received.  Missing means `undefined`,
`null` or, for a field tested with `!`, the empty text or the number 0: the
internal tag, the lifecycle status or the herd of "create animal"; the date, the
type or the description of a health record; the date or the type of a
reproduction record.  For a production record it means a date or a litres value
that is `undefined` or `null`: 0 litres is present. -/
theorem validation_precedes_write (env : Entorno) (req : Req) (db : Db) :
    (((postVacas env req db).2.status = 400 ↔
        (req.body.caravana_interna = none ∨ req.body.caravana_interna = some "") ∨
        (req.body.estado_actual = none ∨ req.body.estado_actual = some "") ∨
        (req.body.rodeo_id = none ∨ req.body.rodeo_id = some 0)) ∧
      ((postVacas env req db).2.status = 400 → (postVacas env req db).1 = db)) ∧
    (((postSalud req db).2.status = 400 ↔
        req.body.fecha_evento = none ∨
        (req.body.tipo_evento = none ∨ req.body.tipo_evento = some "") ∨
        (req.body.descripcion = none ∨ req.body.descripcion = some "")) ∧
      ((postSalud req db).2.status = 400 → (postSalud req db).1 = db)) ∧
    (((postReproduccion req db).2.status = 400 ↔
        req.body.fecha_evento = none ∨
        (req.body.tipo_evento = none ∨ req.body.tipo_evento = some "")) ∧
      ((postReproduccion req db).2.status = 400 → (postReproduccion req db).1 = db)) ∧
    (((postProduccion req db).2.status = 400 ↔
        req.body.fecha_registro = none ∨ req.body.litros_dia = none) ∧
      ((postProduccion req db).2.status = 400 → (postProduccion req db).1 = db)) := by
  refine ⟨⟨?_, (postVacas_status_400 env req db).2⟩, ⟨?_, (postSalud_status_400 req db).2⟩,
    ⟨?_, (postReproduccion_status_400 req db).2⟩, ⟨?_, (postProduccion_status_400 req db).2⟩⟩
  · rw [(postVacas_status_400 env req db).1]
    simp only [Bool.or_eq_true, faltaTexto_iff, faltaNumero_iff, or_assoc]
  · rw [(postSalud_status_400 req db).1]
    simp only [Bool.or_eq_true, faltaTexto_iff, Option.isNone_iff_eq_none, or_assoc]
  · rw [(postReproduccion_status_400 req db).1]
    simp only [Bool.or_eq_true, faltaTexto_iff, Option.isNone_iff_eq_none]
  · rw [(postProduccion_status_400 req db).1]
    simp only [Bool.or_eq_true, Option.isNone_iff_eq_none]

/-- Witness of C11: a production record of 0 litres is stored (201); without the
litres value the answer is 400 and the database is the one received. -/
theorem validation_precedes_write_witness :
    (postProduccion (Ejemplo.req "t1" 1 1 { Cuerpo.vacio with
        fecha_registro := some 990, litros_dia := some 0 }) Ejemplo.db).2.status = 201 ∧
    (postProduccion (Ejemplo.req "t1" 1 1 { Cuerpo.vacio with
        fecha_registro := some 990 }) Ejemplo.db).2.status = 400 ∧
    (postProduccion (Ejemplo.req "t1" 1 1 { Cuerpo.vacio with
        fecha_registro := some 990 }) Ejemplo.db).1 = Ejemplo.db :=
  ⟨by decide,
    ((validation_precedes_write Ejemplo.env (Ejemplo.req "t1" 1 1 { Cuerpo.vacio with
        fecha_registro := some 990 }) Ejemplo.db).2.2.2.1).2 (Or.inr rfl),
    (validation_precedes_write Ejemplo.env (Ejemplo.req "t1" 1 1 { Cuerpo.vacio with
        fecha_registro := some 990 }) Ejemplo.db).2.2.2.2 (by decide)⟩

/-! ## C12, C13, C14: logical delete -/

theorem deleteVaca_eq (req : Req) (db : Db)
    (hint : (enInteger req.vacaId && enInteger req.establecimientoId) = true) :
    deleteVaca req db =
      ({ db with store := { db.store with
          vacas := db.store.vacas.map (fun v =>
            if esLaVaca req.vacaId req.establecimientoId v then { v with activa := some false }
            else v) } },
        if db.store.vacas.filter (esLaVaca req.vacaId req.establecimientoId) = [] then
          vacaNoEncontrada
        else soloMensaje 200 "Vaca marcada como inactiva exitosamente.") := by
  unfold deleteVaca deleteVacaQuery deleteVacaQueryEjecutar
  dsimp only
  rw [if_pos hint]
  cases h : db.store.vacas.filter (esLaVaca req.vacaId req.establecimientoId) with
  | nil => simp
  | cons v resto => simp

theorem deleteVaca_fuera_de_rango (req : Req) (db : Db)
    (hint : (enInteger req.vacaId && enInteger req.establecimientoId) = false) :
    deleteVaca req db = (db, errorInterno) := by
  unfold deleteVaca deleteVacaQuery
  rw [hint]
  simp

theorem filter_esLaVaca_eq_nil_iff (db : Db) (v e : Int) :
    db.store.vacas.filter (esLaVaca v e) = [] ↔
      ¬ ∃ w ∈ db.store.vacas, w.id = v ∧ w.establecimiento_id = e := by
  rw [List.filter_eq_nil_iff]
  constructor
  · rintro h ⟨w, hw, hwid, hwe⟩
    exact h w hw ((esLaVaca_eq_true_iff v e w).2 ⟨hwid, hwe⟩)
  · intro h w hw hT
    exact h ⟨w, hw, (esLaVaca_eq_true_iff v e w).1 hT⟩

theorem deleteVaca_status_200 (req : Req) (db : Db) :
    (deleteVaca req db).2.status = 200 ↔
      (enInteger req.vacaId && enInteger req.establecimientoId) = true ∧
      ∃ w ∈ db.store.vacas, w.id = req.vacaId ∧ w.establecimiento_id = req.establecimientoId := by
  cases hint : (enInteger req.vacaId && enInteger req.establecimientoId) with
  | false =>
    rw [deleteVaca_fuera_de_rango req db hint]
    simp [errorInterno, soloMensaje]
  | true =>
    rw [deleteVaca_eq req db hint]
    by_cases h : db.store.vacas.filter (esLaVaca req.vacaId req.establecimientoId) = []
    · have h2 := (filter_esLaVaca_eq_nil_iff db req.vacaId req.establecimientoId).1 h
      simp [h, h2, vacaNoEncontrada, soloMensaje]
    · have h2 := (not_congr (filter_esLaVaca_eq_nil_iff db req.vacaId req.establecimientoId)).1 h
      rw [not_not] at h2
      simp [h, h2, soloMensaje]

/-- **C12.** When "delete animal" answers 200 for animal `a` of establishment `e`: a
row with that id and establishment was stored; row by row, `vacas` afterwards
holds the same row, except that a row with that id and establishment has
`activa = false` and every other field as before; every other table, the history
tables included, and the sequences are as before; and the listing of the active
animals of `e` that follows holds no row with that id. -/
theorem deleteVaca_changes_only_activa (req : Req) (db : Db)
    (hok : (deleteVaca req db).2.status = 200) :
    (∃ a ∈ db.store.vacas, a.id = req.vacaId ∧ a.establecimiento_id = req.establecimientoId) ∧
    List.Forall₂
      (fun v w =>
        (v.id = req.vacaId ∧ v.establecimiento_id = req.establecimientoId →
          w = { v with activa := some false }) ∧
        (¬ (v.id = req.vacaId ∧ v.establecimiento_id = req.establecimientoId) → w = v))
      db.store.vacas (deleteVaca req db).1.store.vacas ∧
    ((deleteVaca req db).1.store.registros_salud = db.store.registros_salud ∧
      (deleteVaca req db).1.store.registros_reproduccion = db.store.registros_reproduccion ∧
      (deleteVaca req db).1.store.registros_produccion = db.store.registros_produccion ∧
      (deleteVaca req db).1.store.historial_movimientos = db.store.historial_movimientos ∧
      (deleteVaca req db).1.store.fotos_vacas = db.store.fotos_vacas ∧
      (deleteVaca req db).1.store.rodeos = db.store.rodeos ∧
      (deleteVaca req db).1.store.usuarios = db.store.usuarios ∧
      (deleteVaca req db).1.store.establecimientos = db.store.establecimientos ∧
      (deleteVaca req db).1.store.usuario_establecimiento_roles =
        db.store.usuario_establecimiento_roles ∧
      (deleteVaca req db).1.seq = db.seq) ∧
    (∀ vs, (getVacas req (deleteVaca req db).1).2.datos = .vacas vs →
      ∀ v ∈ vs, v.id ≠ req.vacaId) := by
  obtain ⟨hint, hex⟩ := (deleteVaca_status_200 req db).1 hok
  have he : enInteger req.establecimientoId = true := by
    rw [Bool.and_eq_true] at hint
    exact hint.2
  refine ⟨hex, ?_, ?_, ?_⟩
  · rw [deleteVaca_eq req db hint]
    dsimp only
    rw [List.forall₂_map_right_iff, List.forall₂_same]
    intro v _
    by_cases hT : esLaVaca req.vacaId req.establecimientoId v = true
    · rw [if_pos hT]
      exact ⟨fun _ => rfl, fun hn => absurd ((esLaVaca_eq_true_iff _ _ v).1 hT) hn⟩
    · rw [if_neg hT]
      exact ⟨fun hp => absurd ((esLaVaca_eq_true_iff _ _ v).2 hp) hT, fun _ => rfl⟩
  · rw [deleteVaca_eq req db hint]
    exact ⟨rfl, rfl, rfl, rfl, rfl, rfl, rfl, rfl, rfl, rfl⟩
  · intro vs hvs v hv hid
    rw [deleteVaca_eq req db hint] at hvs
    unfold getVacas at hvs
    rw [if_pos he] at hvs
    simp only [Datos.vacas.injEq] at hvs
    subst hvs
    obtain ⟨hmem, hp⟩ := List.mem_filter.1 ((List.mem_insertionSort _).1 hv)
    simp only [Bool.and_eq_true, decide_eq_true_eq] at hp
    obtain ⟨u, _, hu⟩ := List.mem_map.1 hmem
    by_cases hT : esLaVaca req.vacaId req.establecimientoId u = true
    · rw [if_pos hT] at hu
      rw [← hu] at hp
      exact absurd hp.2 (by simp)
    · rw [if_neg hT] at hu
      subst hu
      exact hT ((esLaVaca_eq_true_iff _ _ u).2 ⟨hid, hp.1⟩)

/-- Witness of C12: Ana deletes animal 1 of establishment 1. -/
theorem deleteVaca_changes_only_activa_witness :
    (deleteVaca (Ejemplo.req "t1" 1 1 Cuerpo.vacio) Ejemplo.db).2.status = 200 ∧
    (deleteVaca (Ejemplo.req "t1" 1 1 Cuerpo.vacio) Ejemplo.db).1.store.registros_salud =
      Ejemplo.db.store.registros_salud ∧
    (getVacas (Ejemplo.req "t1" 1 1 Cuerpo.vacio)
      (deleteVaca (Ejemplo.req "t1" 1 1 Cuerpo.vacio) Ejemplo.db).1).2.datos = .vacas [] :=
  ⟨by decide,
    (deleteVaca_changes_only_activa (Ejemplo.req "t1" 1 1 Cuerpo.vacio) Ejemplo.db
      (by decide)).2.2.1.1,
    by decide⟩

theorem esLaVaca_inactivada (v e : Int) (w : Vaca) :
    esLaVaca v e (if esLaVaca v e w then { w with activa := some false } else w) =
      esLaVaca v e w := by
  split_ifs <;> rfl

theorem filter_esLaVaca_inactivadas (db : Db) (v e : Int) :
    (db.store.vacas.map (fun w => if esLaVaca v e w then { w with activa := some false } else w)).filter
        (esLaVaca v e) = [] ↔
      db.store.vacas.filter (esLaVaca v e) = [] := by
  rw [List.filter_eq_nil_iff, List.filter_eq_nil_iff]
  constructor
  · intro h w hw hT
    refine h _ (List.mem_map.2 ⟨w, hw, rfl⟩) ?_
    rw [esLaVaca_inactivada]
    exact hT
  · intro h w hw hT
    obtain ⟨u, hu, rfl⟩ := List.mem_map.1 hw
    rw [esLaVaca_inactivada] at hT
    exact h u hu hT

/-- **C13.** "Delete animal" served twice leaves the database and the answer of
"delete animal" served once, in every database; for an animal stored under the
path establishment, with the two ids of the path inside `INTEGER` as the ids of
a stored row are, that answer is the 200 of the route, so deleting an animal
that is already inactive succeeds and changes nothing; in a reachable database
this holds for every stored animal. -/
theorem deleteVaca_idempotent (req : Req) (db : Db) :
    deleteVaca req (deleteVaca req db).1 = deleteVaca req db ∧
    ((∃ a ∈ db.store.vacas, a.id = req.vacaId ∧ a.establecimiento_id = req.establecimientoId) →
      enInteger req.vacaId = true → enInteger req.establecimientoId = true →
      (deleteVaca req db).2 = soloMensaje 200 "Vaca marcada como inactiva exitosamente." ∧
      (deleteVaca req (deleteVaca req db).1).2 =
        soloMensaje 200 "Vaca marcada como inactiva exitosamente.") ∧
    (Alcanzable db →
      (∃ a ∈ db.store.vacas, a.id = req.vacaId ∧ a.establecimiento_id = req.establecimientoId) →
      (deleteVaca req db).2 = soloMensaje 200 "Vaca marcada como inactiva exitosamente." ∧
      (deleteVaca req (deleteVaca req db).1).2 =
        soloMensaje 200 "Vaca marcada como inactiva exitosamente.") := by
  have h1 : deleteVaca req (deleteVaca req db).1 = deleteVaca req db := by
    cases hint : (enInteger req.vacaId && enInteger req.establecimientoId) with
    | false =>
      rw [deleteVaca_fuera_de_rango req db hint]
      exact deleteVaca_fuera_de_rango req db hint
    | true =>
      rw [deleteVaca_eq req (deleteVaca req db).1 hint, deleteVaca_eq req db hint]
      dsimp only
      have hmap : (db.store.vacas.map (fun v =>
            if esLaVaca req.vacaId req.establecimientoId v then { v with activa := some false }
            else v)).map (fun v =>
            if esLaVaca req.vacaId req.establecimientoId v then { v with activa := some false }
            else v) =
          db.store.vacas.map (fun v =>
            if esLaVaca req.vacaId req.establecimientoId v then { v with activa := some false }
            else v) := by
        rw [List.map_map]
        apply List.map_congr_left
        intro v _
        simp only [Function.comp]
        by_cases hT : esLaVaca req.vacaId req.establecimientoId v = true
        · rw [if_pos hT, if_pos (by exact hT)]
        · rw [if_neg hT, if_neg hT]
      rw [hmap]
      by_cases hf : db.store.vacas.filter (esLaVaca req.vacaId req.establecimientoId) = []
      · rw [if_pos hf, if_pos ((filter_esLaVaca_inactivadas db _ _).2 hf)]
      · rw [if_neg hf, if_neg (fun h => hf ((filter_esLaVaca_inactivadas db _ _).1 h))]
  have h3 : (∃ a ∈ db.store.vacas,
        a.id = req.vacaId ∧ a.establecimiento_id = req.establecimientoId) →
      enInteger req.vacaId = true → enInteger req.establecimientoId = true →
      (deleteVaca req db).2 = soloMensaje 200 "Vaca marcada como inactiva exitosamente." ∧
      (deleteVaca req (deleteVaca req db).1).2 =
        soloMensaje 200 "Vaca marcada como inactiva exitosamente." := by
    intro ha hv he
    have hint : (enInteger req.vacaId && enInteger req.establecimientoId) = true := by
      rw [hv, he]
      rfl
    have hf : ¬ db.store.vacas.filter (esLaVaca req.vacaId req.establecimientoId) = [] :=
      fun h => (filter_esLaVaca_eq_nil_iff db _ _).1 h ha
    have h2 : (deleteVaca req db).2 =
        soloMensaje 200 "Vaca marcada como inactiva exitosamente." := by
      rw [deleteVaca_eq req db hint]
      dsimp only
      rw [if_neg hf]
    exact ⟨h2, by rw [h1]; exact h2⟩
  refine ⟨h1, h3, ?_⟩
  intro hal ha
  obtain ⟨a, ham, haid, hae⟩ := ha
  have hcol := hal.integro.columnas a ham
  exact h3 ⟨a, ham, haid, hae⟩ (haid ▸ hcol.1) (hae ▸ hcol.2.1)

/-- Witness of C13: animal 1 of establishment 1 deleted twice. -/
theorem deleteVaca_idempotent_witness :
    Alcanzable Ejemplo.db ∧
    (∃ a ∈ Ejemplo.db.store.vacas, a.id = 1 ∧ a.establecimiento_id = 1) ∧
    deleteVaca (Ejemplo.req "t1" 1 1 Cuerpo.vacio)
        (deleteVaca (Ejemplo.req "t1" 1 1 Cuerpo.vacio) Ejemplo.db).1 =
      deleteVaca (Ejemplo.req "t1" 1 1 Cuerpo.vacio) Ejemplo.db ∧
    (deleteVaca (Ejemplo.req "t1" 1 1 Cuerpo.vacio)
        (deleteVaca (Ejemplo.req "t1" 1 1 Cuerpo.vacio) Ejemplo.db).1).2.status = 200 :=
  ⟨alcanzable_correr _ _ _ Alcanzable.inicial, by decide,
    (deleteVaca_idempotent (Ejemplo.req "t1" 1 1 Cuerpo.vacio) Ejemplo.db).1,
    by
      rw [((deleteVaca_idempotent (Ejemplo.req "t1" 1 1 Cuerpo.vacio) Ejemplo.db).2.2
        (alcanzable_correr _ _ _ Alcanzable.inicial) (by decide)).2]
      rfl⟩

/-- **C14, as stated, fails.** No animal has the id 2147483648, which is not a value
of `INTEGER`: binding it to `WHERE id = $n` fails, and Ana's "update animal" and
"delete animal" under establishment 1 are answered `errorInterno` (500), not 404.
The same for an id that is not stored, 7, when the body of the update carries a
name of 101 characters. -/
theorem vaca_id_out_of_range_is_500 :
    (¬ ∃ v ∈ Ejemplo.db.store.vacas, v.id = 2147483648) ∧
    (¬ ∃ v ∈ Ejemplo.db.store.vacas, v.id = 7) ∧
    atender Ejemplo.env (.establecimiento .putVaca)
        (Ejemplo.req "t1" 1 2147483648 (Ejemplo.cuerpoVaca "A7")) Ejemplo.db =
      (Ejemplo.db, errorInterno) ∧
    atender Ejemplo.env (.establecimiento .deleteVaca)
        (Ejemplo.req "t1" 1 2147483648 Cuerpo.vacio) Ejemplo.db =
      (Ejemplo.db, errorInterno) ∧
    atender Ejemplo.env (.establecimiento .putVaca)
        (Ejemplo.req "t1" 1 7 { Ejemplo.cuerpoVaca "A7" with
          nombre := some (String.mk (List.replicate 101 'x')) }) Ejemplo.db =
      (Ejemplo.db, errorInterno) ∧
    errorInterno.status = 500 ∧ vacaNoEncontrada.status = 404 :=
  ⟨by decide, by decide, by decide, by decide, by decide, rfl, rfl⟩

/-- **C14, amended.** When no stored animal has both the id and the establishment of
the path (the id is not stored, or is the id of an animal of another
establishment), the database is the one received, every row of every
establishment included, and the answer is: for "update animal",
`vacaNoEncontrada` (404) when the parameters of the statement bind (the two ids
of the path inside `INTEGER`, every value of the body a value of its column) and
`errorInterno` (500) when one does not; for "delete animal", `vacaNoEncontrada`
(404) when the two ids of the path are inside `INTEGER` and `errorInterno` (500)
when one is not. -/
theorem vaca_outside_establishment_is_404 (req : Req) (db : Db)
    (hno : ¬ ∃ v ∈ db.store.vacas,
      v.id = req.vacaId ∧ v.establecimiento_id = req.establecimientoId) :
    (vinculaUpdateVaca req.vacaId req.establecimientoId req.body = true →
      putVaca req db = (db, vacaNoEncontrada)) ∧
    (vinculaUpdateVaca req.vacaId req.establecimientoId req.body = false →
      putVaca req db = (db, errorInterno)) ∧
    ((enInteger req.vacaId && enInteger req.establecimientoId) = true →
      deleteVaca req db = (db, vacaNoEncontrada)) ∧
    ((enInteger req.vacaId && enInteger req.establecimientoId) = false →
      deleteVaca req db = (db, errorInterno)) ∧
    vacaNoEncontrada.status = 404 ∧ errorInterno.status = 500 := by
  have hf := (filter_esLaVaca_eq_nil_iff db req.vacaId req.establecimientoId).2 hno
  refine ⟨?_, putVaca_no_vincula req db, ?_, deleteVaca_fuera_de_rango req db, rfl, rfl⟩
  · intro hvin
    unfold putVaca updateVaca updateVacaEjecutar
    dsimp only
    rw [if_pos hvin, hf]
    simp
  · intro hint
    rw [deleteVaca_eq req db hint, if_pos hf]
    have hmap : db.store.vacas.map (fun v =>
          if esLaVaca req.vacaId req.establecimientoId v then { v with activa := some false }
          else v) = db.store.vacas := by
      conv_rhs => rw [← List.map_id db.store.vacas]
      apply List.map_congr_left
      intro v hv
      have hT : ¬ esLaVaca req.vacaId req.establecimientoId v = true :=
        fun hT => hno ⟨v, hv, (esLaVaca_eq_true_iff _ _ v).1 hT⟩
      rw [if_neg hT]
      rfl
    rw [hmap]

/-- Witness of C14 amended: Beto, under establishment 2, updates and deletes animal
1, an animal of establishment 1; both answers are 404 and animal 1 is as it was. -/
theorem vaca_outside_establishment_is_404_witness :
    (∃ v ∈ Ejemplo.db.store.vacas, v.id = 1 ∧ v.establecimiento_id = 1) ∧
    putVaca (Ejemplo.req "t2" 2 1 (Ejemplo.cuerpoVaca "B7")) Ejemplo.db =
      (Ejemplo.db, vacaNoEncontrada) ∧
    deleteVaca (Ejemplo.req "t2" 2 1 Cuerpo.vacio) Ejemplo.db = (Ejemplo.db, vacaNoEncontrada) :=
  ⟨by decide,
    (vaca_outside_establishment_is_404 (Ejemplo.req "t2" 2 1 (Ejemplo.cuerpoVaca "B7")) Ejemplo.db
      (by decide)).1 (by decide),
    (vaca_outside_establishment_is_404 (Ejemplo.req "t2" 2 1 Cuerpo.vacio) Ejemplo.db
      (by decide)).2.2.1 (by decide)⟩
/-! ## C15: update animal -/

theorem putVaca_status_200 (req : Req) (db : Db) (hok : (putVaca req db).2.status = 200) :
    vinculaUpdateVaca req.vacaId req.establecimientoId req.body = true ∧
    ∃ a resto, db.store.vacas.filter (esLaVaca req.vacaId req.establecimientoId) = a :: resto ∧
      putVaca req db =
        ({ db with store := { db.store with
            vacas := db.store.vacas.map (fun v =>
              if esLaVaca req.vacaId req.establecimientoId v then
                setVaca (valoresVaca req.body) v
              else v) } },
          ⟨200, some "Vaca actualizada exitosamente.",
            .vaca (setVaca (valoresVaca req.body) a)⟩) := by
  revert hok
  unfold putVaca updateVaca updateVacaEjecutar
  dsimp only
  split_ifs with hvin h0 hdup href
  · simp [vacaNoEncontrada, soloMensaje]
  · simp [caravanaDuplicadaOtra, soloMensaje, SqlError.code]
  · cases hf : db.store.vacas.filter (esLaVaca req.vacaId req.establecimientoId) with
    | nil =>
      rw [hf] at h0
      exact absurd rfl h0
    | cons a resto =>
      intro _
      exact ⟨hvin, a, resto, rfl, rfl⟩
  · simp [errorInterno, soloMensaje, SqlError.code]
  · simp [errorInterno, soloMensaje, SqlError.code]

/-- **C15, as stated, fails.** Ana updates animal 1 with an internal tag of 51
characters, `A1` and 49 blanks.  The store cuts the excess blank when it assigns
the text to `VARCHAR(50)`: the answer is 200 and the tag stored and returned has
50 characters, `A1` and 48 blanks, which is not the value supplied. -/
theorem putVaca_stores_tag_cut_to_width :
    ("A1" ++ String.mk (List.replicate 49 ' ')).length = 51 ∧
    atender Ejemplo.env (.establecimiento .putVaca)
        (Ejemplo.req "t1" 1 1 (Ejemplo.cuerpoVaca ("A1" ++ String.mk (List.replicate 49 ' '))))
        Ejemplo.db =
      ({ Ejemplo.db with store := { Ejemplo.db.store with
          vacas := [⟨1, 1, none, some ("A1" ++ String.mk (List.replicate 48 ' ')), none, none,
            none, some "Activa", none, some 1, none, none, some 1000, none⟩] } },
        ⟨200, some "Vaca actualizada exitosamente.",
          .vaca ⟨1, 1, none, some ("A1" ++ String.mk (List.replicate 48 ' ')), none, none,
            none, some "Activa", none, some 1, none, none, some 1000, none⟩⟩) ∧
    "A1" ++ String.mk (List.replicate 48 ' ') ≠ "A1" ++ String.mk (List.replicate 49 ' ') :=
  ⟨by decide, by decide, by decide⟩

/-- **C15, amended.** When "update animal" answers 200, the parameters of the
statement bound, a row `a` with the id and the establishment of the path was
stored, and the answer carries a row `w` that is stored afterwards, with the id,
the establishment and the entry date of `a` and with each of the eleven other
fields equal to the field of the body as its column holds it, `null` when the
body omits it: the birth date, the herd, the mother and the active flag as
supplied, a text cut to the width of its column (50 characters; 100 for the name
and the sire name), which is the text supplied when it is not longer than that.
Row by row, `vacas` afterwards holds the same row, except that a row with that
id and establishment has its eleven fields replaced in this way; every other
table and the sequences are as before. -/
theorem putVaca_replaces_row (req : Req) (db : Db) (hok : (putVaca req db).2.status = 200) :
    vinculaUpdateVaca req.vacaId req.establecimientoId req.body = true ∧
    (∀ (n : Nat) (s : String), s.length ≤ n → aVarchar n s = s) ∧
    (∃ a ∈ db.store.vacas, ∃ w ∈ (putVaca req db).1.store.vacas,
      a.id = req.vacaId ∧ a.establecimiento_id = req.establecimientoId ∧
      (putVaca req db).2.datos = .vaca w ∧
      (w.id = a.id ∧ w.establecimiento_id = a.establecimiento_id ∧
        w.fecha_ingreso = a.fecha_ingreso) ∧
      (w.caravana_senasa = req.body.caravana_senasa.map (aVarchar 50) ∧
        w.caravana_interna = req.body.caravana_interna.map (aVarchar 50) ∧
        w.nombre = req.body.nombre.map (aVarchar 100) ∧
        w.raza = req.body.raza.map (aVarchar 50) ∧
        w.fecha_nacimiento = req.body.fecha_nacimiento ∧
        w.estado_actual = req.body.estado_actual.map (aVarchar 50) ∧
        w.estado_reproductivo = req.body.estado_reproductivo.map (aVarchar 50) ∧
        w.rodeo_id = req.body.rodeo_id ∧ w.madre_id = req.body.madre_id ∧
        w.padre_nombre = req.body.padre_nombre.map (aVarchar 100) ∧
        w.activa = req.body.activa)) ∧
    List.Forall₂
      (fun v w =>
        (v.id = req.vacaId ∧ v.establecimiento_id = req.establecimientoId →
          w = { id := v.id, establecimiento_id := v.establecimiento_id
                caravana_senasa := req.body.caravana_senasa.map (aVarchar 50)
                caravana_interna := req.body.caravana_interna.map (aVarchar 50)
                nombre := req.body.nombre.map (aVarchar 100)
                raza := req.body.raza.map (aVarchar 50)
                fecha_nacimiento := req.body.fecha_nacimiento
                estado_actual := req.body.estado_actual.map (aVarchar 50)
                estado_reproductivo := req.body.estado_reproductivo.map (aVarchar 50)
                rodeo_id := req.body.rodeo_id, madre_id := req.body.madre_id
                padre_nombre := req.body.padre_nombre.map (aVarchar 100)
                fecha_ingreso := v.fecha_ingreso, activa := req.body.activa }) ∧
        (¬ (v.id = req.vacaId ∧ v.establecimiento_id = req.establecimientoId) → w = v))
      db.store.vacas (putVaca req db).1.store.vacas ∧
    ((putVaca req db).1.store.registros_salud = db.store.registros_salud ∧
      (putVaca req db).1.store.registros_reproduccion = db.store.registros_reproduccion ∧
      (putVaca req db).1.store.registros_produccion = db.store.registros_produccion ∧
      (putVaca req db).1.store.historial_movimientos = db.store.historial_movimientos ∧
      (putVaca req db).1.store.fotos_vacas = db.store.fotos_vacas ∧
      (putVaca req db).1.store.rodeos = db.store.rodeos ∧
      (putVaca req db).1.store.usuarios = db.store.usuarios ∧
      (putVaca req db).1.store.establecimientos = db.store.establecimientos ∧
      (putVaca req db).1.store.usuario_establecimiento_roles =
        db.store.usuario_establecimiento_roles ∧
      (putVaca req db).1.seq = db.seq) := by
  obtain ⟨hvin, a, resto, hf, hput⟩ := putVaca_status_200 req db hok
  have ha : a ∈ db.store.vacas.filter (esLaVaca req.vacaId req.establecimientoId) := by
    rw [hf]
    exact List.mem_cons_self _ _
  obtain ⟨ham, haT⟩ := List.mem_filter.1 ha
  have haT2 := (esLaVaca_eq_true_iff _ _ a).1 haT
  rw [hput]
  refine ⟨hvin, aVarchar_of_length_le,
    ⟨a, ham, setVaca (valoresVaca req.body) a, ?_, haT2.1, haT2.2, rfl, ⟨rfl, rfl, rfl⟩,
    ⟨rfl, rfl, rfl, rfl, rfl, rfl, rfl, rfl, rfl, rfl, rfl⟩⟩, ?_,
    ⟨rfl, rfl, rfl, rfl, rfl, rfl, rfl, rfl, rfl, rfl⟩⟩
  · refine List.mem_map.2 ⟨a, ham, ?_⟩
    rw [if_pos haT]
  · dsimp only
    rw [List.forall₂_map_right_iff, List.forall₂_same]
    intro v _
    by_cases hT : esLaVaca req.vacaId req.establecimientoId v = true
    · rw [if_pos hT]
      exact ⟨fun _ => rfl, fun hn => absurd ((esLaVaca_eq_true_iff _ _ v).1 hT) hn⟩
    · rw [if_neg hT]
      exact ⟨fun hp => absurd ((esLaVaca_eq_true_iff _ _ v).2 hp) hT, fun _ => rfl⟩

/-- Witness of C15 amended: Ana updates animal 1 with a body that carries the
internal tag, the status and the herd only; the reproductive status, set before,
is `null` after. -/
theorem putVaca_replaces_row_witness :
    (∃ v ∈ Ejemplo.db.store.vacas, v.id = 1 ∧ v.estado_reproductivo = some "Preñada") ∧
    (putVaca (Ejemplo.req "t1" 1 1 (Ejemplo.cuerpoVaca "A1")) Ejemplo.db).2.status = 200 ∧
    (∀ v ∈ (putVaca (Ejemplo.req "t1" 1 1 (Ejemplo.cuerpoVaca "A1")) Ejemplo.db).1.store.vacas,
      v.estado_reproductivo = none ∧ v.activa = none ∧ v.fecha_ingreso = some 1000) ∧
    (putVaca (Ejemplo.req "t1" 1 1 (Ejemplo.cuerpoVaca "A1")) Ejemplo.db).1.seq = Ejemplo.db.seq :=
  ⟨by decide, by decide, by decide,
    (putVaca_replaces_row (Ejemplo.req "t1" 1 1 (Ejemplo.cuerpoVaca "A1")) Ejemplo.db
      (by decide)).2.2.2.2.2.2.2.2.2.2.2.2.2⟩
/-! ## C16, C17, C18: what the alerts route answers -/

theorem callbackAlerta_error (env : Entorno) (hoy cuarentaYCincoDias : Int) (vaca : FilaPrenada) :
    callbackAlerta env hoy cuarentaYCincoDias vaca =
      .error (.referenceError "fechaPartaEstimada") := by
  rfl

theorem forEachAlertas_error (env : Entorno) (hoy cuarentaYCincoDias : Int)
    (rows : List FilaPrenada) :
    forEachAlertas (callbackAlerta env hoy cuarentaYCincoDias) rows [] =
      if rows = [] then .ok [] else .error (.referenceError "fechaPartaEstimada") := by
  cases rows with
  | nil => rfl
  | cons vaca resto =>
    rw [if_neg (List.cons_ne_nil _ _)]
    unfold forEachAlertas
    rw [callbackAlerta_error]

theorem getAlertas_eq (env : Entorno) (req : Req) (db : Db) :
    getAlertas env req db =
      (db, if enInteger req.establecimientoId = true ∧
          prenadasQuery db req.establecimientoId = [] then ⟨200, none, .alertas []⟩
        else errorInterno) := by
  unfold getAlertas
  dsimp only
  rw [forEachAlertas_error]
  by_cases he : enInteger req.establecimientoId = true
  · rw [if_pos he]
    by_cases h : prenadasQuery db req.establecimientoId = []
    · rw [if_pos h, if_pos ⟨he, h⟩]
    · rw [if_neg h, if_neg (fun h2 => h h2.2)]
  · rw [if_neg he, if_neg (fun h2 => he h2.1)]

theorem prenadasQuery_ne_nil_iff (db : Db) (e : Int) :
    prenadasQuery db e ≠ [] ↔
      ∃ v ∈ db.store.vacas, v.establecimiento_id = e ∧
        v.estado_reproductivo = some estadoDeLaConsulta ∧
        ∃ r ∈ db.store.registros_reproduccion,
          r.vaca_id = v.id ∧ r.tipo_evento = tipoDeLaConsulta := by
  constructor
  · intro h
    obtain ⟨fila, hf⟩ := List.exists_mem_of_ne_nil _ h
    unfold prenadasQuery at hf
    rw [List.mem_insertionSort, List.mem_flatten] at hf
    obtain ⟨l, hl, hfl⟩ := hf
    obtain ⟨v, hv, rfl⟩ := List.mem_map.1 hl
    obtain ⟨r, hr, _⟩ := List.mem_map.1 hfl
    obtain ⟨hvm, hvp⟩ := List.mem_filter.1 hv
    obtain ⟨hrm, hrp⟩ := List.mem_filter.1 hr
    simp only [Bool.and_eq_true, decide_eq_true_eq] at hvp hrp
    exact ⟨v, hvm, hvp.1, hvp.2, r, hrm, hrp.1.symm, hrp.2⟩
  · rintro ⟨v, hvm, hve, hvs, r, hrm, hrv, hrt⟩
    have hmem : (⟨v.id, v.caravana_interna, v.nombre, r.fecha_evento⟩ : FilaPrenada) ∈
        prenadasQuery db e := by
      unfold prenadasQuery
      rw [List.mem_insertionSort, List.mem_flatten]
      refine ⟨_, List.mem_map.2 ⟨v, List.mem_filter.2 ⟨hvm, ?_⟩, rfl⟩,
        List.mem_map.2 ⟨r, List.mem_filter.2 ⟨hrm, ?_⟩, rfl⟩⟩
      · simp only [Bool.and_eq_true, decide_eq_true_eq]
        exact ⟨hve, hvs⟩
      · simp only [Bool.and_eq_true, decide_eq_true_eq]
        exact ⟨hrv.symm, hrt⟩
    exact List.ne_nil_of_mem hmem

/-- **C18, as stated, fails.** Animal 1 of establishment 1 has reproductive status
'Preñada' and a 'Palpación' reproduction event, dated today.  The two literals
of the alert query hold U+FFFD where these texts hold ñ and ó: the query returns
no row and the route answers 200 with the empty list, not 500. -/
theorem getAlertas_prenada_palpacion_answers_200 :
    (∃ v ∈ (Ejemplo.dbPalpacion 1000).store.vacas, v.establecimiento_id = 1 ∧
      v.estado_reproductivo = some "Preñada" ∧
      ∃ r ∈ (Ejemplo.dbPalpacion 1000).store.registros_reproduccion,
        r.vaca_id = v.id ∧ r.tipo_evento = "Palpación") ∧
    prenadasQuery (Ejemplo.dbPalpacion 1000) 1 = [] ∧
    atender Ejemplo.env (.establecimiento .getAlertas) (Ejemplo.req "t1" 1 0 Cuerpo.vacio)
        (Ejemplo.dbPalpacion 1000) =
      (Ejemplo.dbPalpacion 1000, ⟨200, none, .alertas []⟩) :=
  ⟨by decide, by decide, by decide⟩

/-- **C18, amended.** The alert query returns a row exactly when an animal of the
establishment has the reproductive status that the query spells, `Pre`, U+FFFD,
`ada`, and a reproduction row of the event type that the query spells,
`Palpaci`, U+FFFD, `n`; neither is the text 'Preñada' or 'Palpación'.  The
callback of the loop ends, for every row and every date, in the `ReferenceError`
of `fechaPartaEstimada`; so when the query returns a row the handler answers
`errorInterno` (500) and the database is the one received, and an answer with
status 200 carries the empty list.  With an establishment id inside `INTEGER`
and no row returned the answer is 200 with the empty list. -/
theorem getAlertas_rows_answer_500 (env : Entorno) (req : Req) (db : Db) :
    (prenadasQuery db req.establecimientoId ≠ [] ↔
      ∃ v ∈ db.store.vacas, v.establecimiento_id = req.establecimientoId ∧
        v.estado_reproductivo = some estadoDeLaConsulta ∧
        ∃ r ∈ db.store.registros_reproduccion,
          r.vaca_id = v.id ∧ r.tipo_evento = tipoDeLaConsulta) ∧
    (estadoDeLaConsulta = String.mk [ 'P', 'r', 'e', Char.ofNat 0xFFFD, 'a', 'd', 'a' ] ∧
      tipoDeLaConsulta = String.mk [ 'P', 'a', 'l', 'p', 'a', 'c', 'i', Char.ofNat 0xFFFD, 'n' ] ∧
      estadoDeLaConsulta ≠ "Preñada" ∧ tipoDeLaConsulta ≠ "Palpación") ∧
    (∀ hoy cuarentaYCincoDias vaca, callbackAlerta env hoy cuarentaYCincoDias vaca =
      .error (.referenceError "fechaPartaEstimada")) ∧
    (prenadasQuery db req.establecimientoId ≠ [] →
      getAlertas env req db = (db, errorInterno)) ∧
    (enInteger req.establecimientoId = true → prenadasQuery db req.establecimientoId = [] →
      getAlertas env req db = (db, ⟨200, none, .alertas []⟩)) ∧
    ((getAlertas env req db).2.status = 200 → (getAlertas env req db).2.datos = .alertas []) ∧
    errorInterno.status = 500 := by
  refine ⟨prenadasQuery_ne_nil_iff db req.establecimientoId,
    ⟨by decide, by decide, by decide, by decide⟩,
    fun hoy c vaca => callbackAlerta_error env hoy c vaca, ?_, ?_, ?_, rfl⟩
  · intro h
    rw [getAlertas_eq, if_neg (fun h2 => h h2.2)]
  · intro he h
    rw [getAlertas_eq, if_pos ⟨he, h⟩]
  · rw [getAlertas_eq]
    by_cases h : enInteger req.establecimientoId = true ∧
        prenadasQuery db req.establecimientoId = []
    · rw [if_pos h]
      intro _
      rfl
    · rw [if_neg h]
      intro h5
      simp [errorInterno, soloMensaje] at h5

/-- Witness of C18 amended: one event of the type the query spells, dated today, far
outside any window, for an animal with the status the query spells, and the
answer is 500. -/
theorem getAlertas_rows_answer_500_witness :
    prenadasQuery (Ejemplo.dbConsultaEvento 1000) 1 ≠ [] ∧
    getAlertas Ejemplo.env (Ejemplo.req "t1" 1 0 Cuerpo.vacio) (Ejemplo.dbConsultaEvento 1000) =
      (Ejemplo.dbConsultaEvento 1000, errorInterno) :=
  ⟨by decide,
    (getAlertas_rows_answer_500 Ejemplo.env (Ejemplo.req "t1" 1 0 Cuerpo.vacio)
      (Ejemplo.dbConsultaEvento 1000)).2.2.2.1 (by decide)⟩

/-- **C17.** The alerts route leaves the database as it received it, and served again
on that database it gives the same database and the same response, whatever the
clock shows at either request, as long as the verifier judges the token alike. -/
theorem getAlertas_pure_read (env env2 : Entorno) (req : Req) (db : Db)
    (hverify : env2.verify = env.verify) :
    (atender env (.establecimiento .getAlertas) req db).1 = db ∧
    atender env2 (.establecimiento .getAlertas) req
        (atender env (.establecimiento .getAlertas) req db).1 =
      atender env (.establecimiento .getAlertas) req db ∧
    getAlertas env2 req (getAlertas env req db).1 = getAlertas env req db := by
  have h1 : (atender env (.establecimiento .getAlertas) req db).1 = db := by
    unfold atender atenderEstablecimiento
    dsimp only
    split
    · rfl
    · exact getAlertas_db env req db
  have hg : guardiaEstablecimiento env2 req db = guardiaEstablecimiento env req db := by
    unfold guardiaEstablecimiento authenticateToken
    rw [hverify]
  have h2 : getAlertas env2 req db = getAlertas env req db := by
    rw [getAlertas_eq env2, getAlertas_eq env]
  refine ⟨h1, ?_, ?_⟩
  · rw [h1]
    unfold atender atenderEstablecimiento
    dsimp only [RutaEstablecimiento.handler]
    rw [hg, h2]
  · rw [getAlertas_db, h2]

/-- Witness of C17: the alerts of establishment 1 asked twice, the second time a day
and an hour later. -/
theorem getAlertas_pure_read_witness :
    Ejemplo.envOtroReloj.hoy ≠ Ejemplo.env.hoy ∧
    atender Ejemplo.envOtroReloj (.establecimiento .getAlertas)
        (Ejemplo.req "t1" 1 0 Cuerpo.vacio)
        (atender Ejemplo.env (.establecimiento .getAlertas) (Ejemplo.req "t1" 1 0 Cuerpo.vacio)
          (Ejemplo.dbPalpacion 765)).1 =
      atender Ejemplo.env (.establecimiento .getAlertas) (Ejemplo.req "t1" 1 0 Cuerpo.vacio)
        (Ejemplo.dbPalpacion 765) :=
  ⟨by decide,
    (getAlertas_pure_read Ejemplo.env Ejemplo.envOtroReloj (Ejemplo.req "t1" 1 0 Cuerpo.vacio)
      (Ejemplo.dbPalpacion 765) rfl).2.1⟩

/-- **C16, the code at the failing input.** Today is day 1000.  Animal 1 of
establishment 1, 'Preñada', has two 'Palpación' rows, dated days 765 and 760 (due
days 1045 and 1040, both inside the window): the two literals of the alert query
hold U+FFFD where these texts hold ñ and ó, the query returns no row, and the
route answers 200 with the empty list instead of the two alerts.  When the
status and the event type are stored as the query spells them, the query returns
the two rows, newest first, and the route answers `errorInterno` (500) instead
of the two alerts, the loop body reading the unbound `fechaPartaEstimada`. -/
theorem getAlertas_two_rows_emit_no_alert :
    Ejemplo.env.hoy = 1000 ∧
    (∃ v ∈ Ejemplo.dbDosPalpaciones.store.vacas, v.id = 1 ∧ v.establecimiento_id = 1 ∧
      v.estado_reproductivo = some "Preñada") ∧
    Ejemplo.dbDosPalpaciones.store.registros_reproduccion =
      [⟨1, 1, 1, 760, none, "Palpación", none, none, none⟩,
        ⟨2, 1, 1, 765, none, "Palpación", none, none, none⟩] ∧
    prenadasQuery Ejemplo.dbDosPalpaciones 1 = [] ∧
    atender Ejemplo.env (.establecimiento .getAlertas) (Ejemplo.req "t1" 1 0 Cuerpo.vacio)
        Ejemplo.dbDosPalpaciones =
      (Ejemplo.dbDosPalpaciones, ⟨200, none, .alertas []⟩) ∧
    (∃ v ∈ Ejemplo.dbConsultaDosEventos.store.vacas, v.id = 1 ∧ v.establecimiento_id = 1 ∧
      v.estado_reproductivo = some estadoDeLaConsulta) ∧
    Ejemplo.dbConsultaDosEventos.store.registros_reproduccion =
      [⟨1, 1, 1, 760, none, tipoDeLaConsulta, none, none, none⟩,
        ⟨2, 1, 1, 765, none, tipoDeLaConsulta, none, none, none⟩] ∧
    prenadasQuery Ejemplo.dbConsultaDosEventos 1 =
      [⟨1, some "A1", none, 765⟩, ⟨1, some "A1", none, 760⟩] ∧
    atender Ejemplo.env (.establecimiento .getAlertas) (Ejemplo.req "t1" 1 0 Cuerpo.vacio)
        Ejemplo.dbConsultaDosEventos =
      (Ejemplo.dbConsultaDosEventos, errorInterno) ∧
    errorInterno.status = 500 := by
  refine ⟨by decide, by decide, by decide, by decide, by decide, by decide, by decide,
    by decide, by decide, rfl⟩
end Agromex
